import Mathlib

/-!
# Food donation lifecycle: a shallow embedding of the backend

The definitions below embed the Express/Mongoose backend
(`backend/models`, `backend/utils`, `backend/routes`) as pure functions over an
explicit `World` (the four Mongo collections plus the socket log).

Conventions of the embedding:

* an `ObjectId` is a natural number, a `Date` is an integer number of
  milliseconds, a JavaScript `Number` is an exact rational;
* every `new Date()` evaluated while one request is handled reads the same
  instant `now`;
* a route handler is a function from the world and the request to the HTTP
  response and the world afterwards; `await doc.save()` runs the schema's
  `pre('save')` hook and then replaces the stored document of the same `_id`;
* Mongoose's automatically maintained `updatedAt` is not part of the model;
* the persistence layer itself does not fail (no dropped connection).
-/

namespace FoodDonation

/-! ## Data model (`backend/models`) -/

abbrev ObjectId := Nat

/-- Milliseconds since the epoch, the value of a JavaScript `Date`. -/
abbrev Timestamp := Int

/-- The `status` enum of `donationSchema`. -/
inductive Status
  | pending | accepted | picked | completed | cancelled | expired
  deriving DecidableEq, Repr

/-- The `role` enum of `userSchema`. -/
inductive Role
  | donor | receiver | admin | volunteer
  deriving DecidableEq, Repr

/-- The `foodType` enum of `donationSchema`. -/
inductive FoodType
  | vegetarian | nonVegetarian | vegan | dessert | beverage | other
  deriving DecidableEq, Repr

/-- The `unit` enum of `donationSchema`. -/
inductive QuantityUnit
  | servings | plates | kg | pieces | liters
  deriving DecidableEq, Repr

/-- The `freshness` enum of `donationSchema`. -/
inductive Freshness
  | freshlyCooked | stored4hrs | stored8hrs | stored12hrs | other
  deriving DecidableEq, Repr

/-- The `quality` enum of `feedbackSchema`. -/
inductive Quality
  | excellent | good | average | poor
  deriving DecidableEq, Repr

structure Coordinates where
  lat : ℚ
  lng : ℚ
  deriving DecidableEq, Repr

structure Location where
  address : String
  coordinates : Coordinates
  deriving DecidableEq, Repr

structure TimeSlot where
  start : Timestamp
  stop : Timestamp
  deriving DecidableEq, Repr

structure VolunteerLocation where
  lat : ℚ
  lng : ℚ
  updatedAt : Timestamp
  deriving DecidableEq, Repr

/-- A document of the `Donation` collection (`models/Donation.js`). -/
structure Donation where
  _id : ObjectId
  donorId : ObjectId
  receiverId : Option ObjectId := none
  volunteerId : Option ObjectId := none
  foodName : String
  foodType : FoodType
  quantity : ℚ
  unit : QuantityUnit := QuantityUnit.servings
  description : Option String := none
  images : List String := []
  location : Location
  expiryTime : Timestamp
  availableTimeSlot : TimeSlot
  status : Status := Status.pending
  freshness : Freshness := Freshness.freshlyCooked
  foodHealthScore : ℚ := 10
  isEmergency : Bool := false
  acceptedAt : Option Timestamp := none
  pickedAt : Option Timestamp := none
  completedAt : Option Timestamp := none
  cancelledAt : Option Timestamp := none
  cancellationReason : Option String := none
  volunteerLocation : Option VolunteerLocation := none
  feedback : Option ObjectId := none
  createdAt : Timestamp
  deriving DecidableEq, Repr

structure Badge where
  name : String
  earnedAt : Timestamp
  deriving DecidableEq, Repr

/-- A document of the `User` collection (`models/User.js`), without the
credential and verification fields, which no lifecycle route reads. -/
structure User where
  _id : ObjectId
  name : String
  role : Role := Role.donor
  location : Option Location := none
  isActive : Bool := true
  points : Int := 0
  badges : List Badge := []
  organizationName : Option String := none
  deriving DecidableEq, Repr

/-- A document of the `Feedback` collection (`models/Feedback.js`). -/
structure Feedback where
  _id : ObjectId
  donationId : ObjectId
  receiverId : ObjectId
  donorId : ObjectId
  rating : Int
  freshnessScore : Int
  comments : Option String := none
  quality : Quality
  wouldAcceptAgain : Bool := true
  deriving DecidableEq, Repr

/-- The `data` payload handed to `sendNotification` by the routes. -/
structure NotificationData where
  donationId : Option ObjectId := none
  donorId : Option ObjectId := none
  receiverId : Option ObjectId := none
  volunteerId : Option ObjectId := none
  location : Option Location := none
  foodName : Option String := none
  quantity : Option ℚ := none
  unit : Option QuantityUnit := none
  deriving DecidableEq, Repr

/-- A document of the `Notification` collection (`models/Notification.js`). -/
structure Notification where
  _id : ObjectId
  userId : ObjectId
  type : String
  title : String
  message : String
  data : NotificationData := {}
  isRead : Bool := false
  readAt : Option Timestamp := none
  createdAt : Timestamp
  deriving DecidableEq, Repr

/-- The `type` enum of `notificationSchema`. -/
def notificationTypes : List String :=
  ["donation_available", "donation_accepted", "donation_picked", "donation_completed",
   "volunteer_assigned", "new_match", "feedback_received", "badge_earned",
   "points_earned", "admin_verification", "emergency_alert"]

/-- The database and the socket server seen by a request. `nextId` is the
supply of fresh `ObjectId`s; `io` tells whether `app.get('io')` is set;
`emitted` logs every `io.to(room).emit('notification', ..)`. -/
structure World where
  donations : List Donation := []
  users : List User := []
  feedbacks : List Feedback := []
  notifications : List Notification := []
  emitted : List Notification := []
  io : Bool := true
  nextId : ObjectId := 0
  deriving DecidableEq, Repr

/-- The projection of a donation that `GET /api/analytics/matching` returns. -/
structure MatchDonation where
  _id : ObjectId
  foodName : String
  foodType : FoodType
  quantity : ℚ
  location : Location
  expiryTime : Timestamp
  freshness : Freshness
  foodHealthScore : ℚ
  donorId : ObjectId
  deriving DecidableEq, Repr

/-- One entry of the `matches` array of `GET /api/analytics/matching`. -/
structure Match where
  donation : MatchDonation
  distance : ℚ
  matchScore : ℚ
  deriving DecidableEq, Repr

/-- One entry of the `timeline` array of `GET /api/donations/:id/tracking`;
`atTime` is the key `at`. -/
structure TimelineStep where
  step : String
  label : String
  description : String
  atTime : Option Timestamp
  done : Bool
  deriving DecidableEq, Repr

/-- A map point of the tracking view. -/
structure TrackingLocation where
  lat : ℚ
  lng : ℚ
  label : String
  address : Option String := none
  updatedAt : Option Timestamp := none
  deriving DecidableEq, Repr

/-- The object `tracking` of `GET /api/donations/:id/tracking`. -/
structure Tracking where
  donationId : ObjectId
  foodName : String
  status : Status
  donorLocation : Option TrackingLocation
  receiverLocation : Option TrackingLocation
  volunteerLocation : Option TrackingLocation
  donorName : Option String
  receiverName : Option String
  volunteerName : Option String
  volunteerId : Option ObjectId
  timeline : List TimelineStep
  updatedAt : Timestamp
  deriving DecidableEq, Repr

/-- One entry of a `donations` array of a listing: the document and, where the
handler adds it, the key `distance`. -/
structure ListedDonation where
  donation : Donation
  distance : Option ℚ := none
  deriving DecidableEq, Repr

/-! ## Requests and responses -/

/-- What a handler hands to `res.json` besides the `success` flag. -/
inductive Payload
  | message (m : String)
  | errors
  | donation (d : Donation)
  | feedback (f : Feedback)
  | volunteerLocation (v : VolunteerLocation)
  | matches (ms : List Match)
  | tracking (t : Tracking)
  | donations (ds : List ListedDonation)
  deriving DecidableEq, Repr

/-- An HTTP response: the status code, the `success` flag and the payload. -/
structure Response where
  status : Nat
  success : Bool
  payload : Payload
  deriving DecidableEq, Repr

/-- The body of `DELETE /api/donations/:id`. -/
structure CancelBody where
  reason : Option String := none
  deriving DecidableEq, Repr

/-- The body of `POST /api/donations/:id/feedback`. A field is `none` when the
body lacks it or carries a value that the validator of that field rejects as
malformed (a non-integer `rating`, a `quality` outside the enum). The three
reference fields are the keys of the same names that a client may add to the
body. -/
structure FeedbackBody where
  rating : Option Int := none
  freshnessScore : Option Int := none
  quality : Option Quality := none
  comments : Option String := none
  wouldAcceptAgain : Option Bool := none
  donationId : Option ObjectId := none
  receiverId : Option ObjectId := none
  donorId : Option ObjectId := none
  deriving DecidableEq, Repr

/-- A coordinate of a request body as the handler sees it: `absent` is a value
that is neither a number nor a string, `invalid` a string that `parseFloat`
turns into `NaN`, `number q` a number or numeric string. -/
inductive BodyNumber
  | absent
  | invalid
  | number (q : ℚ)
  deriving DecidableEq, Repr

/-- The body of `POST /api/donations/:id/volunteer-location`. -/
structure LocationBody where
  lat : BodyNumber := BodyNumber.absent
  lng : BodyNumber := BodyNumber.absent
  deriving DecidableEq, Repr

def jsonMessage (status : Nat) (m : String) : Response :=
  { status := status, success := false, payload := Payload.message m }

/-- Modelled from the spec: `middleware/auth.js` is not among the sources.
`protect` leaves the authenticated user in `req.user` (the `user` argument of
every handler below) and `authorize(...roles)` lets the request through exactly
when the role of `req.user` is one of `roles`. -/
def authorize (roles : List Role) (user : User) : Bool :=
  roles.contains user.role

/-- Modelled from the spec: the response of `authorize` to a role outside its
list, a `Forbidden` condition. -/
def authorizeDenied : Response :=
  jsonMessage 403 "Forbidden"

/-! ## Model methods and hooks -/

/-- `Model.findById` on the `Donation` collection. -/
def findDonation (w : World) (id : ObjectId) : Option Donation :=
  w.donations.find? (fun d => d._id == id)

/-- `Model.findById` on the `User` collection. -/
def findUser (w : World) (id : ObjectId) : Option User :=
  w.users.find? (fun u => u._id == id)

/-- The hook `donationSchema.pre('save')`: auto-expire donations. -/
def preSave (now : Timestamp) (d : Donation) : Donation :=
  if d.expiryTime < now && d.status == Status.pending then
    { d with status := Status.expired }
  else d

/-- The call `await donation.save()` on a loaded donation: the hook runs, then
the stored document of the same `_id` is replaced. Returns the in-memory
document after the hook together with the world. -/
def saveDonation (w : World) (now : Timestamp) (d : Donation) : Donation × World :=
  let d1 := preSave now d
  (d1, { w with donations := w.donations.map (fun x => if x._id == d1._id then d1 else x) })

/-- The method `userSchema.methods.addPoints`: `this.points += points` and a
save, which writes the modified path `points` of the stored user. -/
def addPoints (w : World) (user : User) (points : Int) : User × World :=
  let user1 := { user with points := user.points + points }
  let users1 := w.users.map
    (fun u => if u._id == user1._id then { u with points := user1.points } else u)
  (user1, { w with users := users1 })

/-- The method `userSchema.methods.addBadge`: push the badge and save unless a
badge of that name is already held. -/
def addBadge (w : World) (now : Timestamp) (user : User) (badgeName : String) : User × World :=
  let hasBadge := user.badges.any (fun badge => badge.name == badgeName)
  if !hasBadge then
    let user1 := { user with badges := user.badges ++ [{ name := badgeName, earnedAt := now }] }
    let users1 := w.users.map
      (fun u => if u._id == user1._id then { u with badges := user1.badges } else u)
    (user1, { w with users := users1 })
  else (user, w)

/-! ## `utils/sendNotification.js`, `utils/notifyVolunteers.js` -/

/-- The function `sendNotification`: `Notification.create` validates the
document (the `type` enum, the required `title` and `message`); on success the
notification is stored and, when `io` is set, emitted; a failed create is
caught and `null` is returned. -/
def sendNotification (w : World) (now : Timestamp) (userId : ObjectId)
    (type title message : String) (data : NotificationData) : Option Notification × World :=
  if notificationTypes.contains type && title != "" && message != "" then
    let n : Notification :=
      { _id := w.nextId, userId := userId, type := type, title := title,
        message := message, data := data, createdAt := now }
    let w1 := { w with notifications := w.notifications ++ [n], nextId := w.nextId + 1 }
    (some n, if w1.io then { w1 with emitted := w1.emitted ++ [n] } else w1)
  else (none, w)

/-- The double quote character of the message templates. -/
def dq : String := String.singleton (Char.ofNat 34)

/-- The function `notifyAllVolunteers`: one `donation_available` notification
for every active volunteer. -/
def notifyAllVolunteers (w : World) (now : Timestamp) (donation : Donation) : World :=
  let volunteers := w.users.filter (fun u => u.role == Role.volunteer && u.isActive)
  volunteers.foldl
    (fun acc volunteer =>
      (sendNotification acc now volunteer._id "donation_available" "New Donation Needs Pickup"
        ("A donation " ++ dq ++ donation.foodName ++ dq ++
          " has been accepted and needs pickup. Click to view details.")
        { donationId := some donation._id, donorId := some donation.donorId,
          receiverId := donation.receiverId, location := some donation.location,
          foodName := some donation.foodName, quantity := some donation.quantity,
          unit := some donation.unit }).2)
    w

/-! ## `utils/badgeSystem.js` -/

namespace BADGES

def HUNGER_HERO : String := "Hunger Hero"
def ZERO_WASTE_STAR : String := "Zero Waste Star"
def ECO_SAVER : String := "Eco Saver"
def FIRST_DONATION : String := "First Donation"
def MILESTONE_100 : String := "100 Meals Milestone"
def MILESTONE_500 : String := "500 Meals Milestone"
def VOLUNTEER_CHAMPION : String := "Volunteer Champion"
def QUALITY_MASTER : String := "Quality Master"

end BADGES

/-- The test `user.badges.some(b => b.name === name)`. -/
def hasBadgeNamed (user : User) (name : String) : Bool :=
  user.badges.any (fun b => b.name == name)

/-- The array `badgesToAdd` that `checkBadges` builds before adding anything. -/
def badgesToAdd (w : World) (user : User) (donation : Donation) : List String :=
  let first :=
    if donation.status == Status.completed && user.badges.length == 0 then
      [BADGES.FIRST_DONATION] else []
  let completedDonations :=
    w.donations.filter (fun d => d.donorId == user._id && d.status == Status.completed)
  let totalMeals : ℚ := (completedDonations.map (fun d => d.quantity)).sum
  let m100 :=
    if decide (totalMeals ≥ 100) && !hasBadgeNamed user BADGES.MILESTONE_100 then
      [BADGES.MILESTONE_100] else []
  let m500 :=
    if decide (totalMeals ≥ 500) && !hasBadgeNamed user BADGES.MILESTONE_500 then
      [BADGES.MILESTONE_500] else []
  let hero :=
    if decide (completedDonations.length ≥ 10) && !hasBadgeNamed user BADGES.HUNGER_HERO then
      [BADGES.HUNGER_HERO] else []
  let star :=
    if decide (completedDonations.length ≥ 50) && !hasBadgeNamed user BADGES.ZERO_WASTE_STAR then
      [BADGES.ZERO_WASTE_STAR] else []
  first ++ m100 ++ m500 ++ hero ++ star

/-- The function `checkBadges`: the badges to add, the user document after the
`addBadge` calls and the world. -/
def checkBadges (w : World) (now : Timestamp) (user : User) (donation : Donation) :
    List String × User × World :=
  let names := badgesToAdd w user donation
  let r := names.foldl
    (fun (acc : User × World) badgeName => addBadge acc.2 now acc.1 badgeName) (user, w)
  (names, r.1, r.2)

/-! ## `routes/donations.js` -/

/-- The handler `router.post('/:id/accept')`. -/
def acceptDonation (w : World) (now : Timestamp) (user : User) (id : ObjectId) :
    Response × World :=
  if !authorize [Role.receiver, Role.admin] user then (authorizeDenied, w) else
  match findDonation w id with
  | none => (jsonMessage 404 "Donation not found", w)
  | some donation =>
    if donation.status != Status.pending then
      (jsonMessage 400 "Donation is not available for acceptance", w)
    else
      let s := saveDonation w now
        { donation with
          receiverId := some user._id, status := Status.accepted, acceptedAt := some now }
      let p := addPoints s.2 user 5
      let n := sendNotification p.2 now s.1.donorId "donation_accepted" "Donation Accepted"
        (user.name ++ " has accepted your donation " ++ dq ++ s.1.foodName ++ dq)
        { donationId := some s.1._id, receiverId := some user._id }
      let w1 := notifyAllVolunteers n.2 now s.1
      ({ status := 200, success := true, payload := Payload.donation s.1 }, w1)

/-- The handler `router.post('/:id/complete')`. The donor is looked up after
the save; when the donor document is gone, `donor.addPoints` throws and the
`catch` answers 500 with the status already written. -/
def completeDonation (w : World) (now : Timestamp) (user : User) (id : ObjectId) :
    Response × World :=
  match findDonation w id with
  | none => (jsonMessage 404 "Donation not found", w)
  | some donation =>
    let canComplete :=
      donation.receiverId == some user._id ||
      donation.volunteerId == some user._id ||
      user.role == Role.admin
    if !canComplete then
      (jsonMessage 403 "Not authorized to complete this donation", w)
    else
      let s := saveDonation w now
        { donation with status := Status.completed, completedAt := some now }
      match findUser s.2 s.1.donorId with
      | none => (jsonMessage 500 "Server error completing donation", s.2)
      | some donor =>
        let p := addPoints s.2 donor 50
        let b := checkBadges p.2 now p.1 s.1
        let n1 := sendNotification b.2.2 now s.1.donorId "donation_completed"
          "Donation Completed"
          ("Your donation " ++ dq ++ s.1.foodName ++ dq ++ " has been successfully delivered")
          { donationId := some s.1._id }
        let w2 := match s.1.receiverId with
          | some receiverId =>
            (sendNotification n1.2 now receiverId "donation_completed" "Donation Delivered"
              ("The donation " ++ dq ++ s.1.foodName ++ dq ++
                " has been successfully delivered to you")
              { donationId := some s.1._id }).2
          | none => n1.2
        let w3 := match s.1.volunteerId with
          | some volunteerId =>
            (sendNotification w2 now volunteerId "donation_completed" "Delivery Completed"
              ("You have successfully delivered " ++ dq ++ s.1.foodName ++ dq)
              { donationId := some s.1._id }).2
          | none => w2
        ({ status := 200, success := true, payload := Payload.donation s.1 }, w3)

/-- The expression `req.body.reason || 'Cancelled by donor'`. -/
def cancellationReasonOf (body : CancelBody) : String :=
  match body.reason with
  | some r => if r == "" then "Cancelled by donor" else r
  | none => "Cancelled by donor"

/-- The handler `router.delete('/:id')`. -/
def cancelDonation (w : World) (now : Timestamp) (user : User) (id : ObjectId)
    (body : CancelBody) : Response × World :=
  match findDonation w id with
  | none => (jsonMessage 404 "Donation not found", w)
  | some donation =>
    if donation.donorId != user._id && user.role != Role.admin then
      (jsonMessage 403 "Not authorized to cancel this donation", w)
    else
      let s := saveDonation w now
        { donation with
          status := Status.cancelled, cancelledAt := some now,
          cancellationReason := some (cancellationReasonOf body) }
      let w1 := match s.1.receiverId with
        | some receiverId =>
          (sendNotification s.2 now receiverId "donation_cancelled" "Donation Cancelled"
            ("The donation " ++ dq ++ s.1.foodName ++ dq ++ " has been cancelled")
            { donationId := some s.1._id }).2
        | none => s.2
      ({ status := 200, success := true,
         payload := Payload.message "Donation cancelled successfully" }, w1)

/-- The handler `router.post('/:id/volunteer-location')`. A `NaN` coordinate
fails the `Number` cast when the donation is saved, which the `catch` answers
with 500. -/
def updateVolunteerLocation (w : World) (now : Timestamp) (user : User) (id : ObjectId)
    (body : LocationBody) : Response × World :=
  match findDonation w id with
  | none => (jsonMessage 404 "Donation not found", w)
  | some donation =>
    if donation.volunteerId != some user._id then
      (jsonMessage 403 "Not authorized", w)
    else
      match body.lat, body.lng with
      | BodyNumber.absent, _ => (jsonMessage 400 "lat and lng required", w)
      | BodyNumber.number lat, BodyNumber.number lng =>
        let s := saveDonation w now
          { donation with
            volunteerLocation := some { lat := lat, lng := lng, updatedAt := now } }
        ({ status := 200, success := true,
           payload := Payload.volunteerLocation { lat := lat, lng := lng, updatedAt := now } },
         s.2)
      | _, _ => (jsonMessage 500 "Server error updating location", w)

/-- The validators of `router.post('/:id/feedback')`: `rating` an integer in
1..5, `freshnessScore` an integer in 0..10, `quality` in the enum. -/
def feedbackBodyValid (body : FeedbackBody) : Bool :=
  match body.rating, body.freshnessScore, body.quality with
  | some rating, some freshnessScore, some _ =>
    decide (1 ≤ rating) && decide (rating ≤ 5) &&
      decide (0 ≤ freshnessScore) && decide (freshnessScore ≤ 10)
  | _, _, _ => false

/-- The document `Feedback.create` is called with: the three references come
first and `...req.body` is spread over them. -/
def feedbackOf (newId : ObjectId) (donation : Donation) (user : User) (body : FeedbackBody) :
    Feedback :=
  { _id := newId,
    donationId := body.donationId.getD donation._id,
    receiverId := body.receiverId.getD user._id,
    donorId := body.donorId.getD donation.donorId,
    rating := body.rating.getD 0,
    freshnessScore := body.freshnessScore.getD 0,
    comments := body.comments,
    quality := body.quality.getD Quality.good,
    wouldAcceptAgain := body.wouldAcceptAgain.getD true }

/-- The handler `router.post('/:id/feedback')`. -/
def submitFeedback (w : World) (now : Timestamp) (user : User) (id : ObjectId)
    (body : FeedbackBody) : Response × World :=
  if !authorize [Role.receiver, Role.admin] user then (authorizeDenied, w) else
  if !feedbackBodyValid body then
    ({ status := 400, success := false, payload := Payload.errors }, w)
  else
    match findDonation w id with
    | none => (jsonMessage 404 "Donation not found", w)
    | some donation =>
      if donation.receiverId != some user._id then
        (jsonMessage 403 "Not authorized to provide feedback for this donation", w)
      else
        let feedback := feedbackOf w.nextId donation user body
        let w1 := { w with feedbacks := w.feedbacks ++ [feedback], nextId := w.nextId + 1 }
        let s := saveDonation w1 now
          { donation with
            feedback := some feedback._id,
            foodHealthScore := ((body.freshnessScore.getD 0 : Int) : ℚ) }
        ({ status := 201, success := true, payload := Payload.feedback feedback }, s.2)

/-! ## `routes/donations.js`: creation -/

/-- The body of `POST /api/donations`. A validated field is `none` when the
body lacks it or its validator rejects the value, and `foodName` is the text
that the sanitizer `trim()` leaves in the body; the other fields are the
schema keys that a client may add to the body (`none` when absent);
`malformed` says that one of those carries a value that the schema cannot cast
or validate (a `unit` outside the enum, a text where a date is expected). -/
structure CreateBody where
  foodName : Option String := none
  foodType : Option FoodType := none
  quantity : Option Int := none
  locationAddress : Option String := none
  locationLat : Option ℚ := none
  locationLng : Option ℚ := none
  expiryTime : Option Timestamp := none
  availableTimeSlotStart : Option Timestamp := none
  availableTimeSlotEnd : Option Timestamp := none
  unit : Option QuantityUnit := none
  description : Option String := none
  images : Option (List String) := none
  freshness : Option Freshness := none
  foodHealthScore : Option ℚ := none
  isEmergency : Option Bool := none
  status : Option Status := none
  receiverId : Option ObjectId := none
  volunteerId : Option ObjectId := none
  acceptedAt : Option Timestamp := none
  pickedAt : Option Timestamp := none
  completedAt : Option Timestamp := none
  cancelledAt : Option Timestamp := none
  cancellationReason : Option String := none
  volunteerLocation : Option VolunteerLocation := none
  feedback : Option ObjectId := none
  malformed : Bool := false
  deriving DecidableEq, Repr

/-- The validators of `router.post('/')`. -/
def createBodyValid (body : CreateBody) : Bool :=
  match body.foodName, body.foodType, body.quantity, body.locationAddress, body.locationLat,
    body.locationLng, body.expiryTime, body.availableTimeSlotStart,
    body.availableTimeSlotEnd with
  | some foodName, some _, some quantity, some address, some _, some _, some _, some _,
    some _ => foodName != "" && decide (1 ≤ quantity) && address != ""
  | _, _, _, _, _, _, _, _, _ => false

/-- The schema validation that `Donation.create` runs on what the validators
let through: `foodHealthScore` within 0..10 and no malformed extra key. -/
def createSchemaValid (body : CreateBody) : Bool :=
  !body.malformed &&
    (match body.foodHealthScore with
     | some h => decide (0 ≤ h) && decide (h ≤ 10)
     | none => true)

/-- The document `Donation.create` is called with, `{ ...req.body, donorId:
req.user._id }`, with the schema defaults filled in. -/
def donationOf (newId : ObjectId) (now : Timestamp) (user : User) (body : CreateBody) :
    Donation :=
  { _id := newId,
    donorId := user._id,
    receiverId := body.receiverId,
    volunteerId := body.volunteerId,
    foodName := body.foodName.getD "",
    foodType := body.foodType.getD FoodType.other,
    quantity := ((body.quantity.getD 0 : Int) : ℚ),
    unit := body.unit.getD QuantityUnit.servings,
    description := body.description,
    images := body.images.getD [],
    location :=
      { address := body.locationAddress.getD "",
        coordinates := { lat := body.locationLat.getD 0, lng := body.locationLng.getD 0 } },
    expiryTime := body.expiryTime.getD 0,
    availableTimeSlot :=
      { start := body.availableTimeSlotStart.getD 0, stop := body.availableTimeSlotEnd.getD 0 },
    status := body.status.getD Status.pending,
    freshness := body.freshness.getD Freshness.freshlyCooked,
    foodHealthScore := body.foodHealthScore.getD 10,
    isEmergency := body.isEmergency.getD false,
    acceptedAt := body.acceptedAt,
    pickedAt := body.pickedAt,
    completedAt := body.completedAt,
    cancelledAt := body.cancelledAt,
    cancellationReason := body.cancellationReason,
    volunteerLocation := body.volunteerLocation,
    feedback := body.feedback,
    createdAt := now }

/-- The handler `router.post('/')`. `Donation.create` saves the new document,
so the `pre('save')` hook runs on it. -/
def createDonation (w : World) (now : Timestamp) (user : User) (body : CreateBody) :
    Response × World :=
  if !authorize [Role.donor, Role.receiver, Role.admin] user then (authorizeDenied, w) else
  if !createBodyValid body then
    ({ status := 400, success := false, payload := Payload.errors }, w)
  else if !createSchemaValid body then
    (jsonMessage 500 "Server error creating donation", w)
  else
    let donation := preSave now (donationOf w.nextId now user body)
    let w1 := { w with donations := w.donations ++ [donation], nextId := w.nextId + 1 }
    let p := addPoints w1 user 10
    ({ status := 201, success := true, payload := Payload.donation donation }, p.2)

/-! ## `routes/donations.js`: the tracking view -/

/-- The expression `a || b` on a string that may be missing: an empty or
missing `a` gives `b`. -/
def orElseString (a : Option String) (b : String) : String :=
  match a with
  | some s => if s == "" then b else s
  | none => b

/-- The display name `r.name || r.organizationName || 'Receiver'` of a
populated receiver. -/
def receiverDisplayName (r : User) : String :=
  orElseString (some (orElseString (some r.name) (r.organizationName.getD ""))) "Receiver"

/-- The array `timeline` of `router.get('/:id/tracking')`, built from the
donation and its populated parties (`null` when the user document is gone). -/
def timeline (donation : Donation) (donor receiver volunteer : Option User) :
    List TimelineStep :=
  [ { step := "created", label := "Donation Created",
      description := "Donation " ++ dq ++ donation.foodName ++ dq ++ " was created by " ++
        orElseString (donor.map (fun u => u.name)) "Donor",
      atTime := some donation.createdAt, done := true },
    { step := "accepted", label := "Accepted by Receiver",
      description := match receiver with
        | some r => "Accepted by " ++ receiverDisplayName r
        | none => "Waiting for acceptance",
      atTime := donation.acceptedAt, done := donation.acceptedAt.isSome },
    { step := "volunteer_notified", label := "Volunteers Notified",
      description := "All volunteers were notified about this pickup opportunity",
      atTime := donation.acceptedAt, done := donation.acceptedAt.isSome },
    { step := "volunteer_assigned", label := "Volunteer Accepted Delivery",
      description := match volunteer with
        | some v => "Volunteer " ++ v.name ++ " accepted the delivery"
        | none => "Waiting for volunteer",
      atTime := donation.pickedAt, done := volunteer.isSome },
    { step := "picked", label := "Picked Up from Donor",
      description := match volunteer with
        | some v => "Picked up by " ++ v.name
        | none => "Not yet picked up",
      atTime := donation.pickedAt,
      done := donation.status == Status.picked || donation.status == Status.completed },
    { step := "in_transit", label := "In Transit",
      description := match volunteer with
        | some _ => "On the way to delivery location"
        | none => "Not yet in transit",
      atTime := donation.pickedAt,
      done := donation.status == Status.picked || donation.status == Status.completed },
    { step := "completed", label := "Delivered Successfully",
      description := match receiver with
        | some r => "Successfully delivered to " ++ receiverDisplayName r
        | none => "Delivery completed",
      atTime := donation.completedAt, done := donation.status == Status.completed } ]

/-- The callback of `timeline.filter`: whether the step at `index` is shown. -/
def showStep (status : Status) (index : Nat) : Bool :=
  if status == Status.completed then true
  else if status == Status.picked then decide (index ≤ 5)
  else if status == Status.accepted then decide (index ≤ 2)
  else decide (index ≤ 0)

/-- The array `filteredTimeline` of `router.get('/:id/tracking')`. -/
def filteredTimeline (donation : Donation) (donor receiver volunteer : Option User) :
    List TimelineStep :=
  ((timeline donation donor receiver volunteer).enum.filter
    (fun p => showStep donation.status p.1)).map (fun p => p.2)

/-- The handler `router.get('/:id/tracking')`. The three parties are populated,
so each is the user document of that id or `null`. -/
def getTracking (w : World) (now : Timestamp) (user : User) (id : ObjectId) : Response :=
  match findDonation w id with
  | none => jsonMessage 404 "Donation not found"
  | some donation =>
    let donor := findUser w donation.donorId
    let receiver := donation.receiverId.bind (findUser w)
    let volunteer := donation.volunteerId.bind (findUser w)
    let isDonor := donor.map (fun u => u._id) == some user._id
    let isReceiver := receiver.map (fun u => u._id) == some user._id
    let isVolunteer := volunteer.map (fun u => u._id) == some user._id
    if !isDonor && !isReceiver && !isVolunteer && user.role != Role.admin then
      jsonMessage 403 "Not authorized to view this delivery"
    else
      let donorLocation : Option TrackingLocation :=
        some { lat := donation.location.coordinates.lat,
               lng := donation.location.coordinates.lng,
               label := "Donor (pickup)", address := some donation.location.address }
      let receiverLocation : Option TrackingLocation :=
        (receiver.bind (fun r => r.location)).map (fun l =>
          { lat := l.coordinates.lat, lng := l.coordinates.lng,
            label := "NGO / Receiver", address := some l.address })
      let volunteerLocation : Option TrackingLocation :=
        match donation.volunteerLocation with
        | some v => some { lat := v.lat, lng := v.lng, label := "Volunteer",
                           updatedAt := some v.updatedAt }
        | none => (volunteer.bind (fun v => v.location)).map (fun l =>
            { lat := l.coordinates.lat, lng := l.coordinates.lng, label := "Volunteer" })
      { status := 200, success := true,
        payload := Payload.tracking
          { donationId := donation._id, foodName := donation.foodName,
            status := donation.status, donorLocation := donorLocation,
            receiverLocation := receiverLocation, volunteerLocation := volunteerLocation,
            donorName := donor.map (fun u => u.name),
            receiverName := receiver.map (fun u => u.name),
            volunteerName := volunteer.map (fun u => u.name),
            volunteerId := volunteer.map (fun u => u._id),
            timeline := filteredTimeline donation donor receiver volunteer,
            updatedAt := now } }

/-! ## The tracking steps as the specification words them -/

/-- The spec's fixed step sequence. -/
def specSteps : List String :=
  ["created", "accepted", "volunteer_notified", "volunteer_assigned", "picked",
   "in_transit", "completed"]

/-- The spec's number of steps shown: 1 for pending, 3 for accepted (through
volunteer_notified), 6 for picked (through in_transit), 7 for completed; the
two other states show what pending shows. -/
def specVisibleSteps : Status → Nat
  | Status.pending => 1
  | Status.accepted => 3
  | Status.picked => 6
  | Status.completed => 7
  | Status.cancelled => 1
  | Status.expired => 1

/-! ## `routes/donations.js`: reading -/

/-- The query string of `GET /api/donations`: `status` is `none` when absent
(the handler then takes 'pending'), `isEmergency` says whether the key is the
text 'true', `page` and `limit` are the numbers given or the defaults. -/
structure ListQuery where
  status : Option Status := none
  foodType : Option FoodType := none
  minQuantity : Option Int := none
  maxDistance : Option ℚ := none
  lat : Option ℚ := none
  lng : Option ℚ := none
  isEmergency : Bool := false
  page : Nat := 1
  limit : Nat := 20
  deriving DecidableEq, Repr

/-- The Mongo filter `query` that `router.get('/')` builds. -/
def listFilter (q : ListQuery) (d : Donation) : Bool :=
  d.status == q.status.getD Status.pending &&
  (match q.foodType with
   | some t => d.foodType == t
   | none => true) &&
  (if q.isEmergency then d.isEmergency else true) &&
  (match q.minQuantity with
   | some m => decide ((m : ℚ) ≤ d.quantity)
   | none => true)

/-- The handler `router.get('/')`: filter, newest first, one page, then the
distance filter and the distance annotation. A `limit` of 0 is no limit; a
`page` of 0 asks for a negative skip, which the database refuses. The route
never reads the clock and never saves. -/
def listDonations (getDistance : Coordinates → Coordinates → Nat) (w : World)
    (user : Option User) (q : ListQuery) : Response :=
  if q.page = 0 then jsonMessage 500 "Server error fetching donations" else
  let found := w.donations.filter (listFilter q)
  let sorted := found.insertionSort (fun a b => b.createdAt ≤ a.createdAt)
  let skipped := sorted.drop ((q.page - 1) * q.limit)
  let paged := if q.limit = 0 then skipped else skipped.take q.limit
  let near := match q.lat, q.lng, q.maxDistance with
    | some lat, some lng, some maxDistance =>
      paged.filter (fun (d : Donation) =>
        decide ((getDistance { lat := lat, lng := lng } d.location.coordinates : ℚ) / 1000
          ≤ maxDistance))
    | _, _, _ => paged
  let listed : List ListedDonation := match q.lat, q.lng, user with
    | some lat, some lng, some _ =>
      near.map (fun (d : Donation) =>
        { donation := d,
          distance :=
            some ((getDistance { lat := lat, lng := lng } d.location.coordinates : ℚ) / 1000) })
    | _, _, _ => near.map (fun d => { donation := d })
  { status := 200, success := true, payload := Payload.donations listed }

/-- The handler `router.get('/:id')`: the stored document as it is. The route
never reads the clock and never saves. -/
def getDonation (w : World) (id : ObjectId) : Response :=
  match findDonation w id with
  | none => jsonMessage 404 "Donation not found"
  | some donation =>
    { status := 200, success := true, payload := Payload.donation donation }

/-! ## `routes/donations.js`: editing -/

/-- The body of `PUT /api/donations/:id`: for every key of the schema, `none`
when the body lacks it and the new value otherwise (for a key that may be set
to `null`, `some none`); `malformed` says that a key carries a value that the
schema cannot cast or that its validators reject outright (a status outside the
enum, a `null` donorId). -/
structure EditBody where
  donorId : Option ObjectId := none
  receiverId : Option (Option ObjectId) := none
  volunteerId : Option (Option ObjectId) := none
  foodName : Option String := none
  foodType : Option FoodType := none
  quantity : Option ℚ := none
  unit : Option QuantityUnit := none
  description : Option (Option String) := none
  images : Option (List String) := none
  location : Option Location := none
  expiryTime : Option Timestamp := none
  availableTimeSlot : Option TimeSlot := none
  status : Option Status := none
  freshness : Option Freshness := none
  foodHealthScore : Option ℚ := none
  isEmergency : Option Bool := none
  acceptedAt : Option (Option Timestamp) := none
  pickedAt : Option (Option Timestamp) := none
  completedAt : Option (Option Timestamp) := none
  cancelledAt : Option (Option Timestamp) := none
  cancellationReason : Option (Option String) := none
  volunteerLocation : Option (Option VolunteerLocation) := none
  feedback : Option (Option ObjectId) := none
  malformed : Bool := false
  deriving DecidableEq, Repr

/-- The update validators (`runValidators: true`) on the keys of the body:
required texts are not empty, `quantity` is at least 1, `foodHealthScore` lies
within 0..10. -/
def editBodyValid (body : EditBody) : Bool :=
  !body.malformed &&
  (match body.foodName with
   | some s => s != ""
   | none => true) &&
  (match body.location with
   | some l => l.address != ""
   | none => true) &&
  (match body.quantity with
   | some q => decide (1 ≤ q)
   | none => true) &&
  (match body.foodHealthScore with
   | some h => decide (0 ≤ h) && decide (h ≤ 10)
   | none => true)

/-- The document after `findByIdAndUpdate(id, req.body)`: every key of the body
replaces the stored value. -/
def applyEdit (d : Donation) (body : EditBody) : Donation :=
  { _id := d._id,
    donorId := body.donorId.getD d.donorId,
    receiverId := body.receiverId.getD d.receiverId,
    volunteerId := body.volunteerId.getD d.volunteerId,
    foodName := body.foodName.getD d.foodName,
    foodType := body.foodType.getD d.foodType,
    quantity := body.quantity.getD d.quantity,
    unit := body.unit.getD d.unit,
    description := body.description.getD d.description,
    images := body.images.getD d.images,
    location := body.location.getD d.location,
    expiryTime := body.expiryTime.getD d.expiryTime,
    availableTimeSlot := body.availableTimeSlot.getD d.availableTimeSlot,
    status := body.status.getD d.status,
    freshness := body.freshness.getD d.freshness,
    foodHealthScore := body.foodHealthScore.getD d.foodHealthScore,
    isEmergency := body.isEmergency.getD d.isEmergency,
    acceptedAt := body.acceptedAt.getD d.acceptedAt,
    pickedAt := body.pickedAt.getD d.pickedAt,
    completedAt := body.completedAt.getD d.completedAt,
    cancelledAt := body.cancelledAt.getD d.cancelledAt,
    cancellationReason := body.cancellationReason.getD d.cancellationReason,
    volunteerLocation := body.volunteerLocation.getD d.volunteerLocation,
    feedback := body.feedback.getD d.feedback,
    createdAt := d.createdAt }

/-- The handler `router.put('/:id')`. `findByIdAndUpdate` writes the keys of the
body and runs no `save` hook; a rejected update is caught and answered 500. -/
def updateDonation (w : World) (user : User) (id : ObjectId) (body : EditBody) :
    Response × World :=
  match findDonation w id with
  | none => (jsonMessage 404 "Donation not found", w)
  | some donation =>
    if donation.donorId != user._id && user.role != Role.admin then
      (jsonMessage 403 "Not authorized to update this donation", w)
    else if donation.status == Status.accepted || donation.status == Status.picked then
      (jsonMessage 400 "Cannot update donation that has been accepted", w)
    else if !editBodyValid body then
      (jsonMessage 500 "Server error updating donation", w)
    else
      let updated := applyEdit donation body
      let donations1 := w.donations.map (fun x => if x._id == updated._id then updated else x)
      ({ status := 200, success := true, payload := Payload.donation updated },
       { w with donations := donations1 })

/-! ## `routes/volunteers.js` -/

/-- The handler `router.post('/assign/:donationId')`. The donation is loaded
with `donorId` and `receiverId` populated, so a party is notified only when its
user document exists. -/
def assignVolunteer (w : World) (now : Timestamp) (user : User) (donationId : ObjectId) :
    Response × World :=
  if !authorize [Role.volunteer, Role.admin] user then (authorizeDenied, w) else
  match findDonation w donationId with
  | none => (jsonMessage 404 "Donation not found", w)
  | some donation =>
    if donation.status != Status.accepted then
      (jsonMessage 400 "Donation is not available for pickup", w)
    else if donation.volunteerId.isSome then
      (jsonMessage 400 "Donation already has a volunteer assigned", w)
    else
      let s := saveDonation w now
        { donation with
          volunteerId := some user._id, status := Status.picked, pickedAt := some now }
      let p := addPoints s.2 user 20
      let w1 := match findUser w donation.donorId with
        | some donor =>
          (sendNotification p.2 now donor._id "donation_picked" "Donation Picked Up"
            (user.name ++ " has picked up your donation")
            { donationId := some s.1._id, volunteerId := some user._id }).2
        | none => p.2
      let w2 := match donation.receiverId.bind (findUser w) with
        | some receiver =>
          (sendNotification w1 now receiver._id "donation_picked" "Donation Picked Up"
            (user.name ++ " is delivering your donation")
            { donationId := some s.1._id, volunteerId := some user._id }).2
        | none => w1
      ({ status := 200, success := true, payload := Payload.donation s.1 }, w2)

/-! ## `routes/analytics.js`: the matching score -/

/-- The table `freshnessScores`; on the enum the fallback `|| 10` is never
taken. -/
def freshnessScores : Freshness → ℚ
  | Freshness.freshlyCooked => 30
  | Freshness.stored4hrs => 25
  | Freshness.stored8hrs => 20
  | Freshness.stored12hrs => 15
  | Freshness.other => 10

/-- The constant `distanceScore` of the scoring callback. -/
def distanceScore (distance : ℚ) : ℚ :=
  max 0 (40 * (1 - distance / 10))

/-- The constant `quantityScore` of the scoring callback. -/
def quantityScore (donation : Donation) : ℚ :=
  min 20 (donation.quantity / 5)

/-- The constant `hoursUntilExpiry` of the scoring callback. -/
def hoursUntilExpiry (donation : Donation) (now : Timestamp) : ℚ :=
  ((donation.expiryTime - now : Int) : ℚ) / (1000 * 60 * 60)

/-- The variable `score` of the scoring callback when the callback returns,
before rounding. -/
def matchScore (distance : ℚ) (donation : Donation) (now : Timestamp) : ℚ :=
  let score : ℚ := 0
  let score := score + distanceScore distance
  let score := score + freshnessScores donation.freshness
  let score := score + quantityScore donation
  let score := score + (donation.foodHealthScore / 10) * 10
  if hoursUntilExpiry donation now < 2 then score + 10 else score

/-- The expression `Math.round(x * 100) / 100` of the scoring callback on exact
numbers; `Math.round` rounds a tie upwards. The callback only displays the
result; where a rounded number is compared, in `/available`, `roundedKm`
follows the binary64 operations instead. -/
def round2 (x : ℚ) : ℚ :=
  ((Int.floor (x * 100 + 1 / 2) : Int) : ℚ) / 100

/-- The constant `distance` of the scoring callback: `getDistance` of the
library `geolib` (a whole number of metres), divided by 1000. -/
def distanceKm (getDistance : Coordinates → Coordinates → Nat) (userLocation : Coordinates)
    (donation : Donation) : ℚ :=
  (getDistance userLocation donation.location.coordinates : ℚ) / 1000

/-- The callback of `donations.map` in `router.get('/matching')`. -/
def matchOf (getDistance : Coordinates → Coordinates → Nat) (userLocation : Coordinates)
    (now : Timestamp) (donation : Donation) : Match :=
  let distance := distanceKm getDistance userLocation donation
  { donation :=
      { _id := donation._id, foodName := donation.foodName, foodType := donation.foodType,
        quantity := donation.quantity, location := donation.location,
        expiryTime := donation.expiryTime, freshness := donation.freshness,
        foodHealthScore := donation.foodHealthScore, donorId := donation.donorId },
    distance := round2 distance,
    matchScore := round2 (matchScore distance donation now) }

/-- The handler `router.get('/matching')`; `sort` is stable. -/
def getMatches (getDistance : Coordinates → Coordinates → Nat) (w : World) (now : Timestamp)
    (lat lng : Option ℚ) : Response :=
  match lat, lng with
  | some lat, some lng =>
    let donations := w.donations.filter
      (fun d => d.status == Status.pending && decide (d.expiryTime > now))
    let ms := donations.map (matchOf getDistance { lat := lat, lng := lng } now)
    let sorted := ms.insertionSort (fun a b => b.matchScore - a.matchScore ≤ 0)
    { status := 200, success := true, payload := Payload.matches (sorted.take 10) }
  | _, _ => jsonMessage 400 "Location coordinates are required"

/-! ## Binary64 arithmetic

JavaScript numbers are IEEE 754 binary64. The distance of the available
donations is rounded and then compared, so there the rounding of each operation
is followed exactly: a number is kept as a fraction of two naturals, and every
operation is the exact result brought to the nearest binary64 number. -/

/-- A non-negative number `num / den`. -/
structure Fraction where
  num : Nat
  den : Nat
  deriving DecidableEq, Repr

def Fraction.toRat (x : Fraction) : ℚ :=
  (x.num : ℚ) / x.den

def log2Fuel : Nat → Nat → Nat
  | 0, _ => 0
  | fuel + 1, n => if 2 ≤ n then log2Fuel fuel (n / 2) + 1 else 0

/-- The number of halvings that bring `n` below 2: the floor of its binary
logarithm, for positive `n`. -/
def log2Floor (n : Nat) : Nat :=
  log2Fuel n n

/-- The floor of the binary logarithm of `a / b`, for positive `a` and `b`. -/
def binaryExponent (a b : Nat) : Int :=
  let e0 : Int := (log2Floor a : Int) - (log2Floor b : Int)
  if 0 ≤ e0 then (if b * 2 ^ e0.toNat ≤ a then e0 else e0 - 1)
  else (if b ≤ a * 2 ^ (-e0).toNat then e0 else e0 - 1)

/-- The whole number nearest to `a / b`, a tie going to the even one. -/
def roundHalfEven (a b : Nat) : Nat :=
  let q := a / b
  let r := a % b
  if 2 * r < b then q else if b < 2 * r then q + 1 else if q % 2 = 0 then q else q + 1

/-- The binary64 number nearest to `x` (round to nearest, ties to even): a
significand of 53 bits at the binary exponent of `x`. Numbers outside the
normal range of binary64 (below 2^-1022 or from 2^1024 on) do not occur in the
distances of this program and are not treated apart. -/
def toBinary64 (x : Fraction) : Fraction :=
  if x.num = 0 then { num := 0, den := 1 } else
  let s := binaryExponent x.num x.den - 52
  if s ≤ 0 then
    { num := roundHalfEven (x.num * 2 ^ (-s).toNat) x.den, den := 2 ^ (-s).toNat }
  else
    { num := roundHalfEven x.num (x.den * 2 ^ s.toNat) * 2 ^ s.toNat, den := 1 }

/-- The three operations of `/available` on a distance of `metres` metres:
`distance = getDistance(..) / 1000`, then `Math.round(distance * 100) / 100`.
`Math.round` gives the nearest whole number, a tie going upwards. -/
def roundedKmFraction (metres : Nat) : Fraction :=
  let distance := toBinary64 { num := metres, den := 1000 }
  let scaled := toBinary64 { num := distance.num * 100, den := distance.den }
  let rounded := (2 * scaled.num + scaled.den) / (2 * scaled.den)
  toBinary64 { num := rounded, den := 100 }

/-- The property `distance` of an entry of `/available`. -/
def roundedKm (metres : Nat) : ℚ :=
  (roundedKmFraction metres).toRat

/-! ## `routes/volunteers.js`: the available donations -/

/-- The callback of `donations.map` in `router.get('/available')`: the donation
with its distance, measured to the profile coordinates of the populated donor
and rounded, or `null` when the donor has no coordinates or one of them is
falsy (0). -/
def availableEntry (getDistance : Coordinates → Coordinates → Nat) (w : World)
    (userLocation : Coordinates) (donation : Donation) : Option (Donation × ℚ) :=
  match (findUser w donation.donorId).bind (fun u => u.location) with
  | some l =>
    if l.coordinates.lat = 0 ∨ l.coordinates.lng = 0 then none
    else some (donation, roundedKm (getDistance userLocation l.coordinates))
  | none => none

/-- The Mongo filter of `router.get('/available')`: status pending or accepted
and no volunteer. -/
def availableFilter (d : Donation) : Bool :=
  (d.status == Status.pending || d.status == Status.accepted) && d.volunteerId.isNone

/-- The handler `router.get('/available')`. The donor of every candidate is
populated; reading `.location` of a donor whose document is gone throws, which
the catch answers with 500. `lat`, `lng` and `maxDistance` are the numbers that
`parseFloat` returns; `maxDistance` defaults to 10. -/
def getAvailableForVolunteer (getDistance : Coordinates → Coordinates → Nat) (w : World)
    (user : User) (lat lng maxDistance : Option ℚ) : Response :=
  if !authorize [Role.volunteer, Role.admin] user then authorizeDenied else
  match lat, lng with
  | some lat, some lng =>
    let donations := (w.donations.filter availableFilter).insertionSort
      (fun a b => b.createdAt ≤ a.createdAt)
    if donations.any (fun d => (findUser w d.donorId).isNone) then
      jsonMessage 500 "Server error fetching available donations"
    else
      let mapped := donations.filterMap
        (availableEntry getDistance w { lat := lat, lng := lng })
      let near := mapped.filter (fun p => decide (p.2 ≤ maxDistance.getD 10))
      let sorted := near.insertionSort (fun a b => a.2 - b.2 ≤ 0)
      { status := 200, success := true,
        payload := Payload.donations
          (sorted.map (fun p => { donation := p.1, distance := some p.2 })) }
  | _, _ => jsonMessage 400 "Location coordinates are required"

/-! ## The available donations as the specification words them -/

/-- The spec's view: the donations with status pending or accepted and no
volunteer whose distance from the requester to the donation's own coordinates
is at most `maxDistance`, each with that distance. -/
def specAvailable (getDistance : Coordinates → Coordinates → Nat) (w : World)
    (userLocation : Coordinates) (maxDistance : ℚ) : List (Donation × ℚ) :=
  ((w.donations.filter availableFilter).map
    (fun d => (d, (getDistance userLocation d.location.coordinates : ℚ) / 1000))).filter
    (fun p => decide (p.2 ≤ maxDistance))

/-! ## The scoring formula as the specification words it -/

/-- The spec's `clamp(x, lo, hi)`. -/
def clamp (x lo hi : ℚ) : ℚ :=
  max lo (min x hi)

/-- The spec's `freshnessWeight`: 30/25/20/15/10 for
freshly-cooked/stored-4hrs/stored-8hrs/stored-12hrs/other. -/
def specFreshnessWeight : Freshness → ℚ
  | Freshness.freshlyCooked => 30
  | Freshness.stored4hrs => 25
  | Freshness.stored8hrs => 20
  | Freshness.stored12hrs => 15
  | Freshness.other => 10

/-- The spec's score: `clamp(40*(1 - d/10), 0, 40) + freshnessWeight(freshness)
+ min(20, quantity/5) + foodHealthScore + (10 if hoursUntilExpiry < 2 else 0)`. -/
def specMatchScore (d : ℚ) (donation : Donation) (now : Timestamp) : ℚ :=
  clamp (40 * (1 - d / 10)) 0 40 + specFreshnessWeight donation.freshness
    + min 20 (donation.quantity / 5) + donation.foodHealthScore
    + (if ((donation.expiryTime - now : Int) : ℚ) / 3600000 < 2 then 10 else 0)

/-! ## The badge rules as the specification words them -/

/-- The donor's full history of completed donations. -/
def completedDonationsOf (w : World) (donorId : ObjectId) : List Donation :=
  w.donations.filter (fun d => d.donorId == donorId && d.status == Status.completed)

/-- The spec's total meal count: the sum of quantities over the donor's
completed donations. -/
def specTotalMeals (w : World) (donorId : ObjectId) : ℚ :=
  ((completedDonationsOf w donorId).map (fun d => d.quantity)).sum

/-- The spec's completed-donation count. -/
def specCompletedCount (w : World) (donorId : ObjectId) : Nat :=
  (completedDonationsOf w donorId).length

/-- The badge that `addBadge` pushes for a name at time `now`. -/
def badgeAt (now : Timestamp) (name : String) : Badge :=
  { name := name, earnedAt := now }

/-- A call on a donor's badges: `checkBadges(user, donation)` made when the
donation collection is `history`, or `user.addBadge(badgeName)`. -/
inductive BadgeCall
  | check (history : List Donation) (donation : Donation)
  | add (badgeName : String)

/-- One call at time `now` on the donor document and the world. -/
def runBadgeCall (s : User × World) (now : Timestamp) : BadgeCall → User × World
  | BadgeCall.check history donation =>
    (checkBadges { s.2 with donations := history } now s.1 donation).2
  | BadgeCall.add badgeName => addBadge s.2 now s.1 badgeName

/-- A sequence of timed calls, one after the other. -/
def runBadgeCalls (s : User × World) (calls : List (Timestamp × BadgeCall)) : User × World :=
  calls.foldl (fun acc c => runBadgeCall acc c.1 c.2) s

/-! ## The matching route as the specification words it -/

/-- The candidates of `getMatches`: the donations with status pending and
`expiryTime` later than now. -/
def matchCandidates (w : World) (now : Timestamp) : List Donation :=
  w.donations.filter (fun d => d.status == Status.pending && decide (d.expiryTime > now))

/-! ## Runs of lifecycle requests -/

/-- A request to one of the lifecycle routes, with its authenticated caller. -/
inductive LifecycleOp
  | accept (user : User) (id : ObjectId)
  | assign (user : User) (id : ObjectId)
  | complete (user : User) (id : ObjectId)
  | cancel (user : User) (id : ObjectId) (body : CancelBody)
  | feedback (user : User) (id : ObjectId) (body : FeedbackBody)
  deriving DecidableEq, Repr

/-- The authenticated caller of a request. -/
def LifecycleOp.caller : LifecycleOp → User
  | LifecycleOp.accept user _ => user
  | LifecycleOp.assign user _ => user
  | LifecycleOp.complete user _ => user
  | LifecycleOp.cancel user _ _ => user
  | LifecycleOp.feedback user _ _ => user

/-- The world after the handler of the request has run at time `now`. -/
def stepOp (w : World) (now : Timestamp) : LifecycleOp → World
  | LifecycleOp.accept user id => (acceptDonation w now user id).2
  | LifecycleOp.assign user id => (assignVolunteer w now user id).2
  | LifecycleOp.complete user id => (completeDonation w now user id).2
  | LifecycleOp.cancel user id body => (cancelDonation w now user id body).2
  | LifecycleOp.feedback user id body => (submitFeedback w now user id body).2

/-- The world after a sequence of timed requests, handled one after the other. -/
def runOps (w : World) (ops : List (Timestamp × LifecycleOp)) : World :=
  ops.foldl (fun acc o => stepOp acc o.1 o.2) w

/-- A donation as `createDonation` stores it when the body carries no lifecycle
key: no receiver, no volunteer, no feedback, none of the four lifecycle
timestamps, and status pending or, for one created past its expiry, expired. -/
def isNewlyCreated (d : Donation) : Bool :=
  d.receiverId.isNone && d.volunteerId.isNone && d.feedback.isNone &&
  d.acceptedAt.isNone && d.pickedAt.isNone && d.completedAt.isNone && d.cancelledAt.isNone &&
  (d.status == Status.pending || d.status == Status.expired)

/-- What one request at time `now` can make of a stored donation: nothing, or
the write of the handler whose guard the donation and the caller pass. -/
inductive Transition (now : Timestamp) : LifecycleOp → Donation → Donation → Prop
  | skip (op : LifecycleOp) (d : Donation) : Transition now op d d
  | accept (user : User) (id : ObjectId) (d : Donation) :
      d.status = Status.pending →
      Transition now (LifecycleOp.accept user id) d
        { d with receiverId := some user._id, status := Status.accepted,
                 acceptedAt := some now }
  | assign (user : User) (id : ObjectId) (d : Donation) :
      d.status = Status.accepted → d.volunteerId = none →
      Transition now (LifecycleOp.assign user id) d
        { d with volunteerId := some user._id, status := Status.picked,
                 pickedAt := some now }
  | complete (user : User) (id : ObjectId) (d : Donation) :
      (d.receiverId = some user._id ∨ d.volunteerId = some user._id ∨
        user.role = Role.admin) →
      Transition now (LifecycleOp.complete user id) d
        { d with status := Status.completed, completedAt := some now }
  | cancel (user : User) (id : ObjectId) (body : CancelBody) (d : Donation) :
      (d.donorId = user._id ∨ user.role = Role.admin) →
      Transition now (LifecycleOp.cancel user id body) d
        { d with status := Status.cancelled, cancelledAt := some now,
                 cancellationReason := some (cancellationReasonOf body) }
  | feedback (user : User) (id : ObjectId) (body : FeedbackBody) (fid : ObjectId)
      (d : Donation) :
      d.receiverId = some user._id →
      Transition now (LifecycleOp.feedback user id body) d
        (preSave now { d with feedback := some fid,
                              foodHealthScore := ((body.freshnessScore.getD 0 : Int) : ℚ) })

/-- The bookkeeping of the lifecycle timestamps of a donation at clock reading
`t`: no timestamp is later than `t`, a pending donation has none of the three,
an accepted one has neither `pickedAt` nor `completedAt`, and the timestamps
that are present are in the order accepted, picked, completed. -/
def Stamped (t : Timestamp) (d : Donation) : Prop :=
  (∀ a, d.acceptedAt = some a → a ≤ t) ∧
  (∀ p, d.pickedAt = some p → p ≤ t) ∧
  (∀ c, d.completedAt = some c → c ≤ t) ∧
  (d.status = Status.pending →
    d.acceptedAt = none ∧ d.pickedAt = none ∧ d.completedAt = none) ∧
  (d.status = Status.accepted → d.pickedAt = none ∧ d.completedAt = none) ∧
  (∀ a p, d.acceptedAt = some a → d.pickedAt = some p → a ≤ p) ∧
  (∀ p c, d.pickedAt = some p → d.completedAt = some c → p ≤ c)

/-! ## Rejected effects

The handlers above are written for a database and a socket server that answer.
The definitions of this section repeat `sendNotification`, `checkBadges` and the
complete handler with the awaited calls that may reject made explicit, each
`try`/`catch` of the source standing where the source has it. -/

/-- The awaited calls after the first save that reject in a request:
`Notification.create`, `io.to(..).emit` and the `Donation.find` of
`checkBadges`. -/
structure Faults where
  notificationCreate : Bool := false
  emit : Bool := false
  badgeQuery : Bool := false
  deriving DecidableEq, Repr

/-- The function `sendNotification` with its `try`/`catch`: a rejected
`Notification.create` stores nothing, a throwing `emit` leaves the stored
notification without a push; both are caught and `null` is returned. -/
def sendNotificationUnder (f : Faults) (w : World) (now : Timestamp) (userId : ObjectId)
    (type title message : String) (data : NotificationData) : Option Notification × World :=
  if f.notificationCreate then (none, w)
  else if notificationTypes.contains type && title != "" && message != "" then
    let n : Notification :=
      { _id := w.nextId, userId := userId, type := type, title := title,
        message := message, data := data, createdAt := now }
    let w1 := { w with notifications := w.notifications ++ [n], nextId := w.nextId + 1 }
    if w1.io then
      if f.emit then (none, w1) else (some n, { w1 with emitted := w1.emitted ++ [n] })
    else (some n, w1)
  else (none, w)

/-- The function `checkBadges`, which has no `try`/`catch`: a rejected
`Donation.find` rejects the call (`none`) before any badge is added. -/
def checkBadgesUnder (f : Faults) (w : World) (now : Timestamp) (user : User)
    (donation : Donation) : Option (List String × User × World) :=
  if f.badgeQuery then none else some (checkBadges w now user donation)

/-- The handler `router.post('/:id/complete')` with its `try`/`catch`: the
calls `donor.addPoints` and `checkBadges` are awaited inside the handler's own
`try`, so a rejection there is answered by its `catch` with 500, after the
save. -/
def completeDonationUnder (f : Faults) (w : World) (now : Timestamp) (user : User)
    (id : ObjectId) : Response × World :=
  match findDonation w id with
  | none => (jsonMessage 404 "Donation not found", w)
  | some donation =>
    let canComplete :=
      donation.receiverId == some user._id ||
      donation.volunteerId == some user._id ||
      user.role == Role.admin
    if !canComplete then
      (jsonMessage 403 "Not authorized to complete this donation", w)
    else
      let s := saveDonation w now
        { donation with status := Status.completed, completedAt := some now }
      match findUser s.2 s.1.donorId with
      | none => (jsonMessage 500 "Server error completing donation", s.2)
      | some donor =>
        let p := addPoints s.2 donor 50
        match checkBadgesUnder f p.2 now p.1 s.1 with
        | none => (jsonMessage 500 "Server error completing donation", p.2)
        | some b =>
          let n1 := sendNotificationUnder f b.2.2 now s.1.donorId "donation_completed"
            "Donation Completed"
            ("Your donation " ++ dq ++ s.1.foodName ++ dq ++ " has been successfully delivered")
            { donationId := some s.1._id }
          let w2 := match s.1.receiverId with
            | some receiverId =>
              (sendNotificationUnder f n1.2 now receiverId "donation_completed"
                "Donation Delivered"
                ("The donation " ++ dq ++ s.1.foodName ++ dq ++
                  " has been successfully delivered to you")
                { donationId := some s.1._id }).2
            | none => n1.2
          let w3 := match s.1.volunteerId with
            | some volunteerId =>
              (sendNotificationUnder f w2 now volunteerId "donation_completed"
                "Delivery Completed"
                ("You have successfully delivered " ++ dq ++ s.1.foodName ++ dq)
                { donationId := some s.1._id }).2
            | none => w2
          ({ status := 200, success := true, payload := Payload.donation s.1 }, w3)

/-! ## Observations on a world -/

/-- The stored status of the donation `id`, if there is one. -/
def statusOf (w : World) (id : ObjectId) : Option Status :=
  (findDonation w id).map (fun d => d.status)

/-- The terminal states of the lifecycle: completed, cancelled, expired. -/
def isTerminal (s : Status) : Bool :=
  s == Status.completed || s == Status.cancelled || s == Status.expired

/-- The stored points of the user `id`, if there is one. -/
def pointsOf (w : World) (id : ObjectId) : Option Int :=
  (findUser w id).map (fun u => u.points)

/-- Between the worlds `w` and `w1` the stored user `id` gains exactly `n`
points and the points of every other user are the same. -/
def PointsGain (w w1 : World) (id : ObjectId) (n : Int) : Prop :=
  (∃ p, pointsOf w id = some p ∧ pointsOf w1 id = some (p + n)) ∧
  ∀ other, other ≠ id → pointsOf w1 other = pointsOf w other

/-- Between the worlds `w` and `w1` nobody's points change. -/
def PointsSame (w w1 : World) : Prop :=
  ∀ id, pointsOf w1 id = pointsOf w id

/-- The timeline that `getTracking` builds for the stored donation `d`: the
three parties are the user documents that `populate` finds in the world. -/
def populatedTimeline (w : World) (d : Donation) : List TimelineStep :=
  filteredTimeline d (findUser w d.donorId) (d.receiverId.bind (findUser w))
    (d.volunteerId.bind (findUser w))

/-! ## Sample data -/

def sampleLocation : Location :=
  { address := "12 Market Road", coordinates := { lat := 12, lng := 77 } }

/-- A pending donation of donor 1, expiring at time 100. -/
def sampleDonation : Donation :=
  { _id := 1, donorId := 1, foodName := "Rice", foodType := FoodType.vegetarian,
    quantity := 50, location := sampleLocation, expiryTime := 100,
    availableTimeSlot := { start := 0, stop := 100 }, createdAt := 0 }

def sampleDonor : User := { _id := 1, name := "Dora", role := Role.donor }
def sampleReceiver : User := { _id := 2, name := "Ravi", role := Role.receiver }
def sampleVolunteer : User := { _id := 3, name := "Vik", role := Role.volunteer }
def sampleVolunteer2 : User := { _id := 4, name := "Uma", role := Role.volunteer }

def sampleUsers : List User :=
  [sampleDonor, sampleReceiver, sampleVolunteer, sampleVolunteer2]

/-- The sample donation after receiver 2 accepted it. -/
def acceptedDonation : Donation :=
  { sampleDonation with status := Status.accepted, receiverId := some 2, acceptedAt := some 10 }

/-- The sample donation after volunteer 3 claimed it. -/
def pickedDonation : Donation :=
  { acceptedDonation with status := Status.picked, volunteerId := some 3, pickedAt := some 20 }

/-- The sample donation after delivery. -/
def completedDonation : Donation :=
  { pickedDonation with status := Status.completed, completedAt := some 30 }

/-- The accepted sample donation after its donor cancelled it. -/
def cancelledDonation : Donation :=
  { acceptedDonation with status := Status.cancelled, cancelledAt := some 15,
                          cancellationReason := some "Cancelled by donor" }

/-- The sample donation, expired. -/
def expiredDonation : Donation :=
  { sampleDonation with status := Status.expired }

/-- The completed sample donation with a feedback already linked. -/
def reviewedDonation : Donation :=
  { completedDonation with feedback := some 7, foodHealthScore := 9 }

/-- The pending sample donation with a receiver written into it. -/
def reservedDonation : Donation :=
  { sampleDonation with receiverId := some 2 }

/-- The feedback that `reviewedDonation` links. -/
def sampleFeedback : Feedback :=
  { _id := 7, donationId := 1, receiverId := 2, donorId := 1, rating := 5,
    freshnessScore := 9, quality := Quality.excellent }

/-- A feedback body that passes the validators. -/
def sampleFeedbackBody : FeedbackBody :=
  { rating := some 2, freshnessScore := some 3, quality := some Quality.poor }

/-- The sample donation with quantity 100. -/
def bulkDonation : Donation :=
  { sampleDonation with quantity := 100 }

/-- A world holding the donation `d` and the four sample users. -/
def sampleWorld (d : Donation) : World :=
  { donations := [d], users := sampleUsers, nextId := 100 }

/-- A body for `POST /api/donations` with the validated fields only. -/
def sampleCreateBody : CreateBody :=
  { foodName := some "Rice", foodType := some FoodType.vegetarian, quantity := some 50,
    locationAddress := some "12 Market Road", locationLat := some 12, locationLng := some 77,
    expiryTime := some 100, availableTimeSlotStart := some 0,
    availableTimeSlotEnd := some 100 }

/-- The four sample users and no donation yet. -/
def registeredWorld : World :=
  { users := sampleUsers, nextId := 100 }

/-- The world after donor 1 has created a donation (it gets the id 100) at
time 0 with the sample body. -/
def createdWorld : World :=
  (createDonation registeredWorld 0 sampleDonor sampleCreateBody).2

/-- The donation that `createdWorld` holds, after receiver 2 accepted it at
time 10. -/
def createdAccepted : Donation :=
  { donationOf 100 0 sampleDonor sampleCreateBody with
    receiverId := some 2, status := Status.accepted, acceptedAt := some 10 }

/-- A feedback body that passes the validators and also carries the three
reference keys. -/
def forgedFeedbackBody : FeedbackBody :=
  { rating := some 2, freshnessScore := some 3, quality := some Quality.poor,
    donationId := some 999, receiverId := some 5, donorId := some 6 }

/-- The sample create body with lifecycle keys added. -/
def forgedCreateBody : CreateBody :=
  { sampleCreateBody with status := some Status.completed, receiverId := some 2,
                          volunteerId := some 3 }

/-- An edit body that carries the four keys of status and parties. -/
def forgedEditBody : EditBody :=
  { donorId := some 9, receiverId := some (some 2), volunteerId := some (some 3),
    status := some Status.completed }

/-- A stand-in for `geolib.getDistance` on the sample coordinates: 0 metres
between equal points, 946 km otherwise. -/
def sampleDistance (a b : Coordinates) : Nat :=
  if a = b then 0 else 946000

/-- Donor 1 with profile coordinates away from the sample donation. -/
def farDonor : User :=
  { sampleDonor with
    location := some { address := "Harbour", coordinates := { lat := 20, lng := 80 } } }

/-- Donor 1 with the profile coordinates of the sample donation. -/
def nearDonor : User :=
  { sampleDonor with location := some sampleLocation }

/-- The pending sample donation, its donor being `u`, and volunteer 3. -/
def profileWorld (u : User) : World :=
  { donations := [sampleDonation], users := [u, sampleVolunteer], nextId := 100 }

/-- The picked sample donation with a donor reference that no user document
answers. -/
def orphanDonation : Donation :=
  { pickedDonation with donorId := 9 }

/-! ## Theorems -/

/-! ### Frame lemmas: what the side effects leave alone -/

theorem preSave_id (now : Timestamp) (d : Donation) : (preSave now d)._id = d._id := by
  unfold preSave; split <;> rfl

theorem preSave_of_not_pending (now : Timestamp) (d : Donation)
    (h : d.status ≠ Status.pending) : preSave now d = d := by
  simp [preSave, h]

theorem find_replace (l : List Donation) (id : ObjectId) (d d1 : Donation)
    (h : l.find? (fun x => x._id == id) = some d) (h1 : d1._id = id) :
    (l.map (fun x => if x._id == d1._id then d1 else x)).find? (fun x => x._id == id)
      = some d1 := by
  induction l with
  | nil => simp at h
  | cons x xs ih =>
    by_cases hx : x._id = id
    · simp [List.find?, hx, h1]
    · have hx1 : (x._id == id) = false := by simpa using hx
      simp only [List.find?, hx1] at h
      have hx2 : (x._id == d1._id) = false := by rw [h1]; exact hx1
      simp only [List.map_cons, hx2, List.find?, Bool.false_eq_true, if_false, hx1]
      exact ih h

theorem findDonation_saveDonation (w : World) (now : Timestamp) (id : ObjectId)
    (d d1 : Donation) (h : findDonation w id = some d) (h1 : d1._id = id) :
    findDonation (saveDonation w now d1).2 id = some (preSave now d1) := by
  unfold findDonation saveDonation
  exact find_replace w.donations id d (preSave now d1) h (by rw [preSave_id, h1])

theorem saveDonation_fst (w : World) (now : Timestamp) (d : Donation) :
    (saveDonation w now d).1 = preSave now d := rfl

theorem findDonation_id (w : World) (id : ObjectId) (d : Donation)
    (h : findDonation w id = some d) : d._id = id := by
  unfold findDonation at h
  have := List.find?_some h
  simpa using this

theorem sendNotification_donations (w : World) (now : Timestamp) (userId : ObjectId)
    (type title message : String) (data : NotificationData) :
    (sendNotification w now userId type title message data).2.donations = w.donations := by
  unfold sendNotification
  split
  · dsimp only; split <;> rfl
  · rfl

theorem notifyAllVolunteers_donations (w : World) (now : Timestamp) (donation : Donation) :
    (notifyAllVolunteers w now donation).donations = w.donations := by
  unfold notifyAllVolunteers
  generalize w.users.filter (fun u => u.role == Role.volunteer && u.isActive) = vs
  induction vs generalizing w with
  | nil => rfl
  | cons v vs ih => rw [List.foldl_cons, ih, sendNotification_donations]

theorem addPoints_donations (w : World) (user : User) (points : Int) :
    (addPoints w user points).2.donations = w.donations := rfl

theorem addBadge_donations (w : World) (now : Timestamp) (user : User) (badgeName : String) :
    (addBadge w now user badgeName).2.donations = w.donations := by
  unfold addBadge; dsimp only; split <;> rfl

theorem checkBadges_donations (w : World) (now : Timestamp) (user : User)
    (donation : Donation) :
    (checkBadges w now user donation).2.2.donations = w.donations := by
  unfold checkBadges
  generalize badgesToAdd w user donation = names
  dsimp only
  induction names generalizing w user with
  | nil => rfl
  | cons n ns ih => rw [List.foldl_cons, ih, addBadge_donations]

theorem findDonation_congr (w w1 : World) (id : ObjectId)
    (h : w1.donations = w.donations) : findDonation w1 id = findDonation w id := by
  unfold findDonation; rw [h]

/-! ### What each handler leaves in the store -/

theorem cancelDonation_find (w : World) (now : Timestamp) (user : User) (id : ObjectId)
    (body : CancelBody) (d : Donation) (hfind : findDonation w id = some d)
    (hallowed : d.donorId = user._id ∨ user.role = Role.admin) :
    (cancelDonation w now user id body).1 =
      { status := 200, success := true,
        payload := Payload.message "Donation cancelled successfully" } ∧
    findDonation (cancelDonation w now user id body).2 id =
      some { d with status := Status.cancelled, cancelledAt := some now,
                    cancellationReason := some (cancellationReasonOf body) } := by
  have hid := findDonation_id w id d hfind
  have hguard : (d.donorId != user._id && user.role != Role.admin) = false := by
    rcases hallowed with h | h <;> simp [h]
  have hsave := findDonation_saveDonation w now id d
    { d with status := Status.cancelled, cancelledAt := some now,
             cancellationReason := some (cancellationReasonOf body) } hfind hid
  rw [preSave_of_not_pending _ _ (by simp)] at hsave
  unfold cancelDonation
  simp only [hfind, hguard, Bool.false_eq_true, if_false]
  refine ⟨trivial, ?_⟩
  rw [← hsave]
  apply findDonation_congr
  dsimp only
  split
  · rw [sendNotification_donations]
  · rfl

theorem cancelDonation_denied (w : World) (now : Timestamp) (user : User) (id : ObjectId)
    (body : CancelBody) (d : Donation) (hfind : findDonation w id = some d)
    (hdonor : d.donorId ≠ user._id) (hrole : user.role ≠ Role.admin) :
    cancelDonation w now user id body =
      (jsonMessage 403 "Not authorized to cancel this donation", w) := by
  simp [cancelDonation, hfind, hdonor, hrole]

theorem completeDonation_find (w : World) (now : Timestamp) (user : User) (id : ObjectId)
    (d : Donation) (hfind : findDonation w id = some d)
    (hcan : d.receiverId = some user._id ∨ d.volunteerId = some user._id ∨
      user.role = Role.admin) :
    findDonation (completeDonation w now user id).2 id =
      some { d with status := Status.completed, completedAt := some now } := by
  have hid := findDonation_id w id d hfind
  have hguard : (d.receiverId == some user._id || d.volunteerId == some user._id ||
      user.role == Role.admin) = true := by
    rcases hcan with h | h | h <;> simp [h]
  have hsave := findDonation_saveDonation w now id d
    { d with status := Status.completed, completedAt := some now } hfind hid
  rw [preSave_of_not_pending _ _ (by simp)] at hsave
  unfold completeDonation
  simp only [hfind, hguard, Bool.not_true, Bool.false_eq_true, if_false]
  rw [← hsave]
  apply findDonation_congr
  dsimp only
  split
  · rfl
  · dsimp only
    split <;> split <;>
      simp only [sendNotification_donations, checkBadges_donations, addPoints_donations]

theorem completeDonation_denied (w : World) (now : Timestamp) (user : User) (id : ObjectId)
    (d : Donation) (hfind : findDonation w id = some d)
    (hr : d.receiverId ≠ some user._id) (hv : d.volunteerId ≠ some user._id)
    (hrole : user.role ≠ Role.admin) :
    completeDonation w now user id =
      (jsonMessage 403 "Not authorized to complete this donation", w) := by
  simp [completeDonation, hfind, hr, hv, hrole]

theorem submitFeedback_rejected (w : World) (now : Timestamp) (user : User) (id : ObjectId)
    (body : FeedbackBody) (d : Donation) (hfind : findDonation w id = some d)
    (h : authorize [Role.receiver, Role.admin] user = false ∨ feedbackBodyValid body = false ∨
      d.receiverId ≠ some user._id) :
    (submitFeedback w now user id body).2 = w ∧
    (submitFeedback w now user id body).1.status ≠ 201 := by
  unfold submitFeedback
  by_cases ha : authorize [Role.receiver, Role.admin] user = true
  · by_cases hv : feedbackBodyValid body = true
    · have hr : d.receiverId ≠ some user._id := by
        rcases h with h | h | h
        · rw [ha] at h; cases h
        · rw [hv] at h; cases h
        · exact h
      simp [ha, hv, hfind, hr, jsonMessage]
    · simp [ha, hv]
  · simp [ha, authorizeDenied, jsonMessage]

theorem submitFeedback_accepted (w : World) (now : Timestamp) (user : User) (id : ObjectId)
    (body : FeedbackBody) (d : Donation) (hfind : findDonation w id = some d)
    (ha : authorize [Role.receiver, Role.admin] user = true)
    (hv : feedbackBodyValid body = true) (hr : d.receiverId = some user._id) :
    (submitFeedback w now user id body).1 =
      { status := 201, success := true,
        payload := Payload.feedback (feedbackOf w.nextId d user body) } ∧
    (submitFeedback w now user id body).2.feedbacks =
      w.feedbacks ++ [feedbackOf w.nextId d user body] ∧
    findDonation (submitFeedback w now user id body).2 id =
      some (preSave now { d with feedback := some w.nextId,
                                 foodHealthScore := ((body.freshnessScore.getD 0 : Int) : ℚ) }) := by
  have hid := findDonation_id w id d hfind
  unfold submitFeedback
  simp only [ha, hv, hfind, hr, Bool.not_true, Bool.false_eq_true, if_false, bne_self_eq_false]
  refine ⟨trivial, rfl, ?_⟩
  exact findDonation_saveDonation
    { w with feedbacks := w.feedbacks ++ [feedbackOf w.nextId d user body],
             nextId := w.nextId + 1 } now id d _ hfind hid

theorem updateVolunteerLocation_status (w : World) (now : Timestamp) (user : User)
    (id : ObjectId) (body : LocationBody) (d : Donation)
    (hfind : findDonation w id = some d) (hs : d.status ≠ Status.pending) :
    statusOf (updateVolunteerLocation w now user id body).2 id = some d.status := by
  have hid := findDonation_id w id d hfind
  have hw : statusOf w id = some d.status := by simp [statusOf, hfind]
  unfold updateVolunteerLocation
  simp only [hfind]
  split
  · exact hw
  · split
    · exact hw
    · unfold statusOf
      dsimp only
      rw [findDonation_saveDonation w now id d _ hfind,
        preSave_of_not_pending _ _ (by simpa using hs)]
      · rfl
      · exact hid
    · exact hw

/-- C1: on a donation whose status is not pending, `acceptDonation` by a
receiver or an admin answers 400 'Donation is not available for acceptance' and
changes nothing in the world, so the donation's receiverId, status and
acceptedAt and the caller's points are as before. -/
theorem acceptDonation_not_pending (w : World) (now : Timestamp) (user : User)
    (id : ObjectId) (donation : Donation)
    (hrole : user.role = Role.receiver ∨ user.role = Role.admin)
    (hfind : findDonation w id = some donation)
    (hstatus : donation.status ≠ Status.pending) :
    acceptDonation w now user id =
      (jsonMessage 400 "Donation is not available for acceptance", w) := by
  have hauth : authorize [Role.receiver, Role.admin] user = true := by
    rcases hrole with h | h <;> simp [authorize, h]
  simp [acceptDonation, hauth, hfind, hstatus]

/-- C1 at a concrete input: receiver 2 accepts again a donation that is
already accepted. -/
theorem acceptDonation_not_pending_witness :
    (sampleReceiver.role = Role.receiver ∨ sampleReceiver.role = Role.admin) ∧
    findDonation (sampleWorld acceptedDonation) 1 = some acceptedDonation ∧
    acceptedDonation.status ≠ Status.pending ∧
    acceptDonation (sampleWorld acceptedDonation) 50 sampleReceiver 1 =
      (jsonMessage 400 "Donation is not available for acceptance",
        sampleWorld acceptedDonation) :=
  ⟨Or.inl rfl, by decide, by decide,
   acceptDonation_not_pending (sampleWorld acceptedDonation) 50 sampleReceiver 1
     acceptedDonation (Or.inl rfl) (by decide) (by decide)⟩

/-- C2 (the code at the failing input): a pending donation whose expiryTime
100 is earlier than the current time 200 is accepted all the same: the answer
is 200 and afterwards the stored donation has status accepted and the caller
as receiverId. -/
theorem acceptDonation_past_expiry_accepts :
    findDonation (sampleWorld sampleDonation) 1 = some sampleDonation ∧
    sampleDonation.status = Status.pending ∧
    sampleDonation.expiryTime < 200 ∧
    (acceptDonation (sampleWorld sampleDonation) 200 sampleReceiver 1).1.status = 200 ∧
    (findDonation (acceptDonation (sampleWorld sampleDonation) 200 sampleReceiver 1).2 1).map
        (fun d => (d.status, d.receiverId, d.acceptedAt))
      = some (Status.accepted, some 2, some 200) := by
  decide

/-- C3: when the donation already has a volunteer `v1`, `assignVolunteer` by
a volunteer (or an admin) answers 400 and changes nothing in the world: the
stored volunteerId is still `v1`, and status, pickedAt and every user's points
are as before. -/
theorem assignVolunteer_already_claimed (w : World) (now : Timestamp) (user : User)
    (id : ObjectId) (donation : Donation) (v1 : ObjectId)
    (hrole : user.role = Role.volunteer ∨ user.role = Role.admin)
    (hfind : findDonation w id = some donation)
    (hvol : donation.volunteerId = some v1) :
    (assignVolunteer w now user id).1.status = 400 ∧
    (assignVolunteer w now user id).1.success = false ∧
    (assignVolunteer w now user id).2 = w ∧
    (findDonation (assignVolunteer w now user id).2 id).map (fun d => d.volunteerId)
      = some (some v1) := by
  have hauth : authorize [Role.volunteer, Role.admin] user = true := by
    rcases hrole with h | h <;> simp [authorize, h]
  by_cases hs : donation.status = Status.accepted
  · simp [assignVolunteer, hauth, hfind, hs, hvol, jsonMessage]
  · simp [assignVolunteer, hauth, hfind, hs, hvol, jsonMessage]

/-- C3 at a concrete input: volunteer 4 tries to claim a picked donation that
volunteer 3 holds. -/
theorem assignVolunteer_already_claimed_witness :
    (sampleVolunteer2.role = Role.volunteer ∨ sampleVolunteer2.role = Role.admin) ∧
    findDonation (sampleWorld pickedDonation) 1 = some pickedDonation ∧
    pickedDonation.volunteerId = some 3 ∧
    (assignVolunteer (sampleWorld pickedDonation) 50 sampleVolunteer2 1).1.status = 400 ∧
    (assignVolunteer (sampleWorld pickedDonation) 50 sampleVolunteer2 1).2 =
      sampleWorld pickedDonation :=
  ⟨Or.inl rfl, by decide, rfl,
   (assignVolunteer_already_claimed (sampleWorld pickedDonation) 50 sampleVolunteer2 1
      pickedDonation 3 (Or.inl rfl) (by decide) rfl).1,
   (assignVolunteer_already_claimed (sampleWorld pickedDonation) 50 sampleVolunteer2 1
      pickedDonation 3 (Or.inl rfl) (by decide) rfl).2.2.1⟩

/-- C4 (counterexample): a completed donation is cancelled by its owning
donor, a non-admin, and its status moves from completed to cancelled; a
cancelled donation is completed by its receiver and moves from cancelled to
completed. -/
theorem terminal_status_counterexample :
    sampleDonor.role = Role.donor ∧
    statusOf (sampleWorld completedDonation) 1 = some Status.completed ∧
    statusOf (cancelDonation (sampleWorld completedDonation) 50 sampleDonor 1 {}).2 1 =
      some Status.cancelled ∧
    statusOf (sampleWorld cancelledDonation) 1 = some Status.cancelled ∧
    statusOf (completeDonation (sampleWorld cancelledDonation) 50 sampleReceiver 1).2 1 =
      some Status.completed := by
  refine ⟨by decide, by decide, by decide, by decide, ?_⟩
  unfold statusOf
  rw [completeDonation_find (sampleWorld cancelledDonation) 50 sampleReceiver 1
    cancelledDonation (by decide) (Or.inl rfl)]
  rfl

/-- C4 (amended): on a donation whose status is completed, cancelled or
expired, accept, assign volunteer, feedback submission and volunteer-location
update leave the status as it is, whoever calls; cancel and complete carry no
status guard: cancel sets the status to cancelled when the caller is the donor
or an admin, complete sets it to completed when the caller is the receiver, the
assigned volunteer or an admin, and otherwise each leaves it as it is. -/
theorem terminal_status_amended (w : World) (now : Timestamp) (user : User) (id : ObjectId)
    (d : Donation) (fbody : FeedbackBody) (lbody : LocationBody) (cbody : CancelBody)
    (hfind : findDonation w id = some d) (hterm : isTerminal d.status = true) :
    statusOf (acceptDonation w now user id).2 id = some d.status ∧
    statusOf (assignVolunteer w now user id).2 id = some d.status ∧
    statusOf (submitFeedback w now user id fbody).2 id = some d.status ∧
    statusOf (updateVolunteerLocation w now user id lbody).2 id = some d.status ∧
    statusOf (cancelDonation w now user id cbody).2 id =
      some (if d.donorId = user._id ∨ user.role = Role.admin then Status.cancelled
            else d.status) ∧
    statusOf (completeDonation w now user id).2 id =
      some (if d.receiverId = some user._id ∨ d.volunteerId = some user._id ∨
              user.role = Role.admin then Status.completed
            else d.status) := by
  have hw : statusOf w id = some d.status := by simp [statusOf, hfind]
  have hnp : d.status ≠ Status.pending := by
    intro h; rw [h] at hterm; exact absurd hterm (by decide)
  have hna : d.status ≠ Status.accepted := by
    intro h; rw [h] at hterm; exact absurd hterm (by decide)
  refine ⟨?_, ?_, ?_, updateVolunteerLocation_status w now user id lbody d hfind hnp, ?_, ?_⟩
  · have : (acceptDonation w now user id).2 = w := by
      unfold acceptDonation
      split
      · rfl
      · simp [hfind, hnp]
    rw [this]; exact hw
  · have : (assignVolunteer w now user id).2 = w := by
      unfold assignVolunteer
      split
      · rfl
      · simp [hfind, hna]
    rw [this]; exact hw
  · by_cases h : authorize [Role.receiver, Role.admin] user = true ∧
        feedbackBodyValid fbody = true ∧ d.receiverId = some user._id
    · obtain ⟨ha, hv, hr⟩ := h
      unfold statusOf
      rw [(submitFeedback_accepted w now user id fbody d hfind ha hv hr).2.2,
        preSave_of_not_pending _ _ (by simpa using hnp)]
      rfl
    · have h1 : authorize [Role.receiver, Role.admin] user = false ∨
          feedbackBodyValid fbody = false ∨ d.receiverId ≠ some user._id := by
        by_cases ha : authorize [Role.receiver, Role.admin] user = true
        · by_cases hv : feedbackBodyValid fbody = true
          · exact Or.inr (Or.inr (fun hr => h ⟨ha, hv, hr⟩))
          · exact Or.inr (Or.inl (by simpa using hv))
        · exact Or.inl (by simpa using ha)
      rw [(submitFeedback_rejected w now user id fbody d hfind h1).1]; exact hw
  · by_cases h : d.donorId = user._id ∨ user.role = Role.admin
    · rw [if_pos h]
      unfold statusOf
      rw [(cancelDonation_find w now user id cbody d hfind h).2]
      rfl
    · rw [if_neg h]
      have h1 : d.donorId ≠ user._id := fun e => h (Or.inl e)
      have h2 : user.role ≠ Role.admin := fun e => h (Or.inr e)
      rw [cancelDonation_denied w now user id cbody d hfind h1 h2]; exact hw
  · by_cases h : d.receiverId = some user._id ∨ d.volunteerId = some user._id ∨
        user.role = Role.admin
    · rw [if_pos h]
      unfold statusOf
      rw [completeDonation_find w now user id d hfind h]
      rfl
    · rw [if_neg h]
      have h1 : d.receiverId ≠ some user._id := fun e => h (Or.inl e)
      have h2 : d.volunteerId ≠ some user._id := fun e => h (Or.inr (Or.inl e))
      have h3 : user.role ≠ Role.admin := fun e => h (Or.inr (Or.inr e))
      rw [completeDonation_denied w now user id d hfind h1 h2 h3]; exact hw

/-- C4 (amended) at a concrete input: the completed donation 1 and its donor
as caller; accept leaves the status completed, cancel makes it cancelled. -/
theorem terminal_status_amended_witness :
    findDonation (sampleWorld completedDonation) 1 = some completedDonation ∧
    isTerminal completedDonation.status = true ∧
    statusOf (acceptDonation (sampleWorld completedDonation) 200 sampleDonor 1).2 1 =
      some Status.completed ∧
    statusOf (cancelDonation (sampleWorld completedDonation) 200 sampleDonor 1 {}).2 1 =
      some Status.cancelled :=
  ⟨by decide, by decide,
   (terminal_status_amended (sampleWorld completedDonation) 200 sampleDonor 1
      completedDonation {} {} {} (by decide) (by decide)).1,
   (terminal_status_amended (sampleWorld completedDonation) 200 sampleDonor 1
      completedDonation {} {} {} (by decide) (by decide)).2.2.2.2.1⟩

/-- C5 (counterexample): the owning donor, a non-admin, cancels a picked
donation: the answer is 200 and the stored status is cancelled. -/
theorem cancelDonation_picked_counterexample :
    sampleDonor.role = Role.donor ∧
    statusOf (sampleWorld pickedDonation) 1 = some Status.picked ∧
    pickedDonation.donorId = sampleDonor._id ∧
    (cancelDonation (sampleWorld pickedDonation) 50 sampleDonor 1 {}).1.status = 200 ∧
    (findDonation (cancelDonation (sampleWorld pickedDonation) 50 sampleDonor 1 {}).2 1).map
        (fun d => (d.status, d.cancelledAt, d.cancellationReason))
      = some (Status.cancelled, some 50, some "Cancelled by donor") := by
  decide

/-- C5 (amended): on a donation with status picked, `cancelDonation` called
by its owning donor succeeds (HTTP 200) and the stored donation becomes the
old one with status cancelled, cancelledAt the current time and
cancellationReason the given reason or 'Cancelled by donor'. -/
theorem cancelDonation_picked_by_owner (w : World) (now : Timestamp) (user : User)
    (id : ObjectId) (body : CancelBody) (d : Donation)
    (hfind : findDonation w id = some d) (hstatus : d.status = Status.picked)
    (hown : d.donorId = user._id) :
    (cancelDonation w now user id body).1 =
      { status := 200, success := true,
        payload := Payload.message "Donation cancelled successfully" } ∧
    findDonation (cancelDonation w now user id body).2 id =
      some { d with status := Status.cancelled, cancelledAt := some now,
                    cancellationReason := some (cancellationReasonOf body) } ∧
    statusOf (cancelDonation w now user id body).2 id ≠ some d.status := by
  have h := cancelDonation_find w now user id body d hfind (Or.inl hown)
  refine ⟨h.1, h.2, ?_⟩
  unfold statusOf
  rw [h.2, hstatus]
  simp

/-- C5 (amended) at a concrete input: donor 1 cancels the picked donation 1
with the reason 'spoiled'. -/
theorem cancelDonation_picked_by_owner_witness :
    findDonation (sampleWorld pickedDonation) 1 = some pickedDonation ∧
    pickedDonation.status = Status.picked ∧
    pickedDonation.donorId = sampleDonor._id ∧
    findDonation (cancelDonation (sampleWorld pickedDonation) 50 sampleDonor 1
        { reason := some "spoiled" }).2 1 =
      some { pickedDonation with status := Status.cancelled, cancelledAt := some 50,
                                 cancellationReason := some "spoiled" } :=
  ⟨by decide, rfl, rfl,
   (cancelDonation_picked_by_owner (sampleWorld pickedDonation) 50 sampleDonor 1
      { reason := some "spoiled" } pickedDonation (by decide) rfl rfl).2.1⟩

/-- C6: for an existing donation and a caller who is neither its donor nor
an admin, `cancelDonation` answers 403 'Not authorized to cancel this donation'
and the world is unchanged: the donation is as stored before and no
notification is stored or emitted. -/
theorem cancelDonation_forbidden (w : World) (now : Timestamp) (user : User)
    (id : ObjectId) (body : CancelBody) (d : Donation)
    (hfind : findDonation w id = some d)
    (hdonor : d.donorId ≠ user._id) (hrole : user.role ≠ Role.admin) :
    cancelDonation w now user id body =
      (jsonMessage 403 "Not authorized to cancel this donation", w) ∧
    findDonation (cancelDonation w now user id body).2 id = some d ∧
    (cancelDonation w now user id body).2.notifications = w.notifications ∧
    (cancelDonation w now user id body).2.emitted = w.emitted := by
  have h := cancelDonation_denied w now user id body d hfind hdonor hrole
  rw [h]
  exact ⟨rfl, hfind, rfl, rfl⟩

/-- C6 at a concrete input: receiver 2 tries to cancel the pending donation
of donor 1. -/
theorem cancelDonation_forbidden_witness :
    sampleDonation.donorId ≠ sampleReceiver._id ∧ sampleReceiver.role ≠ Role.admin ∧
    cancelDonation (sampleWorld sampleDonation) 50 sampleReceiver 1 {} =
      (jsonMessage 403 "Not authorized to cancel this donation", sampleWorld sampleDonation) :=
  ⟨by decide, by decide,
   (cancelDonation_forbidden (sampleWorld sampleDonation) 50 sampleReceiver 1 {} sampleDonation
      (by decide) (by decide) (by decide)).1⟩

/-- C7 (the code at the failing inputs): receiver 2 submits a valid feedback
on a completed donation that already links feedback 7, and the call answers
201, stores a second Feedback record and overwrites the donation's feedback
reference and foodHealthScore; the same body on a donation that is only
accepted is answered 201 as well. -/
theorem submitFeedback_repeated_accepts :
    reviewedDonation.status = Status.completed ∧
    reviewedDonation.feedback = some 7 ∧
    reviewedDonation.foodHealthScore = 9 ∧
    (submitFeedback { sampleWorld reviewedDonation with feedbacks := [sampleFeedback] }
      50 sampleReceiver 1 sampleFeedbackBody).1.status = 201 ∧
    ((submitFeedback { sampleWorld reviewedDonation with feedbacks := [sampleFeedback] }
      50 sampleReceiver 1 sampleFeedbackBody).2.feedbacks.map (fun f => f._id)) = [7, 100] ∧
    (findDonation
      (submitFeedback { sampleWorld reviewedDonation with feedbacks := [sampleFeedback] }
        50 sampleReceiver 1 sampleFeedbackBody).2 1).map
        (fun d => (d.feedback, d.foodHealthScore)) = some (some 100, 3) ∧
    acceptedDonation.status = Status.accepted ∧
    (submitFeedback (sampleWorld acceptedDonation) 50 sampleReceiver 1
      sampleFeedbackBody).1.status = 201 := by
  have h1 := submitFeedback_accepted
    { sampleWorld reviewedDonation with feedbacks := [sampleFeedback] }
    50 sampleReceiver 1 sampleFeedbackBody reviewedDonation (by decide) (by decide)
    (by decide) rfl
  have h2 := submitFeedback_accepted (sampleWorld acceptedDonation)
    50 sampleReceiver 1 sampleFeedbackBody acceptedDonation (by decide) (by decide)
    (by decide) rfl
  refine ⟨rfl, rfl, rfl, ?_, ?_, ?_, rfl, ?_⟩
  · rw [h1.1]
  · rw [h1.2.1]; rfl
  · rw [h1.2.2, preSave_of_not_pending _ _ (by decide)]
    simp [sampleFeedbackBody, sampleWorld]
  · rw [h2.1]

/-- C8 (counterexample): receiver 2 submits feedback at time 200 on a pending
donation that expired at time 100 and names receiver 2; the call succeeds and
the stored status, a field other than feedback and foodHealthScore, changes
from pending to expired. -/
theorem submitFeedback_frame_counterexample :
    statusOf (sampleWorld reservedDonation) 1 = some Status.pending ∧
    (submitFeedback (sampleWorld reservedDonation) 200 sampleReceiver 1
      sampleFeedbackBody).1.status = 201 ∧
    statusOf (submitFeedback (sampleWorld reservedDonation) 200 sampleReceiver 1
      sampleFeedbackBody).2 1 = some Status.expired := by
  have h := submitFeedback_accepted (sampleWorld reservedDonation)
    200 sampleReceiver 1 sampleFeedbackBody reservedDonation (by decide) (by decide)
    (by decide) rfl
  refine ⟨by decide, ?_, ?_⟩
  · rw [h.1]
  · unfold statusOf
    rw [h.2.2]
    decide

/-- C8 (amended): a successful `submitFeedback` (answer 201) had a validated
freshnessScore `f` in 0..10; it appends one Feedback record whose id is the
fresh id, and the stored donation becomes the old one with feedback set to that
id and foodHealthScore set to `f`; every other field is unchanged, except that
the save hook turns status pending into expired when expiryTime is earlier than
the current time. -/
theorem submitFeedback_success (w : World) (now : Timestamp) (user : User) (id : ObjectId)
    (body : FeedbackBody) (d : Donation)
    (hfind : findDonation w id = some d)
    (hok : (submitFeedback w now user id body).1.status = 201) :
    ∃ f : Int, body.freshnessScore = some f ∧ 0 ≤ f ∧ f ≤ 10 ∧
      (submitFeedback w now user id body).2.feedbacks =
        w.feedbacks ++ [feedbackOf w.nextId d user body] ∧
      (feedbackOf w.nextId d user body)._id = w.nextId ∧
      findDonation (submitFeedback w now user id body).2 id =
        some { d with
          feedback := some w.nextId,
          foodHealthScore := (f : ℚ),
          status := if d.expiryTime < now ∧ d.status = Status.pending then Status.expired
                    else d.status } := by
  by_cases h : authorize [Role.receiver, Role.admin] user = true ∧
      feedbackBodyValid body = true ∧ d.receiverId = some user._id
  · obtain ⟨ha, hv, hr⟩ := h
    have hacc := submitFeedback_accepted w now user id body d hfind ha hv hr
    have hvalid := hv
    unfold feedbackBodyValid at hvalid
    cases hf : body.freshnessScore with
    | none => simp [hf] at hvalid
    | some f =>
      cases hrt : body.rating with
      | none => simp [hrt] at hvalid
      | some r =>
        cases hq : body.quality with
        | none => simp [hf, hrt, hq] at hvalid
        | some q =>
          simp only [hf, hrt, hq, Bool.and_eq_true, decide_eq_true_eq] at hvalid
          refine ⟨f, rfl, hvalid.1.2, hvalid.2, hacc.2.1, rfl, ?_⟩
          rw [hacc.2.2, hf]
          unfold preSave
          by_cases hc : d.expiryTime < now ∧ d.status = Status.pending
          · simp [hc.1, hc.2]
          · rw [if_neg hc]
            have : (decide (d.expiryTime < now) && (d.status == Status.pending)) = false := by
              by_cases h1 : d.expiryTime < now
              · have h2 : d.status ≠ Status.pending := fun e => hc ⟨h1, e⟩
                simp [h1, h2]
              · simp [h1]
            simp [this]
  · have h1 : authorize [Role.receiver, Role.admin] user = false ∨
        feedbackBodyValid body = false ∨ d.receiverId ≠ some user._id := by
      by_cases ha : authorize [Role.receiver, Role.admin] user = true
      · by_cases hv : feedbackBodyValid body = true
        · exact Or.inr (Or.inr (fun hr => h ⟨ha, hv, hr⟩))
        · exact Or.inr (Or.inl (by simpa using hv))
      · exact Or.inl (by simpa using ha)
    exact absurd hok (submitFeedback_rejected w now user id body d hfind h1).2

/-- C8 (amended) at a concrete input: receiver 2 submits freshnessScore 3 on
the completed donation 1. -/
theorem submitFeedback_success_witness :
    findDonation (sampleWorld completedDonation) 1 = some completedDonation ∧
    (submitFeedback (sampleWorld completedDonation) 50 sampleReceiver 1
      sampleFeedbackBody).1.status = 201 ∧
    ∃ f : Int, sampleFeedbackBody.freshnessScore = some f ∧ 0 ≤ f ∧ f ≤ 10 ∧
      (submitFeedback (sampleWorld completedDonation) 50 sampleReceiver 1
          sampleFeedbackBody).2.feedbacks =
        (sampleWorld completedDonation).feedbacks ++
          [feedbackOf (sampleWorld completedDonation).nextId completedDonation sampleReceiver
            sampleFeedbackBody] ∧
      (feedbackOf (sampleWorld completedDonation).nextId completedDonation sampleReceiver
        sampleFeedbackBody)._id = (sampleWorld completedDonation).nextId ∧
      findDonation (submitFeedback (sampleWorld completedDonation) 50 sampleReceiver 1
          sampleFeedbackBody).2 1 =
        some { completedDonation with
          feedback := some (sampleWorld completedDonation).nextId,
          foodHealthScore := (f : ℚ),
          status := if completedDonation.expiryTime < 50 ∧
                      completedDonation.status = Status.pending then Status.expired
                    else completedDonation.status } :=
  ⟨by decide, by decide,
   submitFeedback_success (sampleWorld completedDonation) 50 sampleReceiver 1
     sampleFeedbackBody completedDonation (by decide) (by decide)⟩

/-! ### The matching score -/

theorem distanceKm_nonneg (getDistance : Coordinates → Coordinates → Nat)
    (userLocation : Coordinates) (donation : Donation) :
    0 ≤ distanceKm getDistance userLocation donation := by
  unfold distanceKm
  positivity

theorem distanceScore_eq_clamp (d : ℚ) (hd : 0 ≤ d) :
    distanceScore d = clamp (40 * (1 - d / 10)) 0 40 := by
  unfold distanceScore clamp
  have h : 40 * (1 - d / 10) ≤ 40 := by linarith
  rw [min_eq_left h]

theorem distanceScore_of_far (d : ℚ) (hd : 10 ≤ d) : distanceScore d = 0 := by
  unfold distanceScore
  apply max_eq_left
  linarith

theorem freshnessScores_eq_spec (f : Freshness) : freshnessScores f = specFreshnessWeight f := by
  cases f <;> rfl

/-- C9 (counterexample): the donation of the claim (distance 0 km,
freshly-cooked, quantity 50, foodHealthScore 10, expiry one hour ahead, status
pending) gets the raw score 100 and the reported matchScore 100, not 110. -/
theorem matchScore_claimed_counterexample :
    sampleDonation.status = Status.pending ∧
    sampleDonation.freshness = Freshness.freshlyCooked ∧
    sampleDonation.quantity = 50 ∧ sampleDonation.foodHealthScore = 10 ∧
    sampleDonation.expiryTime - (100 - 3600000) = 3600000 ∧
    distanceKm (fun _ _ => 0) { lat := 12, lng := 77 } sampleDonation = 0 ∧
    matchScore (distanceKm (fun _ _ => 0) { lat := 12, lng := 77 } sampleDonation)
      sampleDonation (100 - 3600000) = 100 ∧
    (matchOf (fun _ _ => 0) { lat := 12, lng := 77 } (100 - 3600000)
      sampleDonation).matchScore = 100 ∧
    (matchOf (fun _ _ => 0) { lat := 12, lng := 77 } (100 - 3600000)
      sampleDonation).matchScore ≠ 110 := by
  have hs : matchScore (distanceKm (fun _ _ => 0) { lat := 12, lng := 77 } sampleDonation)
      sampleDonation (100 - 3600000) = 100 := by
    norm_num [matchScore, distanceKm, distanceScore, freshnessScores, quantityScore,
      hoursUntilExpiry, sampleDonation]
  have hm : (matchOf (fun _ _ => 0) { lat := 12, lng := 77 } (100 - 3600000)
      sampleDonation).matchScore = 100 := by
    unfold matchOf
    dsimp only
    rw [hs]
    norm_num [round2]
  refine ⟨rfl, rfl, rfl, rfl, by decide, by norm_num [distanceKm], hs, hm, ?_⟩
  rw [hm]; norm_num

/-- C9 (amended): a donation (in particular a pending one) at distance 0 km
from the requester with freshness freshly-cooked, quantity 50, foodHealthScore
10 and expiryTime one hour in the future receives match score exactly 100
(40 + 30 + 10 + 10 + 10), before and after rounding. -/
theorem matchScore_claimed_amended (getDistance : Coordinates → Coordinates → Nat)
    (userLocation : Coordinates) (now : Timestamp) (d : Donation)
    (hdist : getDistance userLocation d.location.coordinates = 0)
    (hfresh : d.freshness = Freshness.freshlyCooked) (hq : d.quantity = 50)
    (hh : d.foodHealthScore = 10) (hexp : d.expiryTime = now + 3600000) :
    distanceScore (distanceKm getDistance userLocation d) = 40 ∧
    freshnessScores d.freshness = 30 ∧
    quantityScore d = 10 ∧
    matchScore (distanceKm getDistance userLocation d) d now = 100 ∧
    (matchOf getDistance userLocation now d).matchScore = 100 := by
  have hd : distanceKm getDistance userLocation d = 0 := by
    simp [distanceKm, hdist]
  have h1 : distanceScore (distanceKm getDistance userLocation d) = 40 := by
    rw [hd]; norm_num [distanceScore]
  have h2 : freshnessScores d.freshness = 30 := by rw [hfresh]; rfl
  have h3 : quantityScore d = 10 := by
    unfold quantityScore; rw [hq]; norm_num
  have h4 : hoursUntilExpiry d now < 2 := by
    unfold hoursUntilExpiry; rw [hexp]; norm_num
  have hs : matchScore (distanceKm getDistance userLocation d) d now = 100 := by
    unfold matchScore
    dsimp only
    rw [if_pos h4, h1, h2, h3, hh]
    norm_num
  refine ⟨h1, h2, h3, hs, ?_⟩
  unfold matchOf
  dsimp only
  rw [hs]
  norm_num [round2]

/-- C9 (amended) at a concrete input: the sample donation seen from its own
coordinates one hour before it expires. -/
theorem matchScore_claimed_amended_witness :
    sampleDonation.expiryTime = (100 - 3600000 : Int) + 3600000 ∧
    (matchOf (fun _ _ => 0) sampleDonation.location.coordinates (100 - 3600000)
      sampleDonation).matchScore = 100 :=
  ⟨by decide,
   (matchScore_claimed_amended (fun _ _ => 0) sampleDonation.location.coordinates
      (100 - 3600000) sampleDonation rfl rfl rfl rfl (by decide)).2.2.2.2⟩

/-- C10: for every donation and requester location, with `d` the distance in
km, the unrounded score that the code computes is the spec's
clamp(40*(1 - d/10), 0, 40) + freshnessWeight(freshness) + min(20, quantity/5)
+ foodHealthScore + (10 if hoursUntilExpiry < 2 else 0); the distance term lies
in [0, 40], is 0 whenever d >= 10, and is 0 at 15 km. -/
theorem matchScore_eq_spec (getDistance : Coordinates → Coordinates → Nat)
    (userLocation : Coordinates) (donation : Donation) (now : Timestamp) :
    matchScore (distanceKm getDistance userLocation donation) donation now =
      specMatchScore (distanceKm getDistance userLocation donation) donation now ∧
    0 ≤ distanceScore (distanceKm getDistance userLocation donation) ∧
    distanceScore (distanceKm getDistance userLocation donation) ≤ 40 ∧
    (10 ≤ distanceKm getDistance userLocation donation →
      distanceScore (distanceKm getDistance userLocation donation) = 0) ∧
    distanceScore 15 = 0 := by
  have hd := distanceKm_nonneg getDistance userLocation donation
  refine ⟨?_, ?_, ?_, distanceScore_of_far _, distanceScore_of_far 15 (by norm_num)⟩
  · unfold matchScore specMatchScore
    dsimp only
    rw [distanceScore_eq_clamp _ hd, freshnessScores_eq_spec]
    have hh : donation.foodHealthScore / 10 * 10 = donation.foodHealthScore := by
      field_simp
    have hu : hoursUntilExpiry donation now =
        ((donation.expiryTime - now : Int) : ℚ) / 3600000 := by
      unfold hoursUntilExpiry; norm_num
    rw [hh, hu]
    unfold quantityScore
    split <;> ring
  · unfold distanceScore; exact le_max_left _ _
  · unfold distanceScore
    apply max_le
    · norm_num
    · linarith

/-- C10 at a concrete input: a donation 15000 m away has distance term 0. -/
theorem matchScore_eq_spec_witness :
    (10 : ℚ) ≤ distanceKm (fun _ _ => 15000) { lat := 0, lng := 0 } sampleDonation ∧
    distanceScore (distanceKm (fun _ _ => 15000) { lat := 0, lng := 0 } sampleDonation) = 0 :=
  ⟨by norm_num [distanceKm],
   (matchScore_eq_spec (fun _ _ => 15000) { lat := 0, lng := 0 } sampleDonation 0).2.2.2.1
     (by norm_num [distanceKm])⟩

/-- C11 (the code at the failing input): a schema-valid donation (quantity
100, foodHealthScore 10, freshly-cooked) at distance 0 km that expires in one
hour gets the raw score 40 + 30 + 20 + 10 + 10 = 110 and the reported
matchScore 110, above 100. -/
theorem matchScore_above_hundred :
    (1 : ℚ) ≤ bulkDonation.quantity ∧
    (0 : ℚ) ≤ bulkDonation.foodHealthScore ∧ bulkDonation.foodHealthScore ≤ 10 ∧
    bulkDonation.freshness = Freshness.freshlyCooked ∧
    matchScore (distanceKm (fun _ _ => 0) { lat := 12, lng := 77 } bulkDonation)
      bulkDonation (100 - 3600000) = 110 ∧
    (matchOf (fun _ _ => 0) { lat := 12, lng := 77 } (100 - 3600000)
      bulkDonation).matchScore = 110 ∧
    (100 : ℚ) < (matchOf (fun _ _ => 0) { lat := 12, lng := 77 } (100 - 3600000)
      bulkDonation).matchScore := by
  have hs : matchScore (distanceKm (fun _ _ => 0) { lat := 12, lng := 77 } bulkDonation)
      bulkDonation (100 - 3600000) = 110 := by
    norm_num [matchScore, distanceKm, distanceScore, freshnessScores, quantityScore,
      hoursUntilExpiry, bulkDonation, sampleDonation]
  have hm : (matchOf (fun _ _ => 0) { lat := 12, lng := 77 } (100 - 3600000)
      bulkDonation).matchScore = 110 := by
    unfold matchOf
    dsimp only
    rw [hs]
    norm_num [round2]
  refine ⟨?_, ?_, ?_, rfl, hs, hm, ?_⟩
  · norm_num [bulkDonation, sampleDonation]
  · norm_num [bulkDonation, sampleDonation]
  · norm_num [bulkDonation, sampleDonation]
  · rw [hm]; norm_num

/-! ### The tracking timeline -/

/-- C16: for every donation (and whatever its populated parties are) the
tracking timeline is a prefix of the fixed step sequence: its step names are
the first 1 (pending), 3 (accepted), 6 (picked) or 7 (completed) names of the
sequence, and its first step is 'created', marked done. -/
theorem filteredTimeline_steps (donation : Donation) (donor receiver volunteer : Option User) :
    (filteredTimeline donation donor receiver volunteer).map (fun s => s.step) =
      specSteps.take (specVisibleSteps donation.status) ∧
    List.IsPrefix ((filteredTimeline donation donor receiver volunteer).map (fun s => s.step))
      specSteps ∧
    (filteredTimeline donation donor receiver volunteer).length =
      specVisibleSteps donation.status ∧
    (filteredTimeline donation donor receiver volunteer).head?.map (fun s => (s.step, s.done)) =
      some ("created", true) := by
  have h1 : (filteredTimeline donation donor receiver volunteer).map (fun s => s.step) =
      specSteps.take (specVisibleSteps donation.status) := by
    cases hs : donation.status <;>
      simp [filteredTimeline, timeline, showStep, hs, specSteps, specVisibleSteps, List.enum,
        List.enumFrom]
  refine ⟨h1, ?_, ?_, ?_⟩
  · rw [h1]; exact List.take_prefix _ _
  · have := congrArg List.length h1
    rw [List.length_map] at this
    rw [this]
    cases donation.status <;> rfl
  · cases hs : donation.status <;>
      simp [filteredTimeline, timeline, showStep, hs, List.enum, List.enumFrom]

/-! ### Badges -/

theorem findUser_map (w : World) (f : User → User) (hf : ∀ u, (f u)._id = u._id)
    (id : ObjectId) :
    (w.users.map f).find? (fun u => u._id == id) = (findUser w id).map f := by
  unfold findUser
  induction w.users with
  | nil => rfl
  | cons x xs ih =>
    by_cases hx : x._id = id
    · simp [List.find?, hf, hx]
    · have hx1 : (x._id == id) = false := by simpa using hx
      simp only [List.map_cons, List.find?, hf, hx1]
      exact ih

theorem hasBadgeNamed_append (user : User) (bs : List Badge) (name : String) :
    hasBadgeNamed { user with badges := user.badges ++ bs } name =
      (hasBadgeNamed user name || bs.any (fun b => b.name == name)) := by
  simp [hasBadgeNamed, List.any_append]

theorem addBadge_of_not_held (w : World) (now : Timestamp) (user : User) (name : String)
    (h : hasBadgeNamed user name = false) :
    (addBadge w now user name).1 = { user with badges := user.badges ++ [badgeAt now name] } ∧
    (addBadge w now user name).2.donations = w.donations := by
  unfold hasBadgeNamed at h
  simp [addBadge, h, badgeAt]

theorem addBadge_of_held (w : World) (now : Timestamp) (user : User) (name : String)
    (h : hasBadgeNamed user name = true) :
    addBadge w now user name = (user, w) := by
  unfold hasBadgeNamed at h
  simp [addBadge, h]

theorem foldl_addBadge_fresh (now : Timestamp) (names : List String) (user : User) (w : World)
    (hnot : ∀ n ∈ names, hasBadgeNamed user n = false) (hnd : names.Nodup) :
    (names.foldl (fun (acc : User × World) badgeName => addBadge acc.2 now acc.1 badgeName)
        (user, w)).1 =
      { user with badges := user.badges ++ names.map (badgeAt now) } := by
  induction names generalizing user w with
  | nil => simp
  | cons n ns ih =>
    have hn := hnot n (List.mem_cons_self _ _)
    have h1 := (addBadge_of_not_held w now user n hn).1
    rw [List.foldl_cons]
    have hstep : addBadge w now user n =
        ({ user with badges := user.badges ++ [badgeAt now n] }, (addBadge w now user n).2) := by
      rw [← h1]
    rw [hstep, ih]
    · simp
    · intro m hm
      rw [hasBadgeNamed_append, hnot m (List.mem_cons_of_mem _ hm)]
      have hne : n ≠ m := fun e => (List.nodup_cons.mp hnd).1 (e ▸ hm)
      simp [badgeAt, hne]
    · exact (List.nodup_cons.mp hnd).2

theorem badgesToAdd_eq (w : World) (user : User) (donation : Donation) :
    badgesToAdd w user donation =
      (if donation.status = Status.completed ∧ user.badges = [] then
          [BADGES.FIRST_DONATION] else []) ++
      (if 100 ≤ specTotalMeals w user._id ∧ hasBadgeNamed user BADGES.MILESTONE_100 = false then
          [BADGES.MILESTONE_100] else []) ++
      (if 500 ≤ specTotalMeals w user._id ∧ hasBadgeNamed user BADGES.MILESTONE_500 = false then
          [BADGES.MILESTONE_500] else []) ++
      (if 10 ≤ specCompletedCount w user._id ∧ hasBadgeNamed user BADGES.HUNGER_HERO = false then
          [BADGES.HUNGER_HERO] else []) ++
      (if 50 ≤ specCompletedCount w user._id ∧
            hasBadgeNamed user BADGES.ZERO_WASTE_STAR = false then
          [BADGES.ZERO_WASTE_STAR] else []) := by
  unfold badgesToAdd specTotalMeals specCompletedCount completedDonationsOf
  simp only [ge_iff_le, Bool.and_eq_true, decide_eq_true_eq, beq_iff_eq, Bool.not_eq_true',
    List.length_eq_zero]

theorem badgesToAdd_mem (w : World) (user : User) (donation : Donation) :
    (BADGES.FIRST_DONATION ∈ badgesToAdd w user donation ↔
      donation.status = Status.completed ∧ user.badges = []) ∧
    (BADGES.MILESTONE_100 ∈ badgesToAdd w user donation ↔
      100 ≤ specTotalMeals w user._id ∧ hasBadgeNamed user BADGES.MILESTONE_100 = false) ∧
    (BADGES.MILESTONE_500 ∈ badgesToAdd w user donation ↔
      500 ≤ specTotalMeals w user._id ∧ hasBadgeNamed user BADGES.MILESTONE_500 = false) ∧
    (BADGES.HUNGER_HERO ∈ badgesToAdd w user donation ↔
      10 ≤ specCompletedCount w user._id ∧ hasBadgeNamed user BADGES.HUNGER_HERO = false) ∧
    (BADGES.ZERO_WASTE_STAR ∈ badgesToAdd w user donation ↔
      50 ≤ specCompletedCount w user._id ∧
        hasBadgeNamed user BADGES.ZERO_WASTE_STAR = false) ∧
    (∀ n ∈ badgesToAdd w user donation,
      n = BADGES.FIRST_DONATION ∨ n = BADGES.MILESTONE_100 ∨ n = BADGES.MILESTONE_500 ∨
      n = BADGES.HUNGER_HERO ∨ n = BADGES.ZERO_WASTE_STAR) ∧
    (badgesToAdd w user donation).Nodup := by
  rw [badgesToAdd_eq]
  split_ifs <;>
    simp_all [BADGES.FIRST_DONATION, BADGES.MILESTONE_100,
      BADGES.MILESTONE_500, BADGES.HUNGER_HERO, BADGES.ZERO_WASTE_STAR]

theorem addBadge_id (w : World) (now : Timestamp) (user : User) (name : String) :
    (addBadge w now user name).1._id = user._id := by
  unfold addBadge; dsimp only; split <;> rfl

theorem addBadge_store (w : World) (now : Timestamp) (user : User) (name : String)
    (h : findUser w user._id = some user) :
    findUser (addBadge w now user name).2 user._id = some (addBadge w now user name).1 := by
  by_cases hb : hasBadgeNamed user name = true
  · rw [addBadge_of_held w now user name hb]; exact h
  · have hb1 : hasBadgeNamed user name = false := by simpa using hb
    have hu : (addBadge w now user name).1 =
        { user with badges := user.badges ++ [badgeAt now name] } :=
      (addBadge_of_not_held w now user name hb1).1
    rw [hu]
    unfold hasBadgeNamed at hb1
    have hw : findUser (addBadge w now user name).2 user._id =
        (w.users.map (fun u => if u._id == user._id then
          { u with badges := user.badges ++ [badgeAt now name] } else u)).find?
          (fun u => u._id == user._id) := by
      simp [addBadge, hb1, findUser, badgeAt]
    rw [hw, findUser_map w _ (by intro u; split <;> rfl), h]
    simp

theorem foldl_addBadge_store (now : Timestamp) (names : List String) (user : User) (w : World)
    (h : findUser w user._id = some user) :
    findUser (names.foldl (fun (acc : User × World) badgeName =>
        addBadge acc.2 now acc.1 badgeName) (user, w)).2 user._id =
      some (names.foldl (fun (acc : User × World) badgeName =>
        addBadge acc.2 now acc.1 badgeName) (user, w)).1 := by
  induction names generalizing user w with
  | nil => exact h
  | cons n ns ih =>
    rw [List.foldl_cons]
    have h1 := addBadge_store w now user n h
    have hid := addBadge_id w now user n
    rw [← hid] at h1 ⊢
    exact ih (addBadge w now user n).1 (addBadge w now user n).2 h1

theorem addBadge_nodup (w : World) (now : Timestamp) (user : User) (name : String)
    (h : (user.badges.map (fun b => b.name)).Nodup) :
    ((addBadge w now user name).1.badges.map (fun b => b.name)).Nodup := by
  by_cases hb : hasBadgeNamed user name = true
  · rw [addBadge_of_held w now user name hb]; exact h
  · have hb1 : hasBadgeNamed user name = false := by simpa using hb
    rw [(addBadge_of_not_held w now user name hb1).1]
    unfold hasBadgeNamed at hb1
    simp only [List.map_append, List.map_cons, List.map_nil, badgeAt]
    rw [List.nodup_append]
    refine ⟨h, List.nodup_singleton _, ?_⟩
    intro a ha hb2
    simp only [List.mem_singleton] at hb2
    subst hb2
    simp only [List.mem_map] at ha
    obtain ⟨b, hbm, hbn⟩ := ha
    have := List.any_eq_false.mp hb1 b hbm
    simp [hbn] at this

theorem addBadge_keeps_old (w : World) (now : Timestamp) (user : User) (name : String) :
    List.IsPrefix user.badges (addBadge w now user name).1.badges := by
  by_cases hb : hasBadgeNamed user name = true
  · rw [addBadge_of_held w now user name hb]
  · have hb1 : hasBadgeNamed user name = false := by simpa using hb
    rw [(addBadge_of_not_held w now user name hb1).1]
    exact List.prefix_append _ _

theorem foldl_addBadge_keeps (now : Timestamp) (names : List String) (user : User) (w : World)
    (h : (user.badges.map (fun b => b.name)).Nodup) :
    (((names.foldl (fun (acc : User × World) badgeName =>
        addBadge acc.2 now acc.1 badgeName) (user, w)).1.badges.map
        (fun b => b.name)).Nodup) ∧
    List.IsPrefix user.badges
      (names.foldl (fun (acc : User × World) badgeName =>
        addBadge acc.2 now acc.1 badgeName) (user, w)).1.badges := by
  induction names generalizing user w with
  | nil => exact ⟨h, List.prefix_refl _⟩
  | cons n ns ih =>
    rw [List.foldl_cons]
    have h1 := ih (addBadge w now user n).1 (addBadge w now user n).2
      (addBadge_nodup w now user n h)
    exact ⟨h1.1, (addBadge_keeps_old w now user n).trans h1.2⟩

theorem runBadgeCall_keeps (s : User × World) (now : Timestamp) (c : BadgeCall)
    (h : (s.1.badges.map (fun b => b.name)).Nodup) :
    ((runBadgeCall s now c).1.badges.map (fun b => b.name)).Nodup ∧
    List.IsPrefix s.1.badges (runBadgeCall s now c).1.badges := by
  cases c with
  | check history donation =>
    exact foldl_addBadge_keeps now _ s.1 { s.2 with donations := history } h
  | add badgeName =>
    exact ⟨addBadge_nodup s.2 now s.1 badgeName h, addBadge_keeps_old s.2 now s.1 badgeName⟩

theorem runBadgeCalls_keeps (calls : List (Timestamp × BadgeCall)) (s : User × World)
    (h : (s.1.badges.map (fun b => b.name)).Nodup) :
    ((runBadgeCalls s calls).1.badges.map (fun b => b.name)).Nodup ∧
    List.IsPrefix s.1.badges (runBadgeCalls s calls).1.badges := by
  unfold runBadgeCalls
  induction calls generalizing s with
  | nil => exact ⟨h, List.prefix_refl _⟩
  | cons c cs ih =>
    rw [List.foldl_cons]
    have h0 := runBadgeCall_keeps s c.1 c.2 h
    have h1 := ih (runBadgeCall s c.1 c.2) h0.1
    exact ⟨h1.1, h0.2.trans h1.2⟩

theorem any_badgeAt (now : Timestamp) (names : List String) (n : String) :
    (names.map (badgeAt now)).any (fun b => b.name == n) = decide (n ∈ names) := by
  induction names with
  | nil => simp
  | cons m ms ih =>
    rw [List.map_cons, List.any_cons, ih]
    by_cases h : m = n
    · simp [badgeAt, h]
    · have h1 : ¬ n = m := fun e => h e.symm
      simp [badgeAt, h, h1]

theorem badgesToAdd_not_held (w : World) (user : User) (donation : Donation) :
    ∀ n ∈ badgesToAdd w user donation, hasBadgeNamed user n = false := by
  intro n hn
  have hm := badgesToAdd_mem w user donation
  rcases hm.2.2.2.2.2.1 n hn with h | h | h | h | h <;> subst h
  · have := (hm.1.mp hn).2
    simp [hasBadgeNamed, this]
  · exact (hm.2.1.mp hn).2
  · exact (hm.2.2.1.mp hn).2
  · exact (hm.2.2.2.1.mp hn).2
  · exact (hm.2.2.2.2.1.mp hn).2

theorem checkBadges_user (w : World) (now : Timestamp) (user : User) (donation : Donation) :
    (checkBadges w now user donation).2.1 =
      { user with badges := user.badges ++ (badgesToAdd w user donation).map (badgeAt now) } := by
  unfold checkBadges
  exact foldl_addBadge_fresh now _ user w (badgesToAdd_not_held w user donation)
    (badgesToAdd_mem w user donation).2.2.2.2.2.2

/-- C13: for a donor and a completed donation, `checkBadges` returns 'First
Donation' iff the donor had zero badges, '100 Meals Milestone' / '500 Meals
Milestone' iff the sum of quantities over the donor's completed donations is
at least 100 / 500 and the badge is not yet held, 'Hunger Hero' / 'Zero Waste
Star' iff the completed-donation count is at least 10 / 50 and the badge is not
yet held, and nothing else; the donor's badges afterwards are the old ones
followed by one badge for each returned name, also in the store; a stored
completed donation of the donor (the one just completed) is part of the sum. -/
theorem checkBadges_awards (w : World) (now : Timestamp) (user : User) (donation : Donation)
    (hcompleted : donation.status = Status.completed) :
    (BADGES.FIRST_DONATION ∈ (checkBadges w now user donation).1 ↔ user.badges = []) ∧
    (BADGES.MILESTONE_100 ∈ (checkBadges w now user donation).1 ↔
      100 ≤ specTotalMeals w user._id ∧ hasBadgeNamed user BADGES.MILESTONE_100 = false) ∧
    (BADGES.MILESTONE_500 ∈ (checkBadges w now user donation).1 ↔
      500 ≤ specTotalMeals w user._id ∧ hasBadgeNamed user BADGES.MILESTONE_500 = false) ∧
    (BADGES.HUNGER_HERO ∈ (checkBadges w now user donation).1 ↔
      10 ≤ specCompletedCount w user._id ∧ hasBadgeNamed user BADGES.HUNGER_HERO = false) ∧
    (BADGES.ZERO_WASTE_STAR ∈ (checkBadges w now user donation).1 ↔
      50 ≤ specCompletedCount w user._id ∧
        hasBadgeNamed user BADGES.ZERO_WASTE_STAR = false) ∧
    (∀ n ∈ (checkBadges w now user donation).1,
      n = BADGES.FIRST_DONATION ∨ n = BADGES.MILESTONE_100 ∨ n = BADGES.MILESTONE_500 ∨
      n = BADGES.HUNGER_HERO ∨ n = BADGES.ZERO_WASTE_STAR) ∧
    (checkBadges w now user donation).1.Nodup ∧
    (checkBadges w now user donation).2.1 =
      { user with
        badges := user.badges ++ (checkBadges w now user donation).1.map (badgeAt now) } ∧
    (findUser w user._id = some user →
      findUser (checkBadges w now user donation).2.2 user._id =
        some (checkBadges w now user donation).2.1) ∧
    (donation ∈ w.donations → donation.donorId = user._id →
      donation ∈ completedDonationsOf w user._id) := by
  have hm := badgesToAdd_mem w user donation
  have hnames : (checkBadges w now user donation).1 = badgesToAdd w user donation := rfl
  rw [hnames]
  refine ⟨?_, hm.2.1, hm.2.2.1, hm.2.2.2.1, hm.2.2.2.2.1, hm.2.2.2.2.2.1, hm.2.2.2.2.2.2,
    checkBadges_user w now user donation, ?_, ?_⟩
  · rw [hm.1]; simp [hcompleted]
  · intro h
    exact foldl_addBadge_store now _ user w h
  · intro hmem hdonor
    simp [completedDonationsOf, hmem, hdonor, hcompleted]

/-- C13 at a concrete input: donor 1 without badges and the completed
donation 1. -/
theorem checkBadges_awards_witness :
    completedDonation.status = Status.completed ∧
    (BADGES.FIRST_DONATION ∈
        (checkBadges (sampleWorld completedDonation) 40 sampleDonor completedDonation).1 ↔
      sampleDonor.badges = []) :=
  ⟨rfl, (checkBadges_awards (sampleWorld completedDonation) 40 sampleDonor completedDonation
    rfl).1⟩

/-- C14: with an unchanged donation history, a run of `checkBadges` on the
donor as the first run left it returns no badges and leaves the donor document
and the world as they are; and after any sequence of `checkBadges` / `addBadge`
calls on a donor whose badge names were distinct, the names are still distinct
and the badges held before are still there, in front. -/
theorem checkBadges_idempotent (w w2 : World) (now now2 : Timestamp) (user : User)
    (donation : Donation) (hhistory : w2.donations = w.donations) :
    checkBadges w2 now2 (checkBadges w now user donation).2.1 donation =
      ([], (checkBadges w now user donation).2.1, w2) ∧
    (∀ calls : List (Timestamp × BadgeCall),
      (user.badges.map (fun b => b.name)).Nodup →
        ((runBadgeCalls (user, w) calls).1.badges.map (fun b => b.name)).Nodup ∧
        List.IsPrefix user.badges (runBadgeCalls (user, w) calls).1.badges) := by
  refine ⟨?_, fun calls h => runBadgeCalls_keeps calls (user, w) h⟩
  have hm := badgesToAdd_mem w user donation
  have hu := checkBadges_user w now user donation
  have hheld : ∀ n, hasBadgeNamed (checkBadges w now user donation).2.1 n =
      (hasBadgeNamed user n || decide (n ∈ badgesToAdd w user donation)) := by
    intro n
    rw [hu, hasBadgeNamed_append]
    rw [any_badgeAt]
  have htot : specTotalMeals w2 (checkBadges w now user donation).2.1._id =
      specTotalMeals w user._id := by
    rw [hu]; simp [specTotalMeals, completedDonationsOf, hhistory]
  have hcnt : specCompletedCount w2 (checkBadges w now user donation).2.1._id =
      specCompletedCount w user._id := by
    rw [hu]; simp [specCompletedCount, completedDonationsOf, hhistory]
  have hnil : badgesToAdd w2 (checkBadges w now user donation).2.1 donation = [] := by
    rw [badgesToAdd_eq, htot, hcnt]
    have c1 : ¬ (donation.status = Status.completed ∧
        (checkBadges w now user donation).2.1.badges = []) := by
      rintro ⟨hs, hb⟩
      rw [hu] at hb
      simp only [List.append_eq_nil, List.map_eq_nil_iff] at hb
      have := hm.1.mpr ⟨hs, hb.1⟩
      rw [hb.2] at this
      exact absurd this (List.not_mem_nil _)
    have c2 : ¬ (100 ≤ specTotalMeals w user._id ∧
        hasBadgeNamed (checkBadges w now user donation).2.1 BADGES.MILESTONE_100 = false) := by
      rintro ⟨ht, hb⟩
      rw [hheld] at hb
      simp only [Bool.or_eq_false_iff, decide_eq_false_iff_not] at hb
      exact hb.2 (hm.2.1.mpr ⟨ht, hb.1⟩)
    have c3 : ¬ (500 ≤ specTotalMeals w user._id ∧
        hasBadgeNamed (checkBadges w now user donation).2.1 BADGES.MILESTONE_500 = false) := by
      rintro ⟨ht, hb⟩
      rw [hheld] at hb
      simp only [Bool.or_eq_false_iff, decide_eq_false_iff_not] at hb
      exact hb.2 (hm.2.2.1.mpr ⟨ht, hb.1⟩)
    have c4 : ¬ (10 ≤ specCompletedCount w user._id ∧
        hasBadgeNamed (checkBadges w now user donation).2.1 BADGES.HUNGER_HERO = false) := by
      rintro ⟨ht, hb⟩
      rw [hheld] at hb
      simp only [Bool.or_eq_false_iff, decide_eq_false_iff_not] at hb
      exact hb.2 (hm.2.2.2.1.mpr ⟨ht, hb.1⟩)
    have c5 : ¬ (50 ≤ specCompletedCount w user._id ∧
        hasBadgeNamed (checkBadges w now user donation).2.1 BADGES.ZERO_WASTE_STAR = false) := by
      rintro ⟨ht, hb⟩
      rw [hheld] at hb
      simp only [Bool.or_eq_false_iff, decide_eq_false_iff_not] at hb
      exact hb.2 (hm.2.2.2.2.1.mpr ⟨ht, hb.1⟩)
    rw [if_neg c1, if_neg c2, if_neg c3, if_neg c4, if_neg c5]
    rfl
  unfold checkBadges at hnil ⊢
  simp only [hnil, List.foldl_nil]

/-- C14 at a concrete input: donor 1 without badges, first evaluated on the
completed donation 1, then given 'Eco Saver' twice. -/
theorem checkBadges_idempotent_witness :
    (sampleDonor.badges.map (fun b => b.name)).Nodup ∧
    ((runBadgeCalls (sampleDonor, sampleWorld completedDonation)
        [(40, BadgeCall.check [completedDonation] completedDonation),
         (41, BadgeCall.add BADGES.ECO_SAVER),
         (42, BadgeCall.add BADGES.ECO_SAVER)]).1.badges.map (fun b => b.name)).Nodup :=
  ⟨List.nodup_nil,
   ((checkBadges_idempotent (sampleWorld completedDonation) (sampleWorld completedDonation)
      40 41 sampleDonor completedDonation rfl).2 _ List.nodup_nil).1⟩

/-! ### The ranking of `getMatches` -/

theorem sorted_by_score (l : List Match) :
    List.Sorted (fun a b : Match => b.matchScore - a.matchScore ≤ 0)
      (l.insertionSort (fun a b => b.matchScore - a.matchScore ≤ 0)) := by
  haveI : IsTotal Match (fun a b : Match => b.matchScore - a.matchScore ≤ 0) :=
    ⟨fun a b => by
      rcases le_total a.matchScore b.matchScore with h | h
      · exact Or.inr (by linarith)
      · exact Or.inl (by linarith)⟩
  haveI : IsTrans Match (fun a b : Match => b.matchScore - a.matchScore ≤ 0) :=
    ⟨fun a b c hab hbc => by
      have h1 : b.matchScore - a.matchScore ≤ 0 := hab
      have h2 : c.matchScore - b.matchScore ≤ 0 := hbc
      show c.matchScore - a.matchScore ≤ 0
      linarith⟩
  exact List.sorted_insertionSort _ l

/-- C12: with both coordinates given, `getMatches` answers 200 with a list
`ms` of at most 10 entries in non-increasing order of matchScore; every entry is
the scored form of a stored donation with status pending and expiryTime later
than now; together with a list `rest` of left-out entries `ms` is a
rearrangement of all scored candidates, and no left-out entry has a matchScore
above that of a returned entry. -/
theorem getMatches_top_ten (getDistance : Coordinates → Coordinates → Nat) (w : World)
    (now : Timestamp) (lat lng : ℚ) :
    ∃ ms rest : List Match,
      getMatches getDistance w now (some lat) (some lng) =
        { status := 200, success := true, payload := Payload.matches ms } ∧
      ms.length ≤ 10 ∧
      List.Pairwise (fun a b : Match => b.matchScore ≤ a.matchScore) ms ∧
      (∀ m ∈ ms, ∃ d ∈ w.donations, d.status = Status.pending ∧ now < d.expiryTime ∧
        m = matchOf getDistance { lat := lat, lng := lng } now d) ∧
      List.Perm (ms ++ rest)
        ((matchCandidates w now).map (matchOf getDistance { lat := lat, lng := lng } now)) ∧
      (∀ r ∈ rest, ∀ m ∈ ms, r.matchScore ≤ m.matchScore) := by
  have hs := sorted_by_score
    ((matchCandidates w now).map (matchOf getDistance { lat := lat, lng := lng } now))
  have hp := List.perm_insertionSort (fun a b : Match => b.matchScore - a.matchScore ≤ 0)
    ((matchCandidates w now).map (matchOf getDistance { lat := lat, lng := lng } now))
  generalize hsorted : ((matchCandidates w now).map
    (matchOf getDistance { lat := lat, lng := lng } now)).insertionSort
      (fun a b => b.matchScore - a.matchScore ≤ 0) = sorted at hs hp
  have hsplit : sorted.take 10 ++ sorted.drop 10 = sorted := List.take_append_drop 10 sorted
  refine ⟨sorted.take 10, sorted.drop 10, ?_, ?_, ?_, ?_, ?_, ?_⟩
  · unfold getMatches
    simp only
    rw [← hsorted]
    rfl
  · rw [List.length_take]; exact Nat.min_le_left _ _
  · have h1 : List.Pairwise (fun a b : Match => b.matchScore - a.matchScore ≤ 0)
        (sorted.take 10) := List.Pairwise.sublist (List.take_sublist 10 sorted) hs
    exact h1.imp (fun h => by linarith)
  · intro m hm
    have h1 : m ∈ sorted := List.mem_of_mem_take hm
    have h2 := hp.subset h1
    rw [List.mem_map] at h2
    obtain ⟨d, hd, hdm⟩ := h2
    unfold matchCandidates at hd
    rw [List.mem_filter] at hd
    simp only [Bool.and_eq_true, beq_iff_eq, decide_eq_true_eq, gt_iff_lt] at hd
    exact ⟨d, hd.1, hd.2.1, hd.2.2, hdm.symm⟩
  · rw [hsplit]; exact hp
  · intro r hr m hm
    have h1 : List.Pairwise (fun a b : Match => b.matchScore - a.matchScore ≤ 0)
        (sorted.take 10 ++ sorted.drop 10) := by rw [hsplit]; exact hs
    have h2 := (List.pairwise_append.mp h1).2.2 m hm r hr
    linarith

/-! ### Points -/

theorem sendNotification_users (w : World) (now : Timestamp) (userId : ObjectId)
    (type title message : String) (data : NotificationData) :
    (sendNotification w now userId type title message data).2.users = w.users := by
  unfold sendNotification
  split
  · dsimp only; split <;> rfl
  · rfl

theorem notifyAllVolunteers_users (w : World) (now : Timestamp) (donation : Donation) :
    (notifyAllVolunteers w now donation).users = w.users := by
  unfold notifyAllVolunteers
  generalize w.users.filter (fun u => u.role == Role.volunteer && u.isActive) = vs
  induction vs generalizing w with
  | nil => rfl
  | cons v vs ih => rw [List.foldl_cons, ih, sendNotification_users]

theorem pointsOf_congr (w w1 : World) (id : ObjectId) (h : w1.users = w.users) :
    pointsOf w1 id = pointsOf w id := by
  unfold pointsOf findUser; rw [h]

theorem addPoints_pointsOf (w : World) (user : User) (points : Int) (id : ObjectId) :
    pointsOf (addPoints w user points).2 id =
      if id = user._id then (pointsOf w id).map (fun _ => user.points + points)
      else pointsOf w id := by
  have h : findUser (addPoints w user points).2 id =
      (findUser w id).map (fun u => if u._id == user._id then
        { u with points := user.points + points } else u) := by
    have := findUser_map w (fun u => if u._id == user._id then
        { u with points := user.points + points } else u) (by intro u; dsimp only; split <;> rfl) id
    rw [← this]; rfl
  unfold pointsOf
  rw [h]
  cases hf : findUser w id with
  | none => simp
  | some u =>
    have hid : u._id = id := by
      unfold findUser at hf
      simpa using List.find?_some hf
    by_cases hc : id = user._id
    · simp [hc, hid ▸ hc]
    · have : ¬ u._id = user._id := fun e => hc (hid ▸ e)
      simp [hc, this]

theorem addBadge_pointsOf (w : World) (now : Timestamp) (user : User) (name : String)
    (id : ObjectId) : pointsOf (addBadge w now user name).2 id = pointsOf w id := by
  by_cases hb : hasBadgeNamed user name = true
  · rw [addBadge_of_held w now user name hb]
  · have hb1 : hasBadgeNamed user name = false := by simpa using hb
    unfold hasBadgeNamed at hb1
    have h : findUser (addBadge w now user name).2 id =
        (findUser w id).map (fun u => if u._id == user._id then
          { u with badges := user.badges ++ [badgeAt now name] } else u) := by
      have := findUser_map w (fun u => if u._id == user._id then
          { u with badges := user.badges ++ [badgeAt now name] } else u)
          (by intro u; dsimp only; split <;> rfl) id
      rw [← this]
      simp [addBadge, hb1, findUser, badgeAt]
    unfold pointsOf
    rw [h]
    cases findUser w id with
    | none => rfl
    | some u =>
      simp only [Option.map_some']
      split <;> rfl

theorem checkBadges_pointsOf (w : World) (now : Timestamp) (user : User)
    (donation : Donation) (id : ObjectId) :
    pointsOf (checkBadges w now user donation).2.2 id = pointsOf w id := by
  unfold checkBadges
  generalize badgesToAdd w user donation = names
  dsimp only
  induction names generalizing w user with
  | nil => rfl
  | cons n ns ih => rw [List.foldl_cons, ih, addBadge_pointsOf]

theorem pointsGain_of_addPoints (w w1 : World) (user : User) (n : Int)
    (hstored : findUser w user._id = some user)
    (h : ∀ id, pointsOf w1 id = pointsOf (addPoints w user n).2 id) :
    PointsGain w w1 user._id n := by
  have hp : pointsOf w user._id = some user.points := by simp [pointsOf, hstored]
  refine ⟨⟨user.points, hp, ?_⟩, ?_⟩
  · rw [h, addPoints_pointsOf, if_pos rfl, hp]; rfl
  · intro other hne
    rw [h, addPoints_pointsOf, if_neg hne]

theorem createDonation_points (w : World) (now : Timestamp) (user : User) (body : CreateBody) :
    ((createDonation w now user body).1.success = true →
      ∀ id, pointsOf (createDonation w now user body).2 id =
        pointsOf (addPoints w user 10).2 id) ∧
    ((createDonation w now user body).1.success = false →
      (createDonation w now user body).2 = w) := by
  unfold createDonation
  split
  · exact ⟨fun h => by simp [authorizeDenied, jsonMessage] at h, fun _ => rfl⟩
  · split
    · exact ⟨fun h => by simp at h, fun _ => rfl⟩
    · split
      · exact ⟨fun h => by simp [jsonMessage] at h, fun _ => rfl⟩
      · exact ⟨fun _ _ => rfl, fun h => by simp at h⟩

theorem acceptDonation_points (w : World) (now : Timestamp) (user : User) (id : ObjectId) :
    ((acceptDonation w now user id).1.success = true →
      ∀ uid, pointsOf (acceptDonation w now user id).2 uid =
        pointsOf (addPoints w user 5).2 uid) ∧
    ((acceptDonation w now user id).1.success = false →
      (acceptDonation w now user id).2 = w) := by
  unfold acceptDonation
  split
  · exact ⟨fun h => by simp [authorizeDenied, jsonMessage] at h, fun _ => rfl⟩
  · split
    · exact ⟨fun h => by simp [jsonMessage] at h, fun _ => rfl⟩
    · split
      · exact ⟨fun h => by simp [jsonMessage] at h, fun _ => rfl⟩
      · refine ⟨fun _ uid => ?_, fun h => by simp at h⟩
        dsimp only
        rw [pointsOf_congr _ _ uid (notifyAllVolunteers_users _ _ _),
          pointsOf_congr _ _ uid (sendNotification_users _ _ _ _ _ _ _)]
        rfl

theorem assignVolunteer_points (w : World) (now : Timestamp) (user : User) (id : ObjectId) :
    ((assignVolunteer w now user id).1.success = true →
      ∀ uid, pointsOf (assignVolunteer w now user id).2 uid =
        pointsOf (addPoints w user 20).2 uid) ∧
    ((assignVolunteer w now user id).1.success = false →
      (assignVolunteer w now user id).2 = w) := by
  unfold assignVolunteer
  split
  · exact ⟨fun h => by simp [authorizeDenied, jsonMessage] at h, fun _ => rfl⟩
  · split
    · exact ⟨fun h => by simp [jsonMessage] at h, fun _ => rfl⟩
    · split
      · exact ⟨fun h => by simp [jsonMessage] at h, fun _ => rfl⟩
      · split
        · exact ⟨fun h => by simp [jsonMessage] at h, fun _ => rfl⟩
        · refine ⟨fun _ uid => ?_, fun h => by simp at h⟩
          dsimp only
          split <;> split <;>
            (try simp only [pointsOf_congr _ _ uid (sendNotification_users _ _ _ _ _ _ _)]) <;>
            rfl

theorem completeDonation_points (w : World) (now : Timestamp) (user : User) (id : ObjectId) :
    ((completeDonation w now user id).1.success = true →
      ∃ d donor, findDonation w id = some d ∧ findUser w d.donorId = some donor ∧
        ∀ uid, pointsOf (completeDonation w now user id).2 uid =
          pointsOf (addPoints w donor 50).2 uid) ∧
    ((completeDonation w now user id).1.success = false →
      (completeDonation w now user id).2.users = w.users) := by
  unfold completeDonation
  split
  · exact ⟨fun h => by simp [jsonMessage] at h, fun _ => rfl⟩
  · rename_i d hd
    dsimp only
    split
    · exact ⟨fun h => by simp [jsonMessage] at h, fun _ => rfl⟩
    · split
      · exact ⟨fun h => by simp [jsonMessage] at h, fun _ => rfl⟩
      · rename_i donor hdonor
        refine ⟨fun _ => ⟨d, donor, hd, ?_, fun uid => ?_⟩, fun h => by simp at h⟩
        · have hid : d.donorId = (saveDonation w now
              { d with status := Status.completed, completedAt := some now }).1.donorId := by
            rw [saveDonation_fst, preSave_of_not_pending _ _ (by simp)]
          rw [hid]; exact hdonor
        · dsimp only
          split <;> split <;>
            (try simp only [pointsOf_congr _ _ uid (sendNotification_users _ _ _ _ _ _ _),
              checkBadges_pointsOf]) <;>
            rfl

theorem pointsSame_of_eq (w w1 : World) (h : w1.users = w.users) : PointsSame w w1 :=
  fun id => pointsOf_congr w w1 id h

/-- C15: let the caller be a stored user. A successful `createDonation` raises
the caller's points by exactly 10, a successful `acceptDonation` by exactly 5,
a successful `assignVolunteer` by exactly 20, and a successful
`completeDonation` raises the points of the donation's donor by exactly 50;
each time the points of every other user are unchanged, and an operation that
does not answer with success changes nobody's points. -/
theorem points_by_operation (w : World) (now : Timestamp) (user : User) (id : ObjectId)
    (body : CreateBody) (hstored : findUser w user._id = some user) :
    ((createDonation w now user body).1.success = true →
      PointsGain w (createDonation w now user body).2 user._id 10) ∧
    ((createDonation w now user body).1.success = false →
      PointsSame w (createDonation w now user body).2) ∧
    ((acceptDonation w now user id).1.success = true →
      PointsGain w (acceptDonation w now user id).2 user._id 5) ∧
    ((acceptDonation w now user id).1.success = false →
      PointsSame w (acceptDonation w now user id).2) ∧
    ((assignVolunteer w now user id).1.success = true →
      PointsGain w (assignVolunteer w now user id).2 user._id 20) ∧
    ((assignVolunteer w now user id).1.success = false →
      PointsSame w (assignVolunteer w now user id).2) ∧
    ((completeDonation w now user id).1.success = true →
      ∃ d, findDonation w id = some d ∧
        PointsGain w (completeDonation w now user id).2 d.donorId 50) ∧
    ((completeDonation w now user id).1.success = false →
      PointsSame w (completeDonation w now user id).2) := by
  have hc := createDonation_points w now user body
  have ha := acceptDonation_points w now user id
  have hv := assignVolunteer_points w now user id
  have hd := completeDonation_points w now user id
  refine ⟨fun h => pointsGain_of_addPoints w _ user 10 hstored (hc.1 h),
    fun h => pointsSame_of_eq w _ (by rw [hc.2 h]),
    fun h => pointsGain_of_addPoints w _ user 5 hstored (ha.1 h),
    fun h => pointsSame_of_eq w _ (by rw [ha.2 h]),
    fun h => pointsGain_of_addPoints w _ user 20 hstored (hv.1 h),
    fun h => pointsSame_of_eq w _ (by rw [hv.2 h]),
    fun h => ?_,
    fun h => pointsSame_of_eq w _ (hd.2 h)⟩
  obtain ⟨d, donor, hfind, hdonor, hpts⟩ := hd.1 h
  have hid : donor._id = d.donorId := by
    unfold findUser at hdonor
    simpa using List.find?_some hdonor
  refine ⟨d, hfind, ?_⟩
  rw [← hid]
  exact pointsGain_of_addPoints w _ donor 50 (by rw [hid]; exact hdonor) hpts

/-- C15 at a concrete input: receiver 2, a stored user, accepts the pending
donation 1 and gains 5 points. -/
theorem points_by_operation_witness :
    findUser (sampleWorld sampleDonation) sampleReceiver._id = some sampleReceiver ∧
    (acceptDonation (sampleWorld sampleDonation) 50 sampleReceiver 1).1.success = true ∧
    PointsGain (sampleWorld sampleDonation)
      (acceptDonation (sampleWorld sampleDonation) 50 sampleReceiver 1).2 sampleReceiver._id 5 :=
  ⟨by decide, by decide,
   (points_by_operation (sampleWorld sampleDonation) 50 sampleReceiver 1 {}
      (by decide)).2.2.1 (by decide)⟩

/-! ### Runs of lifecycle requests: what a step does to one donation -/

theorem find_replace_ne (l : List Donation) (i : ObjectId) (d1 : Donation)
    (h1 : d1._id ≠ i) :
    (l.map (fun x => if x._id == d1._id then d1 else x)).find? (fun x => x._id == i) =
      l.find? (fun x => x._id == i) := by
  induction l with
  | nil => rfl
  | cons x xs ih =>
    have hd1 : (d1._id == i) = false := by simpa using h1
    by_cases hx : x._id = d1._id
    · have hxi : (x._id == i) = false := by rw [hx]; exact hd1
      have hx2 : (x._id == d1._id) = true := by simpa using hx
      simp only [List.map_cons, hx2, if_true, List.find?, hd1, hxi]
      exact ih
    · have hx2 : (x._id == d1._id) = false := by simpa using hx
      simp only [List.map_cons, hx2, Bool.false_eq_true, if_false, List.find?]
      rw [ih]

theorem find_after_save (w w1 : World) (now : Timestamp) (i id0 : ObjectId)
    (d d0 d1 : Donation) (hfind : findDonation w i = some d)
    (h0 : findDonation w id0 = some d0)
    (hw1 : w1.donations = (saveDonation w now d1).2.donations) (h1 : d1._id = id0) :
    (i = id0 ∧ d0 = d ∧ findDonation w1 i = some (preSave now d1)) ∨
    (i ≠ id0 ∧ findDonation w1 i = some d) := by
  rw [findDonation_congr _ _ i hw1]
  by_cases hi : i = id0
  · subst hi
    rw [hfind] at h0
    exact Or.inl ⟨rfl, (Option.some.inj h0).symm,
      findDonation_saveDonation w now i d d1 hfind h1⟩
  · refine Or.inr ⟨hi, ?_⟩
    rw [← hfind]
    unfold findDonation saveDonation
    exact find_replace_ne w.donations i (preSave now d1)
      (by rw [preSave_id, h1]; exact fun e => hi e.symm)

theorem acceptDonation_effect (w : World) (now : Timestamp) (user : User) (id : ObjectId) :
    (acceptDonation w now user id).2.donations = w.donations ∨
    ∃ d, findDonation w id = some d ∧ d.status = Status.pending ∧
      (acceptDonation w now user id).2.donations =
        (saveDonation w now { d with receiverId := some user._id, status := Status.accepted,
                                     acceptedAt := some now }).2.donations := by
  unfold acceptDonation
  split
  · exact Or.inl rfl
  · split
    · exact Or.inl rfl
    · rename_i d hd
      split
      · exact Or.inl rfl
      · rename_i hs
        refine Or.inr ⟨d, hd, by simpa using hs, ?_⟩
        dsimp only
        rw [notifyAllVolunteers_donations, sendNotification_donations, addPoints_donations]

theorem assignVolunteer_effect (w : World) (now : Timestamp) (user : User) (id : ObjectId) :
    (assignVolunteer w now user id).2.donations = w.donations ∨
    ∃ d, findDonation w id = some d ∧ d.status = Status.accepted ∧ d.volunteerId = none ∧
      (assignVolunteer w now user id).2.donations =
        (saveDonation w now { d with volunteerId := some user._id, status := Status.picked,
                                     pickedAt := some now }).2.donations := by
  unfold assignVolunteer
  split
  · exact Or.inl rfl
  · split
    · exact Or.inl rfl
    · rename_i d hd
      split
      · exact Or.inl rfl
      · rename_i hs
        split
        · exact Or.inl rfl
        · rename_i hv
          refine Or.inr ⟨d, hd, by simpa using hs, by simpa using hv, ?_⟩
          dsimp only
          split <;> split <;>
            simp only [sendNotification_donations, addPoints_donations]

theorem completeDonation_effect (w : World) (now : Timestamp) (user : User) (id : ObjectId) :
    (completeDonation w now user id).2.donations = w.donations ∨
    ∃ d, findDonation w id = some d ∧
      (d.receiverId = some user._id ∨ d.volunteerId = some user._id ∨
        user.role = Role.admin) ∧
      (completeDonation w now user id).2.donations =
        (saveDonation w now { d with status := Status.completed,
                                     completedAt := some now }).2.donations := by
  unfold completeDonation
  split
  · exact Or.inl rfl
  · rename_i d hd
    dsimp only
    split
    · exact Or.inl rfl
    · rename_i hc
      refine Or.inr ⟨d, hd, ?_, ?_⟩
      · by_contra hn
        simp only [not_or] at hn
        exact hc (by simp [hn.1, hn.2.1, hn.2.2])
      · split
        · rfl
        · dsimp only
          split <;> split <;>
            simp only [sendNotification_donations, checkBadges_donations, addPoints_donations]

theorem cancelDonation_effect (w : World) (now : Timestamp) (user : User) (id : ObjectId)
    (body : CancelBody) :
    (cancelDonation w now user id body).2.donations = w.donations ∨
    ∃ d, findDonation w id = some d ∧ (d.donorId = user._id ∨ user.role = Role.admin) ∧
      (cancelDonation w now user id body).2.donations =
        (saveDonation w now { d with status := Status.cancelled, cancelledAt := some now,
                                     cancellationReason :=
                                       some (cancellationReasonOf body) }).2.donations := by
  unfold cancelDonation
  split
  · exact Or.inl rfl
  · rename_i d hd
    split
    · exact Or.inl rfl
    · rename_i hc
      refine Or.inr ⟨d, hd, ?_, ?_⟩
      · by_cases h : d.donorId = user._id
        · exact Or.inl h
        · right
          by_contra hr
          exact hc (by simp [h, hr])
      · dsimp only
        split
        · rw [sendNotification_donations]
        · rfl

theorem submitFeedback_effect (w : World) (now : Timestamp) (user : User) (id : ObjectId)
    (body : FeedbackBody) :
    (submitFeedback w now user id body).2.donations = w.donations ∨
    ∃ d, findDonation w id = some d ∧ d.receiverId = some user._id ∧
      (submitFeedback w now user id body).2.donations =
        (saveDonation w now { d with feedback := some w.nextId,
                                     foodHealthScore :=
                                       ((body.freshnessScore.getD 0 : Int) : ℚ) }).2.donations := by
  unfold submitFeedback
  split
  · exact Or.inl rfl
  · split
    · exact Or.inl rfl
    · split
      · exact Or.inl rfl
      · rename_i d hd
        split
        · exact Or.inl rfl
        · rename_i hr
          exact Or.inr ⟨d, hd, by simpa using hr, rfl⟩

theorem stepOp_transition (w : World) (now : Timestamp) (op : LifecycleOp) (i : ObjectId)
    (d : Donation) (hfind : findDonation w i = some d) :
    ∃ d1, findDonation (stepOp w now op) i = some d1 ∧ Transition now op d d1 := by
  have hskip : ∀ w1 : World, w1.donations = w.donations →
      ∃ d1, findDonation w1 i = some d1 ∧ Transition now op d d1 := fun w1 h =>
    ⟨d, by rw [findDonation_congr _ _ i h]; exact hfind, Transition.skip op d⟩
  cases op with
  | accept user id =>
    rcases acceptDonation_effect w now user id with h | ⟨d0, h0, hs, hw⟩
    · exact hskip _ h
    · rcases find_after_save w _ now i id d d0 _ hfind h0 hw (findDonation_id w id d0 h0)
        with ⟨_, hd, hf⟩ | ⟨_, hf⟩
      · subst hd
        rw [preSave_of_not_pending _ _ (by simp)] at hf
        exact ⟨_, hf, Transition.accept user id d0 hs⟩
      · exact ⟨d, hf, Transition.skip _ d⟩
  | assign user id =>
    rcases assignVolunteer_effect w now user id with h | ⟨d0, h0, hs, hv, hw⟩
    · exact hskip _ h
    · rcases find_after_save w _ now i id d d0 _ hfind h0 hw (findDonation_id w id d0 h0)
        with ⟨_, hd, hf⟩ | ⟨_, hf⟩
      · subst hd
        rw [preSave_of_not_pending _ _ (by simp)] at hf
        exact ⟨_, hf, Transition.assign user id d0 hs hv⟩
      · exact ⟨d, hf, Transition.skip _ d⟩
  | complete user id =>
    rcases completeDonation_effect w now user id with h | ⟨d0, h0, hc, hw⟩
    · exact hskip _ h
    · rcases find_after_save w _ now i id d d0 _ hfind h0 hw (findDonation_id w id d0 h0)
        with ⟨_, hd, hf⟩ | ⟨_, hf⟩
      · subst hd
        rw [preSave_of_not_pending _ _ (by simp)] at hf
        exact ⟨_, hf, Transition.complete user id d0 hc⟩
      · exact ⟨d, hf, Transition.skip _ d⟩
  | cancel user id body =>
    rcases cancelDonation_effect w now user id body with h | ⟨d0, h0, hc, hw⟩
    · exact hskip _ h
    · rcases find_after_save w _ now i id d d0 _ hfind h0 hw (findDonation_id w id d0 h0)
        with ⟨_, hd, hf⟩ | ⟨_, hf⟩
      · subst hd
        rw [preSave_of_not_pending _ _ (by simp)] at hf
        exact ⟨_, hf, Transition.cancel user id body d0 hc⟩
      · exact ⟨d, hf, Transition.skip _ d⟩
  | feedback user id body =>
    rcases submitFeedback_effect w now user id body with h | ⟨d0, h0, hr, hw⟩
    · exact hskip _ h
    · rcases find_after_save w _ now i id d d0 _ hfind h0 hw (findDonation_id w id d0 h0)
        with ⟨_, hd, hf⟩ | ⟨_, hf⟩
      · subst hd
        exact ⟨_, hf, Transition.feedback user id body w.nextId d0 hr⟩
      · exact ⟨d, hf, Transition.skip _ d⟩

/-- An invariant of the stored donation `i` that every transition keeps (for
the requests that satisfy `ok`) holds after every run of such requests. -/
theorem runOps_invariant (P : Donation → Prop) (ok : LifecycleOp → Prop)
    (hstep : ∀ now op d d1, ok op → Transition now op d d1 → P d → P d1)
    (ops : List (Timestamp × LifecycleOp)) (w : World) (i : ObjectId) (d : Donation)
    (hfind : findDonation w i = some d) (hP : P d) (hok : ∀ o ∈ ops, ok o.2) :
    ∃ d1, findDonation (runOps w ops) i = some d1 ∧ P d1 := by
  unfold runOps
  induction ops generalizing w d with
  | nil => exact ⟨d, hfind, hP⟩
  | cons o os ih =>
    rw [List.foldl_cons]
    obtain ⟨d1, hf1, ht⟩ := stepOp_transition w o.1 o.2 i d hfind
    exact ih (stepOp w o.1 o.2) d1 hf1
      (hstep o.1 o.2 d d1 (hok o (List.mem_cons_self _ _)) ht hP)
      (fun o1 h1 => hok o1 (List.mem_cons_of_mem _ h1))

/-! ### Invariants of the parties along a run -/

theorem isNewlyCreated_iff (d : Donation) :
    isNewlyCreated d = true ↔
      d.receiverId = none ∧ d.volunteerId = none ∧ d.feedback = none ∧ d.acceptedAt = none ∧
      d.pickedAt = none ∧ d.completedAt = none ∧ d.cancelledAt = none ∧
      (d.status = Status.pending ∨ d.status = Status.expired) := by
  simp [isNewlyCreated, and_assoc]

theorem transition_keeps_receiver (now : Timestamp) (op : LifecycleOp) (d d1 : Donation)
    (ht : Transition now op d d1)
    (h : d.receiverId ≠ none → d.status = Status.accepted ∨ d.status = Status.picked ∨
      d.status = Status.completed ∨ d.status = Status.cancelled) :
    d1.receiverId ≠ none → d1.status = Status.accepted ∨ d1.status = Status.picked ∨
      d1.status = Status.completed ∨ d1.status = Status.cancelled := by
  cases ht with
  | skip => exact h
  | accept user id _ hs => intro _; exact Or.inl rfl
  | assign user id _ hs hv => intro _; exact Or.inr (Or.inl rfl)
  | complete user id _ hc => intro _; exact Or.inr (Or.inr (Or.inl rfl))
  | cancel user id body _ hc => intro _; exact Or.inr (Or.inr (Or.inr rfl))
  | feedback user id body fid _ hr =>
    intro _
    have hd := h (by rw [hr]; simp)
    have hnp : d.status ≠ Status.pending := by
      rcases hd with e | e | e | e <;> rw [e] <;> simp
    rw [preSave_of_not_pending _ _ (by simpa using hnp)]
    exact hd

theorem transition_keeps_volunteer (now : Timestamp) (op : LifecycleOp) (d d1 : Donation)
    (ht : Transition now op d d1)
    (h : d.volunteerId ≠ none → d.status = Status.picked ∨ d.status = Status.completed ∨
      d.status = Status.cancelled) :
    d1.volunteerId ≠ none → d1.status = Status.picked ∨ d1.status = Status.completed ∨
      d1.status = Status.cancelled := by
  cases ht with
  | skip => exact h
  | accept user id _ hs =>
    intro hv
    have hd := h hv
    rw [hs] at hd
    simp at hd
  | assign user id _ hs hv => intro _; exact Or.inl rfl
  | complete user id _ hc => intro _; exact Or.inr (Or.inl rfl)
  | cancel user id body _ hc => intro _; exact Or.inr (Or.inr rfl)
  | feedback user id body fid _ hr =>
    intro hv
    have hv0 : d.volunteerId ≠ none := by
      intro e
      apply hv
      unfold preSave
      split <;> exact e
    have hd := h hv0
    have hnp : d.status ≠ Status.pending := by
      rcases hd with e | e | e <;> rw [e] <;> simp
    rw [preSave_of_not_pending _ _ (by simpa using hnp)]
    exact hd

theorem transition_keeps_parties (now : Timestamp) (op : LifecycleOp) (d d1 : Donation)
    (hcaller : op.caller.role ≠ Role.admin) (ht : Transition now op d d1)
    (h : ((d.status = Status.accepted ∨ d.status = Status.picked ∨
          d.status = Status.completed) → d.receiverId ≠ none) ∧
      (d.volunteerId ≠ none → d.receiverId ≠ none) ∧
      (d.receiverId ≠ none → d.acceptedAt ≠ none)) :
    ((d1.status = Status.accepted ∨ d1.status = Status.picked ∨
          d1.status = Status.completed) → d1.receiverId ≠ none) ∧
      (d1.volunteerId ≠ none → d1.receiverId ≠ none) ∧
      (d1.receiverId ≠ none → d1.acceptedAt ≠ none) := by
  cases ht with
  | skip => exact h
  | accept user id _ hs => simp
  | assign user id _ hs hv =>
    have hr := h.1 (Or.inl hs)
    exact ⟨fun _ => hr, fun _ => hr, h.2.2⟩
  | complete user id _ hc =>
    have hr : d.receiverId ≠ none := by
      rcases hc with e | e | e
      · rw [e]; simp
      · exact h.2.1 (by rw [e]; simp)
      · exact absurd e hcaller
    exact ⟨fun _ => hr, h.2.1, h.2.2⟩
  | cancel user id body _ hc =>
    refine ⟨fun hs => ?_, h.2.1, h.2.2⟩
    simp at hs
  | feedback user id body fid _ hr =>
    have hr1 : d.receiverId ≠ none := by rw [hr]; simp
    unfold preSave
    split
    · exact ⟨fun _ => hr1, fun _ => hr1, h.2.2⟩
    · exact ⟨fun _ => hr1, fun _ => hr1, h.2.2⟩

/-! ### Newly created donations -/

theorem createDonation_newlyCreated (w : World) (now : Timestamp) (user : User)
    (body : CreateBody)
    (hplain : body.status = none ∧ body.receiverId = none ∧ body.volunteerId = none ∧
      body.feedback = none ∧ body.acceptedAt = none ∧ body.pickedAt = none ∧
      body.completedAt = none ∧ body.cancelledAt = none)
    (hok : (createDonation w now user body).1.success = true) :
    (createDonation w now user body).1.payload =
      Payload.donation (preSave now (donationOf w.nextId now user body)) ∧
    isNewlyCreated (preSave now (donationOf w.nextId now user body)) = true ∧
    preSave now (donationOf w.nextId now user body) ∈
      (createDonation w now user body).2.donations := by
  obtain ⟨h1, h2, h3, h4, h5, h6, h7, h8⟩ := hplain
  have hnew : isNewlyCreated (preSave now (donationOf w.nextId now user body)) = true := by
    rw [isNewlyCreated_iff]
    unfold preSave
    split <;> simp [donationOf, h1, h2, h3, h4, h5, h6, h7, h8]
  refine ⟨?_, hnew, ?_⟩
  · unfold createDonation at hok ⊢
    split
    · rename_i h; simp [h, authorizeDenied, jsonMessage] at hok
    · rename_i h
      split
      · rename_i hv; simp [h, hv] at hok
      · rename_i hv
        split
        · rename_i hsv; simp [h, hv, hsv, jsonMessage] at hok
        · rfl
  · unfold createDonation at hok ⊢
    split
    · rename_i h; simp [h, authorizeDenied, jsonMessage] at hok
    · rename_i h
      split
      · rename_i hv; simp [h, hv] at hok
      · rename_i hv
        split
        · rename_i hsv; simp [h, hv, hsv, jsonMessage] at hok
        · simp [addPoints]

/-- C18 (counterexample): donor 1 creates a donation, receiver 2 accepts it and
donor 1 cancels it, none of them an admin; the stored donation then has status
cancelled and still receiverId 2. -/
theorem receiver_invariant_counterexample :
    (findDonation createdWorld 100).map isNewlyCreated = some true ∧
    sampleDonor.role = Role.donor ∧ sampleReceiver.role = Role.receiver ∧
    (findDonation
        (runOps createdWorld
          [(10, LifecycleOp.accept sampleReceiver 100),
           (20, LifecycleOp.cancel sampleDonor 100 {})]) 100).map
        (fun d => (d.status, d.receiverId)) = some (Status.cancelled, some 2) := by
  decide

/-- C18 (amended): in every state reachable from a newly created donation
through accept, assign volunteer, complete, cancel and feedback submission, a
non-null receiverId implies status accepted, picked, completed or cancelled (a
cancellation keeps the receiver); and when no caller is an admin, status
accepted, picked or completed implies a non-null receiverId. -/
theorem receiver_invariant_amended (w0 : World) (i : ObjectId) (d0 : Donation)
    (ops : List (Timestamp × LifecycleOp))
    (hfind : findDonation w0 i = some d0) (hnew : isNewlyCreated d0 = true) :
    ∃ d, findDonation (runOps w0 ops) i = some d ∧
      (d.receiverId ≠ none → d.status = Status.accepted ∨ d.status = Status.picked ∨
        d.status = Status.completed ∨ d.status = Status.cancelled) ∧
      ((∀ o ∈ ops, o.2.caller.role ≠ Role.admin) →
        (d.status = Status.accepted ∨ d.status = Status.picked ∨
          d.status = Status.completed) → d.receiverId ≠ none) := by
  have hn := (isNewlyCreated_iff d0).mp hnew
  obtain ⟨d, hf, h1⟩ := runOps_invariant
    (fun d => d.receiverId ≠ none → d.status = Status.accepted ∨ d.status = Status.picked ∨
      d.status = Status.completed ∨ d.status = Status.cancelled)
    (fun _ => True)
    (fun now op d d1 _ ht h => transition_keeps_receiver now op d d1 ht h)
    ops w0 i d0 hfind (fun h => absurd hn.1 h) (fun _ _ => trivial)
  refine ⟨d, hf, h1, fun hok => ?_⟩
  obtain ⟨d2, hf2, h2⟩ := runOps_invariant
    (fun d => ((d.status = Status.accepted ∨ d.status = Status.picked ∨
          d.status = Status.completed) → d.receiverId ≠ none) ∧
      (d.volunteerId ≠ none → d.receiverId ≠ none) ∧
      (d.receiverId ≠ none → d.acceptedAt ≠ none))
    (fun op => op.caller.role ≠ Role.admin)
    (fun now op d d1 hc ht h => transition_keeps_parties now op d d1 hc ht h)
    ops w0 i d0 hfind
    ⟨fun hs => by rcases hn.2.2.2.2.2.2.2 with e | e <;> rw [e] at hs <;> simp at hs,
     fun h => absurd hn.2.1 h, fun h => absurd hn.1 h⟩
    hok
  rw [hf] at hf2
  have hd : d = d2 := Option.some.inj hf2
  rw [hd]
  exact h2.1

/-- C18 (amended) at a concrete input: the pending donation 1 after receiver 2
accepted it. -/
theorem receiver_invariant_amended_witness :
    findDonation (sampleWorld sampleDonation) 1 = some sampleDonation ∧
    isNewlyCreated sampleDonation = true ∧
    ∃ d, findDonation
        (runOps (sampleWorld sampleDonation) [(10, LifecycleOp.accept sampleReceiver 1)]) 1 =
          some d ∧
      (d.receiverId ≠ none → d.status = Status.accepted ∨ d.status = Status.picked ∨
        d.status = Status.completed ∨ d.status = Status.cancelled) ∧
      ((∀ o ∈ [((10 : Timestamp), LifecycleOp.accept sampleReceiver 1)],
          o.2.caller.role ≠ Role.admin) →
        (d.status = Status.accepted ∨ d.status = Status.picked ∨
          d.status = Status.completed) → d.receiverId ≠ none) :=
  ⟨by decide, by decide,
   receiver_invariant_amended (sampleWorld sampleDonation) 1 sampleDonation
     [(10, LifecycleOp.accept sampleReceiver 1)] (by decide) (by decide)⟩

/-- C19 (counterexample): donor 1 creates a donation, receiver 2 accepts it,
volunteer 3 claims it and donor 1 cancels it; the stored donation then has
status cancelled and still volunteerId 3. -/
theorem volunteer_invariant_counterexample :
    (findDonation createdWorld 100).map isNewlyCreated = some true ∧
    (findDonation
        (runOps createdWorld
          [(10, LifecycleOp.accept sampleReceiver 100),
           (20, LifecycleOp.assign sampleVolunteer 100),
           (30, LifecycleOp.cancel sampleDonor 100 {})]) 100).map
        (fun d => (d.status, d.volunteerId)) = some (Status.cancelled, some 3) := by
  decide

/-- C19 (amended): in every state reachable from a newly created donation
through accept, assign volunteer, complete, cancel and feedback submission,
volunteerId is non-null only when status is picked, completed or cancelled (a
cancellation keeps the volunteer). -/
theorem volunteer_invariant_amended (w0 : World) (i : ObjectId) (d0 : Donation)
    (ops : List (Timestamp × LifecycleOp))
    (hfind : findDonation w0 i = some d0) (hnew : isNewlyCreated d0 = true) :
    ∃ d, findDonation (runOps w0 ops) i = some d ∧
      (d.volunteerId ≠ none → d.status = Status.picked ∨ d.status = Status.completed ∨
        d.status = Status.cancelled) := by
  have hn := (isNewlyCreated_iff d0).mp hnew
  exact runOps_invariant
    (fun d => d.volunteerId ≠ none → d.status = Status.picked ∨ d.status = Status.completed ∨
      d.status = Status.cancelled)
    (fun _ => True)
    (fun now op d d1 _ ht h => transition_keeps_volunteer now op d d1 ht h)
    ops w0 i d0 hfind (fun h => absurd hn.2.1 h) (fun _ _ => trivial)

/-- C19 (amended) at a concrete input: the pending donation 1 after receiver 2
accepted it and volunteer 3 claimed it. -/
theorem volunteer_invariant_amended_witness :
    findDonation (sampleWorld sampleDonation) 1 = some sampleDonation ∧
    isNewlyCreated sampleDonation = true ∧
    ∃ d, findDonation
        (runOps (sampleWorld sampleDonation)
          [(10, LifecycleOp.accept sampleReceiver 1),
           (20, LifecycleOp.assign sampleVolunteer 1)]) 1 = some d ∧
      (d.volunteerId ≠ none → d.status = Status.picked ∨ d.status = Status.completed ∨
        d.status = Status.cancelled) :=
  ⟨by decide, by decide,
   volunteer_invariant_amended (sampleWorld sampleDonation) 1 sampleDonation
     [(10, LifecycleOp.accept sampleReceiver 1), (20, LifecycleOp.assign sampleVolunteer 1)]
     (by decide) (by decide)⟩

/-! ### The order of the lifecycle timestamps -/

theorem stamped_mono (t now : Timestamp) (d : Donation) (hle : t ≤ now) (h : Stamped t d) :
    Stamped now d := by
  obtain ⟨h1, h2, h3, h4, h5, h6, h7⟩ := h
  exact ⟨fun a ha => le_trans (h1 a ha) hle, fun p hp => le_trans (h2 p hp) hle,
    fun c hc => le_trans (h3 c hc) hle, h4, h5, h6, h7⟩

theorem transition_keeps_stamps (t now : Timestamp) (op : LifecycleOp) (d d1 : Donation)
    (ht : Transition now op d d1) (hle : t ≤ now) (h : Stamped t d) : Stamped now d1 := by
  cases ht with
  | skip => exact stamped_mono t now d hle h
  | accept user id _ hs =>
    obtain ⟨_, _, _, h4, _, _, _⟩ := h
    obtain ⟨_, hp, hc⟩ := h4 hs
    refine ⟨?_, ?_, ?_, ?_, ?_, ?_, ?_⟩ <;> simp [hp, hc]
  | assign user id _ hs hv =>
    obtain ⟨h1, _, _, _, h5, _, _⟩ := h
    obtain ⟨_, hc⟩ := h5 hs
    refine ⟨fun a ha => le_trans (h1 a ha) hle, ?_, ?_, ?_, ?_, ?_, ?_⟩
    · intro p hp; simp at hp; exact le_of_eq hp.symm
    · intro c hc1; simp [hc] at hc1
    · intro hs1; simp at hs1
    · intro hs1; simp at hs1
    · intro a p ha hp
      simp at hp
      rw [← hp]
      exact le_trans (h1 a ha) hle
    · intro p c _ hc1; simp [hc] at hc1
  | complete user id _ hc =>
    obtain ⟨h1, h2, _, _, _, h6, _⟩ := h
    refine ⟨fun a ha => le_trans (h1 a ha) hle, fun p hp => le_trans (h2 p hp) hle,
      ?_, ?_, ?_, h6, ?_⟩
    · intro c hc1; simp at hc1; exact le_of_eq hc1.symm
    · intro hs1; simp at hs1
    · intro hs1; simp at hs1
    · intro p c hp hc1
      simp at hc1
      rw [← hc1]
      exact le_trans (h2 p hp) hle
  | cancel user id body _ hc =>
    obtain ⟨h1, h2, h3, _, _, h6, h7⟩ := h
    refine ⟨fun a ha => le_trans (h1 a ha) hle, fun p hp => le_trans (h2 p hp) hle,
      fun c hc1 => le_trans (h3 c hc1) hle, ?_, ?_, h6, h7⟩
    · intro hs1; simp at hs1
    · intro hs1; simp at hs1
  | feedback user id body fid _ hr =>
    obtain ⟨h1, h2, h3, h4, h5, h6, h7⟩ := h
    unfold preSave
    split
    · refine ⟨fun a ha => le_trans (h1 a ha) hle, fun p hp => le_trans (h2 p hp) hle,
        fun c hc1 => le_trans (h3 c hc1) hle, ?_, ?_, h6, h7⟩
      · intro hs1; simp at hs1
      · intro hs1; simp at hs1
    · exact ⟨fun a ha => le_trans (h1 a ha) hle, fun p hp => le_trans (h2 p hp) hle,
        fun c hc1 => le_trans (h3 c hc1) hle, h4, h5, h6, h7⟩

theorem runOps_stamped (ops : List (Timestamp × LifecycleOp)) (w : World) (i : ObjectId)
    (d : Donation) (t : Timestamp) (hfind : findDonation w i = some d) (hS : Stamped t d)
    (hge : ∀ o ∈ ops, t ≤ o.1)
    (hclock : List.Pairwise (fun a b : Timestamp => a ≤ b) (ops.map (fun o => o.1))) :
    ∃ d1 t1, findDonation (runOps w ops) i = some d1 ∧ Stamped t1 d1 := by
  unfold runOps
  induction ops generalizing w d t with
  | nil => exact ⟨d, t, hfind, hS⟩
  | cons o os ih =>
    rw [List.foldl_cons]
    obtain ⟨d1, hf1, ht⟩ := stepOp_transition w o.1 o.2 i d hfind
    have h1 := transition_keeps_stamps t o.1 o.2 d d1 ht (hge o (List.mem_cons_self _ _)) hS
    rw [List.map_cons, List.pairwise_cons] at hclock
    exact ih (stepOp w o.1 o.2) d1 o.1 hf1 h1
      (fun o1 ho1 => hclock.1 o1.1 (List.mem_map.mpr ⟨o1, ho1, rfl⟩)) hclock.2

/-- C20: in every state reachable from a newly created donation through
accept, assign volunteer, complete and cancel (and feedback submission) under
a non-decreasing clock, the donation is still stored and, whenever acceptedAt,
pickedAt and completedAt are all present, acceptedAt <= pickedAt <=
completedAt. -/
theorem timestamps_ordered (w0 : World) (i : ObjectId) (d0 : Donation)
    (ops : List (Timestamp × LifecycleOp))
    (hfind : findDonation w0 i = some d0) (hnew : isNewlyCreated d0 = true)
    (hclock : List.Pairwise (fun a b : Timestamp => a ≤ b) (ops.map (fun o => o.1))) :
    ∃ d, findDonation (runOps w0 ops) i = some d ∧
      ∀ a p c, d.acceptedAt = some a → d.pickedAt = some p → d.completedAt = some c →
        a ≤ p ∧ p ≤ c := by
  have hn := (isNewlyCreated_iff d0).mp hnew
  have hS : ∀ t, Stamped t d0 := by
    intro t
    refine ⟨?_, ?_, ?_, ?_, ?_, ?_, ?_⟩ <;>
      simp [hn.2.2.2.1, hn.2.2.2.2.1, hn.2.2.2.2.2.1]
  have hrun : ∃ d1 t1, findDonation (runOps w0 ops) i = some d1 ∧ Stamped t1 d1 := by
    cases ops with
    | nil => exact ⟨d0, 0, hfind, hS 0⟩
    | cons o os =>
      refine runOps_stamped (o :: os) w0 i d0 o.1 hfind (hS o.1) ?_ hclock
      intro o1 ho1
      rw [List.map_cons, List.pairwise_cons] at hclock
      rcases List.mem_cons.mp ho1 with e | e
      · rw [e]
      · exact hclock.1 o1.1 (List.mem_map.mpr ⟨o1, e, rfl⟩)
  obtain ⟨d1, t1, hf, hst⟩ := hrun
  exact ⟨d1, hf, fun a p c ha hp hc => ⟨hst.2.2.2.2.2.1 a p ha hp, hst.2.2.2.2.2.2 p c hp hc⟩⟩

/-- C20 at a concrete input: the pending donation 1 accepted at time 10,
claimed at time 20 and completed at time 30. -/
theorem timestamps_ordered_witness :
    findDonation (sampleWorld sampleDonation) 1 = some sampleDonation ∧
    isNewlyCreated sampleDonation = true ∧
    List.Pairwise (fun a b : Timestamp => a ≤ b)
      ([((10 : Timestamp), LifecycleOp.accept sampleReceiver 1),
        (20, LifecycleOp.assign sampleVolunteer 1),
        (30, LifecycleOp.complete sampleReceiver 1)].map (fun o => o.1)) ∧
    ∃ d, findDonation
        (runOps (sampleWorld sampleDonation)
          [(10, LifecycleOp.accept sampleReceiver 1),
           (20, LifecycleOp.assign sampleVolunteer 1),
           (30, LifecycleOp.complete sampleReceiver 1)]) 1 = some d ∧
      ∀ a p c, d.acceptedAt = some a → d.pickedAt = some p → d.completedAt = some c →
        a ≤ p ∧ p ≤ c :=
  ⟨by decide, by decide, by decide,
   timestamps_ordered (sampleWorld sampleDonation) 1 sampleDonation
     [(10, LifecycleOp.accept sampleReceiver 1), (20, LifecycleOp.assign sampleVolunteer 1),
      (30, LifecycleOp.complete sampleReceiver 1)] (by decide) (by decide) (by decide)⟩

/-! ### The timeline of a completed donation -/

theorem getTracking_timeline (w : World) (now : Timestamp) (user : User) (id : ObjectId)
    (d : Donation) (hfind : findDonation w id = some d) (t : Tracking)
    (ht : (getTracking w now user id).payload = Payload.tracking t) :
    t.timeline = populatedTimeline w d := by
  unfold getTracking at ht
  simp only [hfind] at ht
  split at ht
  · simp [jsonMessage] at ht
  · simp only [Payload.tracking.injEq] at ht
    rw [← ht]
    rfl

/-- C17 (counterexample): donor 1 creates a donation, receiver 2 accepts it at
time 10 and completes it at time 20 without any volunteer; the donation is
completed, its volunteerId is null, and the step 'volunteer_assigned' of its
timeline is not marked done. -/
theorem completed_timeline_counterexample :
    (findDonation createdWorld 100).map isNewlyCreated = some true ∧
    (findDonation
        (runOps createdWorld
          [(10, LifecycleOp.accept sampleReceiver 100),
           (20, LifecycleOp.complete sampleReceiver 100)]) 100).map
        (fun d => (d.status, d.volunteerId,
          (populatedTimeline
            (runOps createdWorld
              [(10, LifecycleOp.accept sampleReceiver 100),
               (20, LifecycleOp.complete sampleReceiver 100)]) d).map
            (fun s => (s.step, s.done)))) =
      some (Status.completed, none,
        [("created", true), ("accepted", true), ("volunteer_notified", true),
         ("volunteer_assigned", false), ("picked", true), ("in_transit", true),
         ("completed", true)]) := by
  refine ⟨by decide, ?_⟩
  have h1 : findDonation (acceptDonation createdWorld 10 sampleReceiver 100).2 100 =
      some createdAccepted := by decide
  have h2 := completeDonation_find (acceptDonation createdWorld 10 sampleReceiver 100).2 20
    sampleReceiver 100 createdAccepted h1 (Or.inl rfl)
  have hrun : runOps createdWorld
      [(10, LifecycleOp.accept sampleReceiver 100),
       (20, LifecycleOp.complete sampleReceiver 100)] =
      (completeDonation (acceptDonation createdWorld 10 sampleReceiver 100).2 20
        sampleReceiver 100).2 := rfl
  rw [hrun, h2]
  simp [populatedTimeline, filteredTimeline, timeline, showStep, List.enum, List.enumFrom,
    createdAccepted, donationOf, sampleCreateBody]

/-- C17 (amended): for a donation with status completed the timeline has all
seven steps; 'created', 'picked', 'in_transit' and 'completed' are marked done,
'accepted' and 'volunteer_notified' are marked done exactly when acceptedAt is
set, and 'volunteer_assigned' exactly when the donation has a volunteer whose
user document exists. When the donation was reached from a newly created one
through lifecycle requests of non-admin callers, acceptedAt is set, so every
step except possibly 'volunteer_assigned' is marked done. -/
theorem completed_timeline_amended (w0 : World) (i : ObjectId) (d0 : Donation)
    (ops : List (Timestamp × LifecycleOp))
    (hfind : findDonation w0 i = some d0) (hnew : isNewlyCreated d0 = true) :
    ∃ d, findDonation (runOps w0 ops) i = some d ∧
      (d.status = Status.completed →
        (populatedTimeline (runOps w0 ops) d).map (fun s => (s.step, s.done)) =
          [("created", true), ("accepted", d.acceptedAt.isSome),
           ("volunteer_notified", d.acceptedAt.isSome),
           ("volunteer_assigned", (d.volunteerId.bind (findUser (runOps w0 ops))).isSome),
           ("picked", true), ("in_transit", true), ("completed", true)] ∧
        ((∀ o ∈ ops, o.2.caller.role ≠ Role.admin) → d.acceptedAt.isSome = true)) := by
  have hn := (isNewlyCreated_iff d0).mp hnew
  obtain ⟨d, hf, _⟩ := runOps_invariant (fun _ => True) (fun _ => True)
    (fun _ _ _ _ _ _ _ => trivial) ops w0 i d0 hfind trivial (fun _ _ => trivial)
  refine ⟨d, hf, fun hs => ⟨?_, fun hok => ?_⟩⟩
  · simp [populatedTimeline, filteredTimeline, timeline, showStep, hs, List.enum,
      List.enumFrom]
  · obtain ⟨d2, hf2, h2⟩ := runOps_invariant
      (fun d => ((d.status = Status.accepted ∨ d.status = Status.picked ∨
            d.status = Status.completed) → d.receiverId ≠ none) ∧
        (d.volunteerId ≠ none → d.receiverId ≠ none) ∧
        (d.receiverId ≠ none → d.acceptedAt ≠ none))
      (fun op => op.caller.role ≠ Role.admin)
      (fun now op d d1 hc ht h => transition_keeps_parties now op d d1 hc ht h)
      ops w0 i d0 hfind
      ⟨fun hs => by rcases hn.2.2.2.2.2.2.2 with e | e <;> rw [e] at hs <;> simp at hs,
       fun h => absurd hn.2.1 h, fun h => absurd hn.1 h⟩
      hok
    rw [hf] at hf2
    have hd : d = d2 := Option.some.inj hf2
    rw [← hd] at h2
    have := h2.2.2 (h2.1 (Or.inr (Or.inr hs)))
    exact Option.isSome_iff_ne_none.mpr this

/-- C17 (amended) at a concrete input: the pending donation 1, accepted by
receiver 2 and completed by receiver 2. -/
theorem completed_timeline_amended_witness :
    findDonation (sampleWorld sampleDonation) 1 = some sampleDonation ∧
    isNewlyCreated sampleDonation = true ∧
    ∃ d, findDonation
        (runOps (sampleWorld sampleDonation)
          [(10, LifecycleOp.accept sampleReceiver 1),
           (20, LifecycleOp.complete sampleReceiver 1)]) 1 = some d ∧
      (d.status = Status.completed →
        (populatedTimeline
            (runOps (sampleWorld sampleDonation)
              [(10, LifecycleOp.accept sampleReceiver 1),
               (20, LifecycleOp.complete sampleReceiver 1)]) d).map
            (fun s => (s.step, s.done)) =
          [("created", true), ("accepted", d.acceptedAt.isSome),
           ("volunteer_notified", d.acceptedAt.isSome),
           ("volunteer_assigned",
             (d.volunteerId.bind (findUser
               (runOps (sampleWorld sampleDonation)
                 [(10, LifecycleOp.accept sampleReceiver 1),
                  (20, LifecycleOp.complete sampleReceiver 1)]))).isSome),
           ("picked", true), ("in_transit", true), ("completed", true)] ∧
        ((∀ o ∈ [((10 : Timestamp), LifecycleOp.accept sampleReceiver 1),
                 (20, LifecycleOp.complete sampleReceiver 1)],
            o.2.caller.role ≠ Role.admin) → d.acceptedAt.isSome = true)) :=
  ⟨by decide, by decide,
   completed_timeline_amended (sampleWorld sampleDonation) 1 sampleDonation
     [(10, LifecycleOp.accept sampleReceiver 1), (20, LifecycleOp.complete sampleReceiver 1)]
     (by decide) (by decide)⟩

/-! ### The auto-expire hook -/

/-- C29: on a save at time `now` the hook yields the same document with status
expired when expiryTime < now and the status is pending, and the very same
document in every other case; no field other than status ever differs. -/
theorem preSave_spec (now : Timestamp) (d : Donation) :
    preSave now d =
      { d with status := if d.expiryTime < now ∧ d.status = Status.pending
                         then Status.expired else d.status } ∧
    ((preSave now d).status = Status.expired ∧ d.status ≠ Status.expired ↔
      d.expiryTime < now ∧ d.status = Status.pending) ∧
    (preSave now d ≠ d ↔ d.expiryTime < now ∧ d.status = Status.pending) ∧
    { preSave now d with status := d.status } = d := by
  unfold preSave
  by_cases h : d.expiryTime < now ∧ d.status = Status.pending
  · have hc : (decide (d.expiryTime < now) && (d.status == Status.pending)) = true := by
      simp [h.1, h.2]
    rw [if_pos hc, if_pos h]
    refine ⟨rfl, ?_, ?_, rfl⟩
    · simp [h.1, h.2]
    · simp only [h, and_self, iff_true]
      intro e
      have h1 := congrArg Donation.status e
      rw [h.2] at h1
      cases h1
  · have hc : ¬ (decide (d.expiryTime < now) && (d.status == Status.pending)) = true := by
      intro hc
      simp only [Bool.and_eq_true, decide_eq_true_eq, beq_iff_eq] at hc
      exact h hc
    rw [if_neg hc, if_neg h]
    refine ⟨rfl, ?_, ?_, rfl⟩
    · constructor
      · rintro ⟨h1, h2⟩; exact absurd h1 h2
      · intro h1; exact absurd h1 h
    · constructor
      · intro h1; exact absurd rfl h1
      · intro h1; exact absurd h1 h

/-! ### References of a feedback record -/

/-- C30 (the code at the failing input): receiver 2 submits a feedback on the
completed donation 1 of donor 1 with a body that also carries donationId 999,
receiverId 5 and donorId 6; the call answers 201 and the stored Feedback record
carries the three references of the body, not those of the donation and the
caller. -/
theorem submitFeedback_forged_references :
    completedDonation._id = 1 ∧ completedDonation.donorId = 1 ∧ sampleReceiver._id = 2 ∧
    feedbackBodyValid forgedFeedbackBody = true ∧
    (submitFeedback (sampleWorld completedDonation) 50 sampleReceiver 1
      forgedFeedbackBody).1.status = 201 ∧
    (submitFeedback (sampleWorld completedDonation) 50 sampleReceiver 1
      forgedFeedbackBody).2.feedbacks.map (fun f => (f.donationId, f.receiverId, f.donorId)) =
      [(999, 5, 6)] := by
  decide

/-! ### What `createDonation` stores -/

theorem createDonation_success (w : World) (now : Timestamp) (user : User) (body : CreateBody)
    (hok : (createDonation w now user body).1.success = true) :
    (createDonation w now user body).1 =
      { status := 201, success := true,
        payload := Payload.donation (preSave now (donationOf w.nextId now user body)) } ∧
    (createDonation w now user body).2.donations =
      w.donations ++ [preSave now (donationOf w.nextId now user body)] := by
  unfold createDonation at hok ⊢
  split
  · rename_i h; simp [h, authorizeDenied, jsonMessage] at hok
  · rename_i h
    split
    · rename_i hv; simp [h, hv] at hok
    · rename_i hv
      split
      · rename_i hsv; simp [h, hv, hsv, jsonMessage] at hok
      · exact ⟨rfl, rfl⟩

/-- C26 (counterexample): donor 1 posts the sample body, which passes
validation and carries no status, receiverId or volunteerId key, at time 200,
after its expiryTime 100: the call answers 201 and the donation it produces has
status expired, not pending. -/
theorem createDonation_fields_counterexample :
    createBodyValid sampleCreateBody = true ∧
    sampleCreateBody.status = none ∧ sampleCreateBody.receiverId = none ∧
    sampleCreateBody.volunteerId = none ∧
    (createDonation registeredWorld 200 sampleDonor sampleCreateBody).1.status = 201 ∧
    ((createDonation registeredWorld 200 sampleDonor sampleCreateBody).2.donations.map
      (fun d => (d.donorId, d.status, d.receiverId, d.volunteerId))) =
      [(1, Status.expired, none, none)] := by
  decide

/-- C26 (amended): for a body without a status, receiverId or volunteerId key,
the donation that a successful `createDonation` answers with and stores has
donorId equal to the authenticated caller, null receiverId and volunteerId, and
status pending, except that the save hook stores a donation whose expiryTime is
earlier than the current time as expired. -/
theorem createDonation_fields (w : World) (now : Timestamp) (user : User) (body : CreateBody)
    (hplain : body.status = none ∧ body.receiverId = none ∧ body.volunteerId = none)
    (hok : (createDonation w now user body).1.success = true) :
    ∃ d, (createDonation w now user body).1.payload = Payload.donation d ∧
      (createDonation w now user body).2.donations = w.donations ++ [d] ∧
      d.donorId = user._id ∧
      d.receiverId = none ∧
      d.volunteerId = none ∧
      d.status = (if d.expiryTime < now then Status.expired else Status.pending) := by
  obtain ⟨h1, h2, h3⟩ := hplain
  have h := createDonation_success w now user body hok
  have hs : (donationOf w.nextId now user body).status = Status.pending := by
    simp [donationOf, h1]
  refine ⟨preSave now (donationOf w.nextId now user body), by rw [h.1], h.2, ?_, ?_, ?_, ?_⟩
  · unfold preSave; split <;> rfl
  · unfold preSave; split <;> simp [donationOf, h2]
  · unfold preSave; split <;> simp [donationOf, h3]
  · have he : (preSave now (donationOf w.nextId now user body)).expiryTime =
        (donationOf w.nextId now user body).expiryTime := by
      unfold preSave; split <;> rfl
    rw [he]
    unfold preSave
    by_cases hc : (donationOf w.nextId now user body).expiryTime < now
    · have hb : (decide ((donationOf w.nextId now user body).expiryTime < now) &&
          ((donationOf w.nextId now user body).status == Status.pending)) = true := by
        simp [hc, hs]
      rw [if_pos hb, if_pos hc]
    · have hb : ¬ (decide ((donationOf w.nextId now user body).expiryTime < now) &&
          ((donationOf w.nextId now user body).status == Status.pending)) = true := by
        intro hb
        simp only [Bool.and_eq_true, decide_eq_true_eq, beq_iff_eq] at hb
        exact hc hb.1
      rw [if_neg hb, if_neg hc]
      exact hs

/-- C26 (amended) at a concrete input: donor 1 posts the sample body at
time 0. -/
theorem createDonation_fields_witness :
    (sampleCreateBody.status = none ∧ sampleCreateBody.receiverId = none ∧
      sampleCreateBody.volunteerId = none) ∧
    (createDonation registeredWorld 0 sampleDonor sampleCreateBody).1.success = true ∧
    ∃ d, (createDonation registeredWorld 0 sampleDonor sampleCreateBody).1.payload =
        Payload.donation d ∧
      (createDonation registeredWorld 0 sampleDonor sampleCreateBody).2.donations =
        registeredWorld.donations ++ [d] ∧
      d.donorId = sampleDonor._id ∧
      d.receiverId = none ∧
      d.volunteerId = none ∧
      d.status = (if d.expiryTime < 0 then Status.expired else Status.pending) :=
  ⟨by decide, by decide,
   createDonation_fields registeredWorld 0 sampleDonor sampleCreateBody (by decide) (by decide)⟩

/-- The spread of the body comes before `donorId` only: a body that passes
validation and carries the keys status, receiverId and volunteerId gives, at
time 0, a donation with status completed, receiverId 2 and volunteerId 3, and
the caller as donorId. -/
theorem createDonation_body_keys :
    createBodyValid forgedCreateBody = true ∧
    (createDonation registeredWorld 0 sampleDonor forgedCreateBody).1.status = 201 ∧
    ((createDonation registeredWorld 0 sampleDonor forgedCreateBody).2.donations.map
      (fun d => (d.donorId, d.status, d.receiverId, d.volunteerId))) =
      [(1, Status.completed, some 2, some 3)] := by
  decide

/-! ### The notification of a cancellation -/

/-- C23 (the code at the failing input): donor 1 cancels the donation 1 that
receiver 2 accepted; the call answers 200, yet no Notification is stored and
none is emitted, because `Notification.create` rejects the type
'donation_cancelled', which the schema's enum lacks, and `sendNotification`
returns null. -/
theorem cancelDonation_receiver_not_notified :
    acceptedDonation.receiverId = some 2 ∧
    (cancelDonation (sampleWorld acceptedDonation) 50 sampleDonor 1 {}).1.status = 200 ∧
    statusOf (cancelDonation (sampleWorld acceptedDonation) 50 sampleDonor 1 {}).2 1 =
      some Status.cancelled ∧
    (cancelDonation (sampleWorld acceptedDonation) 50 sampleDonor 1 {}).2.notifications = [] ∧
    (cancelDonation (sampleWorld acceptedDonation) 50 sampleDonor 1 {}).2.emitted = [] ∧
    notificationTypes.contains "donation_cancelled" = false ∧
    (sendNotification (sampleWorld acceptedDonation) 50 2 "donation_cancelled"
      "Donation Cancelled" "The donation has been cancelled" {}).1 = none := by
  decide

/-! ### Who may complete a donation -/

theorem completeDonation_response (w : World) (now : Timestamp) (user : User) (id : ObjectId)
    (d : Donation) (hfind : findDonation w id = some d)
    (hcan : d.receiverId = some user._id ∨ d.volunteerId = some user._id ∨
      user.role = Role.admin) :
    (findUser w d.donorId = none →
      (completeDonation w now user id).1 = jsonMessage 500 "Server error completing donation") ∧
    (∀ donor, findUser w d.donorId = some donor →
      (completeDonation w now user id).1 =
        { status := 200, success := true,
          payload := Payload.donation
            { d with status := Status.completed, completedAt := some now } }) := by
  have hguard : (d.receiverId == some user._id || d.volunteerId == some user._id ||
      user.role == Role.admin) = true := by
    rcases hcan with h | h | h <;> simp [h]
  have hs : (saveDonation w now
        { d with status := Status.completed, completedAt := some now }).1 =
      { d with status := Status.completed, completedAt := some now } := by
    rw [saveDonation_fst, preSave_of_not_pending _ _ (by simp)]
  have hu : ∀ uid, findUser (saveDonation w now
        { d with status := Status.completed, completedAt := some now }).2 uid =
      findUser w uid := fun _ => rfl
  unfold completeDonation
  simp only [hfind, hguard, Bool.not_true, Bool.false_eq_true, if_false, hs, hu]
  constructor
  · intro hn
    simp only [hn]
  · intro donor hdonor
    simp only [hdonor]

/-- C22: an unknown id yields 404 with nothing changed; on an existing
donation a caller who is not its receiver, not its assigned volunteer and not
an admin (the owning donor included) gets 403 and the world is unchanged, so
status, completedAt, the donor's points and badges are as before; the handler's
catch answers 500 exactly when the caller is entitled and the donor's user
document is missing; and whenever the answer is not that 500, the call
succeeds if and only if the caller is the receiver, the assigned volunteer or
an admin. -/
theorem completeDonation_outcome (w : World) (now : Timestamp) (user : User) (id : ObjectId) :
    (findDonation w id = none →
      completeDonation w now user id = (jsonMessage 404 "Donation not found", w)) ∧
    (∀ d, findDonation w id = some d →
      (¬ (d.receiverId = some user._id ∨ d.volunteerId = some user._id ∨
            user.role = Role.admin) →
        completeDonation w now user id =
          (jsonMessage 403 "Not authorized to complete this donation", w)) ∧
      ((completeDonation w now user id).1.status = 500 ↔
        (d.receiverId = some user._id ∨ d.volunteerId = some user._id ∨
            user.role = Role.admin) ∧ findUser w d.donorId = none) ∧
      ((completeDonation w now user id).1.status ≠ 500 →
        ((completeDonation w now user id).1.success = true ↔
          (d.receiverId = some user._id ∨ d.volunteerId = some user._id ∨
            user.role = Role.admin)))) := by
  constructor
  · intro hnone
    simp [completeDonation, hnone]
  · intro d hfind
    have hden : ¬ (d.receiverId = some user._id ∨ d.volunteerId = some user._id ∨
        user.role = Role.admin) →
        completeDonation w now user id =
          (jsonMessage 403 "Not authorized to complete this donation", w) := by
      intro h
      exact completeDonation_denied w now user id d hfind (fun e => h (Or.inl e))
        (fun e => h (Or.inr (Or.inl e))) (fun e => h (Or.inr (Or.inr e)))
    refine ⟨hden, ?_, ?_⟩
    · by_cases hcan : d.receiverId = some user._id ∨ d.volunteerId = some user._id ∨
          user.role = Role.admin
      · have hr := completeDonation_response w now user id d hfind hcan
        cases hdonor : findUser w d.donorId with
        | none => rw [hr.1 hdonor]; simp [jsonMessage, hcan]
        | some donor => rw [hr.2 donor hdonor]; simp
      · rw [hden hcan]; simp [jsonMessage, hcan]
    · intro hno
      by_cases hcan : d.receiverId = some user._id ∨ d.volunteerId = some user._id ∨
          user.role = Role.admin
      · have hr := completeDonation_response w now user id d hfind hcan
        cases hdonor : findUser w d.donorId with
        | none => rw [hr.1 hdonor] at hno; simp [jsonMessage] at hno
        | some donor => rw [hr.2 donor hdonor]; simp [hcan]
      · rw [hden hcan]; simp [jsonMessage, hcan]

/-- C22 at a concrete input: the owning donor 1 tries to complete the picked
donation 1 and gets 403 with the world unchanged. -/
theorem completeDonation_outcome_witness :
    findDonation (sampleWorld pickedDonation) 1 = some pickedDonation ∧
    ¬ (pickedDonation.receiverId = some sampleDonor._id ∨
        pickedDonation.volunteerId = some sampleDonor._id ∨ sampleDonor.role = Role.admin) ∧
    completeDonation (sampleWorld pickedDonation) 50 sampleDonor 1 =
      (jsonMessage 403 "Not authorized to complete this donation",
        sampleWorld pickedDonation) :=
  ⟨by decide, by decide,
   ((completeDonation_outcome (sampleWorld pickedDonation) 50 sampleDonor 1).2
      pickedDonation (by decide)).1 (by decide)⟩

/-! ### Reading a donation past its expiry -/

theorem getDonation_stored (w : World) (id : ObjectId) (d : Donation)
    (hfind : findDonation w id = some d) :
    getDonation w id = { status := 200, success := true, payload := Payload.donation d } := by
  simp [getDonation, hfind]

/-- C21 (the code at the failing input): the stored donation 1 is pending and
its expiryTime 100 is earlier than the current time 200; `getDonation` answers
with the document as stored, status pending, and `listDonations` with the
default filter (status pending) lists it with status pending, while the filter
status expired lists nothing. Neither handler has the clock among its inputs. -/
theorem read_reports_pending :
    sampleDonation.status = Status.pending ∧ sampleDonation.expiryTime < 200 ∧
    getDonation (sampleWorld sampleDonation) 1 =
      { status := 200, success := true, payload := Payload.donation sampleDonation } ∧
    listDonations (fun _ _ => 0) (sampleWorld sampleDonation) none {} =
      { status := 200, success := true,
        payload := Payload.donations [{ donation := sampleDonation }] } ∧
    listDonations (fun _ _ => 0) (sampleWorld sampleDonation) none
        { status := some Status.expired } =
      { status := 200, success := true, payload := Payload.donations [] } := by
  decide

/-! ### What an edit writes -/

theorem updateDonation_success (w : World) (user : User) (id : ObjectId) (body : EditBody)
    (d : Donation) (hfind : findDonation w id = some d)
    (hok : (updateDonation w user id body).1.success = true) :
    (updateDonation w user id body).1 =
      { status := 200, success := true, payload := Payload.donation (applyEdit d body) } ∧
    findDonation (updateDonation w user id body).2 id = some (applyEdit d body) ∧
    (d.donorId = user._id ∨ user.role = Role.admin) ∧
    d.status ≠ Status.accepted ∧ d.status ≠ Status.picked := by
  have hid := findDonation_id w id d hfind
  unfold updateDonation at hok ⊢
  simp only [hfind] at hok ⊢
  split
  · rename_i h; simp [h, jsonMessage] at hok
  · rename_i h
    split
    · rename_i h2; simp [h, h2, jsonMessage] at hok
    · rename_i h2
      split
      · rename_i h3; simp [h, h2, h3, jsonMessage] at hok
      · refine ⟨rfl, ?_, ?_, ?_, ?_⟩
        · exact find_replace w.donations id d (applyEdit d body) hfind hid
        · by_cases hd : d.donorId = user._id
          · exact Or.inl hd
          · right
            by_contra hr
            exact h (by simp [hd, hr])
        · intro e; exact h2 (by simp [e])
        · intro e; exact h2 (by simp [e])

/-- C25 fails on the edit handler: donor 1, the owner and not an admin, edits
the pending donation 1 with a body that carries status, donorId, receiverId and
volunteerId; the edit answers 200 and the stored donation has status completed,
donorId 9, receiverId 2 and volunteerId 3, where the claim says that all four
stay as they were (pending, 1, null, null). -/
theorem updateDonation_overwrites_parties :
    sampleDonor.role = Role.donor ∧ sampleDonation.donorId = sampleDonor._id ∧
    (findDonation (sampleWorld sampleDonation) 1).map
        (fun d => (d.status, d.donorId, d.receiverId, d.volunteerId)) =
      some (Status.pending, 1, none, none) ∧
    (updateDonation (sampleWorld sampleDonation) sampleDonor 1 forgedEditBody).1.status = 200 ∧
    (findDonation (updateDonation (sampleWorld sampleDonation) sampleDonor 1
        forgedEditBody).2 1).map
        (fun d => (d.status, d.donorId, d.receiverId, d.volunteerId)) =
      some (Status.completed, 9, some 2, some 3) := by
  decide

/-- What the edit handler does on success: the caller is the owning donor or
an admin, the stored status was neither accepted nor picked, and the stored
document is the old one with the keys of the body written over it; with a body
that carries none of the keys status, donorId, receiverId and volunteerId these
four are as before. -/
theorem updateDonation_fields (w : World) (user : User) (id : ObjectId) (body : EditBody)
    (d : Donation) (hfind : findDonation w id = some d)
    (hok : (updateDonation w user id body).1.success = true) :
    (d.donorId = user._id ∨ user.role = Role.admin) ∧
    d.status ≠ Status.accepted ∧ d.status ≠ Status.picked ∧
    ∃ d1, findDonation (updateDonation w user id body).2 id = some d1 ∧
      (updateDonation w user id body).1.payload = Payload.donation d1 ∧
      d1 = applyEdit d body ∧
      (body.status = none → d1.status = d.status) ∧
      (body.donorId = none → d1.donorId = d.donorId) ∧
      (body.receiverId = none → d1.receiverId = d.receiverId) ∧
      (body.volunteerId = none → d1.volunteerId = d.volunteerId) := by
  have h := updateDonation_success w user id body d hfind hok
  refine ⟨h.2.2.1, h.2.2.2.1, h.2.2.2.2, applyEdit d body, h.2.1, by rw [h.1], rfl, ?_, ?_, ?_, ?_⟩
  · intro hb; simp [applyEdit, hb]
  · intro hb; simp [applyEdit, hb]
  · intro hb; simp [applyEdit, hb]
  · intro hb; simp [applyEdit, hb]

/-! ### The available donations -/

theorem sorted_by_distance (l : List (Donation × ℚ)) :
    List.Sorted (fun a b : Donation × ℚ => a.2 - b.2 ≤ 0)
      (l.insertionSort (fun a b => a.2 - b.2 ≤ 0)) := by
  haveI : IsTotal (Donation × ℚ) (fun a b : Donation × ℚ => a.2 - b.2 ≤ 0) :=
    ⟨fun a b => by
      rcases le_total a.2 b.2 with h | h
      · exact Or.inl (by linarith)
      · exact Or.inr (by linarith)⟩
  haveI : IsTrans (Donation × ℚ) (fun a b : Donation × ℚ => a.2 - b.2 ≤ 0) :=
    ⟨fun a b c hab hbc => by
      have h1 : a.2 - b.2 ≤ 0 := hab
      have h2 : b.2 - c.2 ≤ 0 := hbc
      show a.2 - c.2 ≤ 0
      linarith⟩
  exact List.sorted_insertionSort _ l

theorem availableEntry_eq_some (getDistance : Coordinates → Coordinates → Nat) (w : World)
    (userLocation : Coordinates) (d : Donation) (p : Donation × ℚ) :
    availableEntry getDistance w userLocation d = some p ↔
      ∃ u loc, findUser w d.donorId = some u ∧ u.location = some loc ∧
        loc.coordinates.lat ≠ 0 ∧ loc.coordinates.lng ≠ 0 ∧
        p = (d, roundedKm (getDistance userLocation loc.coordinates)) := by
  unfold availableEntry
  cases hu : findUser w d.donorId with
  | none => simp
  | some u =>
    cases hl : u.location with
    | none => simp [hl]
    | some loc =>
      simp only [Option.some_bind, hl]
      by_cases h0 : loc.coordinates.lat = 0 ∨ loc.coordinates.lng = 0
      · rw [if_pos h0]
        constructor
        · intro h; cases h
        · rintro ⟨u1, loc1, h1, h2, h3, h4, _⟩
          cases h1
          rw [hl] at h2
          cases h2
          rcases h0 with h0 | h0
          · exact absurd h0 h3
          · exact absurd h0 h4
      · rw [if_neg h0]
        push_neg at h0
        constructor
        · intro h
          cases h
          exact ⟨u, loc, rfl, hl, h0.1, h0.2, rfl⟩
        · rintro ⟨u1, loc1, h1, h2, _, _, h5⟩
          cases h1
          rw [hl] at h2
          cases h2
          rw [h5]

/-- The rounding of `/available` at a tie: 1005 m give 1 (the product
1.005 * 100 is 100.49999999999999 in binary64) and 9995 m give the binary64
number nearest to 9.99; a whole number of kilometres is returned as it is. -/
theorem roundedKm_values :
    roundedKm 1005 = 1 ∧
    roundedKmFraction 9995 = toBinary64 { num := 999, den := 100 } ∧
    roundedKm 946000 = 946 ∧ roundedKm 0 = 0 := by
  have h1 : roundedKmFraction 1005 = { num := 2 ^ 52, den := 2 ^ 52 } := by decide
  have h2 : roundedKmFraction 9995 = toBinary64 { num := 999, den := 100 } := by decide
  have h3 : roundedKmFraction 946000 = { num := 946 * 2 ^ 43, den := 2 ^ 43 } := by decide
  have h4 : roundedKmFraction 0 = { num := 0, den := 1 } := by decide
  refine ⟨?_, h2, ?_, ?_⟩
  · unfold roundedKm; rw [h1]; norm_num [Fraction.toRat]
  · unfold roundedKm; rw [h3]; norm_num [Fraction.toRat]
  · unfold roundedKm; rw [h4]; norm_num [Fraction.toRat]

/-- C27 fails on the handler: donation 1 is pending, has no volunteer and lies
at the requester's own coordinates (12, 77), so its distance is 0 and the worded
view lists it for maxDistance 10; the handler measures to the profile
coordinates of the donor instead and answers 200 with an empty list, both when
the donor's profile is 946 km away and when the donor has no profile
coordinates at all. -/
theorem getAvailableForVolunteer_donor_profile :
    specAvailable sampleDistance (profileWorld farDonor) { lat := 12, lng := 77 } 10 =
      [(sampleDonation, 0)] ∧
    getAvailableForVolunteer sampleDistance (profileWorld farDonor) sampleVolunteer
        (some 12) (some 77) (some 10) =
      { status := 200, success := true, payload := Payload.donations [] } ∧
    specAvailable sampleDistance (profileWorld sampleDonor) { lat := 12, lng := 77 } 10 =
      [(sampleDonation, 0)] ∧
    getAvailableForVolunteer sampleDistance (profileWorld sampleDonor) sampleVolunteer
        (some 12) (some 77) (some 10) =
      { status := 200, success := true, payload := Payload.donations [] } := by
  have hkm : roundedKm 946000 = 946 := by
    have h3 : roundedKmFraction 946000 = { num := 946 * 2 ^ 43, den := 2 ^ 43 } := by decide
    unfold roundedKm; rw [h3]; norm_num [Fraction.toRat]
  refine ⟨?_, ?_, ?_, ?_⟩
  · norm_num [specAvailable, profileWorld, availableFilter, sampleDonation, sampleDistance,
      sampleLocation]
  · norm_num [getAvailableForVolunteer, authorize, sampleVolunteer, profileWorld,
      availableFilter, sampleDonation, findUser, farDonor, sampleDonor, availableEntry,
      sampleDistance, hkm, sampleLocation, List.filterMap_cons]
  · norm_num [specAvailable, profileWorld, availableFilter, sampleDonation, sampleDistance,
      sampleLocation]
  · norm_num [getAvailableForVolunteer, authorize, sampleVolunteer, profileWorld,
      availableFilter, sampleDonation, findUser, sampleDonor, availableEntry,
      sampleDistance, sampleLocation, List.filterMap_cons]

/-- What the handler returns as it is written: for a volunteer or admin with
both coordinates given, when the donor document of every candidate exists, the
answer is 200 with the donations with status pending or accepted and no
volunteer whose donor has profile coordinates, both non-zero, and whose
`roundedKm` distance from the requester to these profile coordinates is at most
maxDistance (10 when not given); each carries that distance, each stored
candidate appears once, and the list is in ascending order of distance. -/
theorem getAvailableForVolunteer_returns (getDistance : Coordinates → Coordinates → Nat)
    (w : World) (user : User) (lat lng : ℚ) (maxDistance : Option ℚ)
    (hrole : user.role = Role.volunteer ∨ user.role = Role.admin)
    (hdonors : ∀ d ∈ w.donations, availableFilter d = true →
      (findUser w d.donorId).isSome = true) :
    ∃ l : List (Donation × ℚ),
      getAvailableForVolunteer getDistance w user (some lat) (some lng) maxDistance =
        { status := 200, success := true,
          payload := Payload.donations
            (l.map (fun p => { donation := p.1, distance := some p.2 })) } ∧
      List.Perm l
        (((w.donations.filter availableFilter).filterMap
          (availableEntry getDistance w { lat := lat, lng := lng })).filter
            (fun p => decide (p.2 ≤ maxDistance.getD 10))) ∧
      (∀ d x, (d, x) ∈ l ↔
        d ∈ w.donations ∧ (d.status = Status.pending ∨ d.status = Status.accepted) ∧
        d.volunteerId = none ∧
        ∃ u loc, findUser w d.donorId = some u ∧ u.location = some loc ∧
          loc.coordinates.lat ≠ 0 ∧ loc.coordinates.lng ≠ 0 ∧
          x = roundedKm (getDistance { lat := lat, lng := lng } loc.coordinates) ∧
          x ≤ maxDistance.getD 10) ∧
      List.Pairwise (fun a b : Donation × ℚ => a.2 ≤ b.2) l := by
  have hp1 := List.perm_insertionSort (fun a b : Donation => b.createdAt ≤ a.createdAt)
    (w.donations.filter availableFilter)
  generalize hcand : (w.donations.filter availableFilter).insertionSort
    (fun a b => b.createdAt ≤ a.createdAt) = cand at hp1
  have hp2 : List.Perm
      ((cand.filterMap (availableEntry getDistance w { lat := lat, lng := lng })).filter
        (fun p => decide (p.2 ≤ maxDistance.getD 10)))
      (((w.donations.filter availableFilter).filterMap
        (availableEntry getDistance w { lat := lat, lng := lng })).filter
          (fun p => decide (p.2 ≤ maxDistance.getD 10))) :=
    (hp1.filterMap _).filter _
  generalize hnear : (cand.filterMap
    (availableEntry getDistance w { lat := lat, lng := lng })).filter
      (fun p => decide (p.2 ≤ maxDistance.getD 10)) = near at hp2
  have hs := sorted_by_distance near
  have hp3 := List.perm_insertionSort (fun a b : Donation × ℚ => a.2 - b.2 ≤ 0) near
  have hauth : authorize [Role.volunteer, Role.admin] user = true := by
    unfold authorize
    rcases hrole with h | h <;> rw [h] <;> decide
  have hany : cand.any (fun d => (findUser w d.donorId).isNone) = false := by
    rw [Bool.eq_false_iff]
    intro h
    rw [List.any_eq_true] at h
    obtain ⟨d, hd, hn⟩ := h
    have hd1 := hp1.subset hd
    rw [List.mem_filter] at hd1
    have := hdonors d hd1.1 hd1.2
    cases hf : findUser w d.donorId with
    | none => rw [hf] at this; cases this
    | some u => rw [hf] at hn; cases hn
  refine ⟨near.insertionSort (fun a b => a.2 - b.2 ≤ 0), ?_, hp3.trans hp2, ?_, ?_⟩
  · unfold getAvailableForVolunteer
    simp only [hauth, Bool.not_true, Bool.false_eq_true, if_false, hcand, hany, hnear]
  · intro d x
    rw [(hp3.trans hp2).mem_iff, List.mem_filter, List.mem_filterMap]
    simp only [decide_eq_true_eq]
    constructor
    · rintro ⟨⟨d1, hd1, he⟩, hle⟩
      rw [availableEntry_eq_some] at he
      obtain ⟨u, loc, hu, hl, h1, h2, hpx⟩ := he
      rw [List.mem_filter] at hd1
      have hdd : d = d1 := congrArg Prod.fst hpx
      have hxx : x = roundedKm (getDistance { lat := lat, lng := lng } loc.coordinates) :=
        congrArg Prod.snd hpx
      subst hdd
      have hf := hd1.2
      unfold availableFilter at hf
      simp only [Bool.and_eq_true, Bool.or_eq_true, beq_iff_eq, Option.isNone_iff_eq_none] at hf
      exact ⟨hd1.1, hf.1, hf.2, u, loc, hu, hl, h1, h2, hxx, hle⟩
    · rintro ⟨hd, hst, hv, u, loc, hu, hl, h1, h2, hx, hle⟩
      refine ⟨⟨d, ?_, ?_⟩, hle⟩
      · rw [List.mem_filter]
        refine ⟨hd, ?_⟩
        unfold availableFilter
        simp only [Bool.and_eq_true, Bool.or_eq_true, beq_iff_eq, Option.isNone_iff_eq_none]
        exact ⟨hst, hv⟩
      · rw [availableEntry_eq_some]
        exact ⟨u, loc, hu, hl, h1, h2, by rw [hx]⟩
  · exact hs.imp (fun h => by linarith)

/-- The handler on a donor whose profile has the coordinates of the requester:
donation 1 is listed with distance 0. -/
theorem getAvailableForVolunteer_near :
    getAvailableForVolunteer sampleDistance (profileWorld nearDonor) sampleVolunteer
        (some 12) (some 77) (some 10) =
      { status := 200, success := true,
        payload := Payload.donations [{ donation := sampleDonation, distance := some 0 }] } := by
  have hkm : roundedKm 0 = 0 := by
    have h4 : roundedKmFraction 0 = { num := 0, den := 1 } := by decide
    unfold roundedKm; rw [h4]; norm_num [Fraction.toRat]
  norm_num [getAvailableForVolunteer, authorize, sampleVolunteer, profileWorld,
    availableFilter, sampleDonation, findUser, nearDonor, sampleDonor, availableEntry,
    sampleDistance, hkm, sampleLocation, List.filterMap_cons]

/-! ### Rejected effects -/

theorem sendNotificationUnder_none (w : World) (now : Timestamp) (userId : ObjectId)
    (type title message : String) (data : NotificationData) :
    sendNotificationUnder {} w now userId type title message data =
      sendNotification w now userId type title message data := by
  by_cases hio : w.io = true <;> simp [sendNotificationUnder, sendNotification, hio]

/-- With no call rejecting, the handler of this section is the complete
handler. -/
theorem completeDonationUnder_none (w : World) (now : Timestamp) (user : User)
    (id : ObjectId) :
    completeDonationUnder {} w now user id = completeDonation w now user id := by
  unfold completeDonationUnder completeDonation checkBadgesUnder
  simp only [sendNotificationUnder_none, Bool.false_eq_true, if_false]

/-- Stored donations do not depend on notifications. -/
theorem sendNotificationUnder_donations (f : Faults) (w : World) (now : Timestamp)
    (userId : ObjectId) (type title message : String) (data : NotificationData) :
    (sendNotificationUnder f w now userId type title message data).2.donations =
      w.donations := by
  unfold sendNotificationUnder
  split
  · rfl
  · split
    · dsimp only
      split
      · split <;> rfl
      · rfl
    · rfl

/-- Rejected notifications never change the answer of the complete handler:
when the badge query does not reject, the response is that of the handler
without any rejected call, and the stored donations are the same. -/
theorem completeDonationUnder_notifications (f : Faults) (w : World) (now : Timestamp)
    (user : User) (id : ObjectId) (hb : f.badgeQuery = false) :
    (completeDonationUnder f w now user id).1 = (completeDonation w now user id).1 ∧
    (completeDonationUnder f w now user id).2.donations =
      (completeDonation w now user id).2.donations := by
  unfold completeDonationUnder completeDonation checkBadgesUnder
  rw [hb]
  simp only [Bool.false_eq_true, if_false]
  cases findDonation w id with
  | none => exact ⟨rfl, rfl⟩
  | some donation =>
    dsimp only
    split
    · exact ⟨rfl, rfl⟩
    · split
      · exact ⟨rfl, rfl⟩
      · refine ⟨rfl, ?_⟩
        dsimp only
        split <;> split <;>
          simp only [sendNotificationUnder_donations, sendNotification_donations]

/-- C24 fails on the complete handler. Volunteer 3 completes the picked
donation 1 at time 30 while the `Donation.find` of `checkBadges` rejects: the
answer is 500 "Server error completing donation", and the stored status is
completed (nothing is rolled back, but the operation reports failure and
no notification is stored). The same answer comes without any rejected call
when the donor document is missing, where `donor.addPoints` throws. A rejected
`Notification.create` or a throwing `emit`, which `sendNotification` catches
itself, leaves the answer at 200 with the completed donation. -/
theorem completeDonation_badge_failure :
    (completeDonationUnder { badgeQuery := true } (sampleWorld pickedDonation) 30
        sampleVolunteer 1).1 = jsonMessage 500 "Server error completing donation" ∧
    statusOf (completeDonationUnder { badgeQuery := true } (sampleWorld pickedDonation) 30
        sampleVolunteer 1).2 1 = some Status.completed ∧
    (completeDonationUnder { badgeQuery := true } (sampleWorld pickedDonation) 30
        sampleVolunteer 1).2.notifications = [] ∧
    (completeDonation (sampleWorld orphanDonation) 30 sampleVolunteer 1).1 =
      jsonMessage 500 "Server error completing donation" ∧
    statusOf (completeDonation (sampleWorld orphanDonation) 30 sampleVolunteer 1).2 1 =
      some Status.completed ∧
    (completeDonationUnder { notificationCreate := true } (sampleWorld pickedDonation) 30
        sampleVolunteer 1).1.status = 200 ∧
    (completeDonationUnder { emit := true } (sampleWorld pickedDonation) 30
        sampleVolunteer 1).1.status = 200 := by
  refine ⟨by decide, by decide, by decide, by decide, by decide, ?_, ?_⟩
  · unfold completeDonationUnder
    simp [sampleWorld, findDonation, pickedDonation, acceptedDonation, sampleDonation,
      sampleVolunteer, saveDonation, preSave, findUser, sampleUsers, sampleDonor,
      checkBadgesUnder]
  · unfold completeDonationUnder
    simp [sampleWorld, findDonation, pickedDonation, acceptedDonation, sampleDonation,
      sampleVolunteer, saveDonation, preSave, findUser, sampleUsers, sampleDonor,
      checkBadgesUnder]

end FoodDonation
